import Mathlib

/-!
# Catalog bootstrap of operator-sdk: registry pod and index-image catalog creator

A shallow embedding of

* `internal/olm/operator/registry/index/registry_pod.go`
* `internal/olm/operator/registry/index_image.go`
* `internal/olm/operator/registry/catalog.go`
* `internal/olm/operator/registry/olm_resources.go` (the catalog-source constructor)

Go strings are Lean strings, a Go `error` result is an `Option GoError`
(`none` is `nil`), a `(T, error)` result is an `Except GoError T` unless the
value returned next to the error matters. Code that talks to the cluster
passes the client explicitly and returns the client it leaves behind.
-/

set_option autoImplicit false
set_option linter.dupNamespace false

namespace OperatorSDK

/-! ## Go runtime: errors, whitespace, quoting -/

/-- The `metav1.StatusReason` of an API status error; a string type in Go. -/
abbrev StatusReason := String

/-- The reason `metav1.StatusReasonNotFound`. -/
def StatusReasonNotFound : StatusReason := "NotFound"

/-- The reason `metav1.StatusReasonAlreadyExists`. -/
def StatusReasonAlreadyExists : StatusReason := "AlreadyExists"

/-- Go error values, by the way they are built in the sources:
`errors.New` and `fmt.Errorf` without `%w` give an `errorString`,
`fmt.Errorf` with `%w` gives a `wrapError` that keeps the wrapped error,
and the API machinery reports a `statusError` carrying a reason. -/
inductive GoError where
  | errorString (s : String)
  | wrapError (msg : String) (err : GoError)
  | statusError (reason : StatusReason) (message : String)
  deriving DecidableEq, Repr

/-- The method `Error()` of an error value: its message. -/
def GoError.Error : GoError → String
  | .errorString s => s
  | .wrapError msg _ => msg
  | .statusError _ message => message

/-- `k8serrors.IsNotFound`: the error is an API status whose reason is
`NotFound` (the reason is read off the error value itself). -/
def IsNotFound : GoError → Bool
  | .statusError reason _ => reason == StatusReasonNotFound
  | _ => false

/-- `unicode.IsSpace`: the Unicode white space property. -/
def isSpace (c : Char) : Bool :=
  let n := c.toNat
  n == 0x09 || n == 0x0A || n == 0x0B || n == 0x0C || n == 0x0D || n == 0x20 ||
  n == 0x85 || n == 0xA0 || n == 0x1680 || (0x2000 ≤ n && n ≤ 0x200A) ||
  n == 0x2028 || n == 0x2029 || n == 0x202F || n == 0x205F || n == 0x3000

/-- `strings.TrimSpace`: the string without leading and trailing white space. -/
def TrimSpace (s : String) : String :=
  String.mk ((s.data.dropWhile isSpace).reverse.dropWhile isSpace).reverse

/-- A lower-case hexadecimal digit. -/
def hexDigit (n : Nat) : Char :=
  match n % 16 with
  | 0 => '0' | 1 => '1' | 2 => '2' | 3 => '3' | 4 => '4' | 5 => '5' | 6 => '6' | 7 => '7'
  | 8 => '8' | 9 => '9' | 10 => 'a' | 11 => 'b' | 12 => 'c' | 13 => 'd' | 14 => 'e' | _ => 'f'

/-- The `width` low hexadecimal digits of `n`, most significant first. -/
def hexDigits : Nat → Nat → List Char
  | 0, _ => []
  | width + 1, n => hexDigits width (n / 16) ++ [hexDigit n]

/-- `strconv.IsPrint`, with the Unicode tables beyond ASCII taken as the
parameter `unicodeIsPrint`. -/
def IsPrint (unicodeIsPrint : Char → Bool) (r : Char) : Bool :=
  if r.toNat < 0x80 then 0x20 ≤ r.toNat && r.toNat ≤ 0x7E else unicodeIsPrint r

/-- `strconv.appendEscapedRune` for the double quote, neither ASCII-only nor
graphic-only: what `%q` writes for one rune. -/
def appendEscapedRune (unicodeIsPrint : Char → Bool) (r : Char) : List Char :=
  if r = '"' ∨ r = '\\' then ['\\', r]
  else if IsPrint unicodeIsPrint r then [r]
  else if r = '\x07' then ['\\', 'a']
  else if r = '\x08' then ['\\', 'b']
  else if r = '\x0c' then ['\\', 'f']
  else if r = '\n' then ['\\', 'n']
  else if r = '\r' then ['\\', 'r']
  else if r = '\t' then ['\\', 't']
  else if r = '\x0b' then ['\\', 'v']
  else if r.toNat < 0x20 then ['\\', 'x'] ++ hexDigits 2 r.toNat
  else if r.toNat < 0x10000 then ['\\', 'u'] ++ hexDigits 4 r.toNat
  else ['\\', 'U'] ++ hexDigits 8 r.toNat

/-- `strconv.Quote`, the verb `%q` applied to a string: a double-quoted Go
string literal. -/
def Quote (unicodeIsPrint : Char → Bool) (s : String) : String :=
  String.mk (['"'] ++ (s.data.map (appendEscapedRune unicodeIsPrint)).flatten ++ ['"'])

/-! ## `registry_pod.go`: constants and the bundle add mode -/

def defaultIndexImage : String := "quay.io/operator-framework/upstream-opm-builder:latest"

/-- The default grpc container port that the registry pod exposes. -/
def registryGRPCPort : Int := 50051

def registryContainerName : String := "registry-grpc"

def registryContainerPortName : String := "grpc"

/-- The type of `BundleAddMode` in `RegistryPod`; a string type in Go. -/
abbrev BundleAddModeType := String

def SemverBundleAddMode : BundleAddModeType := "semver"

def ReplacesBundleAddMode : BundleAddModeType := "replaces"

/-- The function `ParseBundleAddMode`: both results, the mode and the error. -/
def ParseBundleAddMode (unicodeIsPrint : Char → Bool) (modeRaw : String) :
    BundleAddModeType × Option GoError :=
  if modeRaw = SemverBundleAddMode ∨ modeRaw = ReplacesBundleAddMode then
    (modeRaw, none)
  else
    ("", some (.errorString ("unknown bundle add mode " ++ Quote unicodeIsPrint modeRaw)))

/-- The struct `RegistryPod`. -/
structure RegistryPod where
  BundleAddMode : BundleAddModeType
  BundleImage : String
  IndexImage : String
  DBPath : String
  deriving DecidableEq, Repr

/-- The method `setDefaults`; the receiver is returned. -/
def RegistryPod.setDefaults (rp : RegistryPod) : RegistryPod :=
  let rp := if rp.IndexImage = "" then { rp with IndexImage := defaultIndexImage } else rp
  if rp.BundleAddMode = "" then
    if rp.IndexImage = defaultIndexImage then
      { rp with BundleAddMode := SemverBundleAddMode }
    else
      { rp with BundleAddMode := ReplacesBundleAddMode }
  else rp

/-- The method `validate`. -/
def RegistryPod.validate (unicodeIsPrint : Char → Bool) (rp : RegistryPod) : Option GoError :=
  if (TrimSpace rp.BundleImage).length < 1 then
    some (.errorString "bundle image cannot be empty")
  else if (TrimSpace rp.DBPath).length < 1 then
    some (.errorString "registry database path cannot be empty")
  else if (TrimSpace rp.BundleAddMode).length < 1 then
    some (.errorString "bundle add mode cannot be empty")
  else if rp.BundleAddMode ≠ SemverBundleAddMode ∧ rp.BundleAddMode ≠ ReplacesBundleAddMode then
    some (.errorString ("invalid bundle mode " ++ Quote unicodeIsPrint rp.BundleAddMode ++
      ": must be one of [" ++ Quote unicodeIsPrint ReplacesBundleAddMode ++ ", " ++
      Quote unicodeIsPrint SemverBundleAddMode ++ "]"))
  else none

/-- `GetRegistryPodHost`: `fmt.Sprintf("%s:%d", ipStr, registryGRPCPort)`. -/
def GetRegistryPodHost (ipStr : String) : String :=
  ipStr ++ ":" ++ toString registryGRPCPort

/-! ## `text/template`, as far as `getContainerCmd` uses it -/

/-- A node of a parsed template: literal text, or the action that prints a
field of the data. -/
inductive TemplateNode where
  | text (s : String)
  | field (name : String)
  deriving DecidableEq, Repr

/-- The action between the delimiters: blanks around it are dropped and what
is left has to be a field reference `.Name`. -/
def parseAction (body : List Char) : Option TemplateNode :=
  match (body.dropWhile (· == ' ')).reverse.dropWhile (· == ' ') with
  | [] => none
  | rev =>
    match rev.reverse with
    | '.' :: name => if name = [] ∨ name.any (· == ' ') then none else some (.field (String.mk name))
    | _ => none

/-- The lexer and parser of `Parse`: the input is cut at the delimiters, read
one character at a time; the flag tells whether the position is inside an
action, `acc` holds the characters of the current piece in reverse, so a
delimiter is complete when its second brace meets the first on top of `acc`. -/
def parseNodes : List Char → Bool → List Char → Option (List TemplateNode)
  | [], false, acc => some (if acc = [] then [] else [.text (String.mk acc.reverse)])
  | [], true, _ => none
  | c :: rest, inAction, acc =>
    if inAction = false ∧ c = '\x7b' ∧ acc.head? = some '\x7b' then
      (parseNodes rest true []).map
        (fun ns => if acc.tail = [] then ns else .text (String.mk acc.tail.reverse) :: ns)
    else if inAction = true ∧ c = '\x7d' ∧ acc.head? = some '\x7d' then
      match parseAction acc.tail.reverse, parseNodes rest false [] with
      | some n, some ns => some (n :: ns)
      | _, _ => none
    else parseNodes rest inAction (c :: acc)

/-- `template.New(name).Parse(text)`; `none` is a parse error, on which
`template.Must` panics. -/
def templateParse (text : String) : Option (List TemplateNode) :=
  parseNodes text.data false []

/-- A value of a field of the template data. -/
inductive FieldValue where
  | str (s : String)
  | int (n : Int)
  deriving DecidableEq, Repr

/-- What an action prints for a value: the string itself, a number in decimal. -/
def FieldValue.print : FieldValue → String
  | .str s => s
  | .int n => toString n

/-- `Execute`: the nodes are written in order; a field the data does not have
is an error. -/
def templateExecute (data : List (String × FieldValue)) :
    List TemplateNode → Except GoError String
  | [] => .ok ""
  | .text s :: rest =>
    match templateExecute data rest with
    | .ok out => .ok (s ++ out)
    | .error e => .error e
  | .field name :: rest =>
    match data.lookup name with
    | none => .error (.errorString ("template: containerCommand: can't evaluate field " ++ name))
    | some v =>
      match templateExecute data rest with
      | .ok out => .ok (v.print ++ out)
      | .error e => .error e

/-- The template text of `getContainerCmd`. -/
def containerCommand : String :=
  "/bin/mkdir -p \x7b\x7b .DBPath \x7d\x7d &&" ++
  "/bin/opm registry add -d \x7b\x7b .DBPath \x7d\x7d -b \x7b\x7b.BundleImage\x7d\x7d --mode=\x7b\x7b.BundleAddMode\x7d\x7d &&" ++
  "/bin/opm registry serve -d \x7b\x7b .DBPath \x7d\x7d -p \x7b\x7b.GRPCPort\x7d\x7d"

/-- The local struct `bundleCmd` of `getContainerCmd`, as the fields the
template can reach. -/
def bundleCmd (rp : RegistryPod) : List (String × FieldValue) :=
  [("BundleAddMode", .str rp.BundleAddMode), ("BundleImage", .str rp.BundleImage),
   ("DBPath", .str rp.DBPath), ("GRPCPort", .int registryGRPCPort)]

/-- The method `getContainerCmd`. A template that does not parse makes
`template.Must` panic; the model reports that as an error too. -/
def RegistryPod.getContainerCmd (rp : RegistryPod) : Except GoError String :=
  match templateParse containerCommand with
  | none => .error (.errorString "template: containerCommand: parse error")
  | some tmp =>
    match templateExecute (bundleCmd rp) tmp with
    | .error err => .error (.wrapError ("error in parsing container command: " ++ err.Error) err)
    | .ok out => .ok out


/-! ## Kubernetes objects, with the fields the sources read or write -/

/-- The type `metav1.OwnerReference`. -/
structure OwnerReference where
  APIVersion : String
  Kind : String
  Name : String
  UID : String
  deriving DecidableEq, Repr

/-- The type `metav1.ObjectMeta`. -/
structure ObjectMeta where
  Name : String
  Namespace : String
  UID : String := ""
  OwnerReferences : List OwnerReference := []
  Annotations : List (String × String) := []
  deriving DecidableEq, Repr

/-- The type `metav1.TypeMeta`. -/
structure TypeMeta where
  APIVersion : String := ""
  Kind : String := ""
  deriving DecidableEq, Repr

/-- The type `corev1.ContainerPort`. -/
structure ContainerPort where
  Name : String
  ContainerPort : Int
  deriving DecidableEq, Repr

/-- The type `corev1.Container`. -/
structure Container where
  Name : String
  Image : String
  Command : List String
  Ports : List ContainerPort
  deriving DecidableEq, Repr

/-- The type `corev1.PodSpec`. -/
structure PodSpec where
  Containers : List Container
  deriving DecidableEq, Repr

/-- The type `corev1.PodStatus`. -/
structure PodStatus where
  Phase : String := ""
  PodIP : String := ""
  deriving DecidableEq, Repr

/-- The type `corev1.Pod`. -/
structure Pod where
  ObjectMeta : ObjectMeta
  Spec : PodSpec
  Status : PodStatus := {}
  deriving DecidableEq, Repr

/-- The phase `corev1.PodRunning`. -/
def PodRunning : String := "Running"

/-- The type `v1alpha1.GRPCConnectionState`. -/
structure GRPCConnectionState where
  LastObservedState : String
  deriving DecidableEq, Repr

/-- The type `v1alpha1.CatalogSourceSpec`. -/
structure CatalogSourceSpec where
  SourceType : String := ""
  Address : String := ""
  DisplayName : String := ""
  Publisher : String := ""
  deriving DecidableEq, Repr

/-- The type `v1alpha1.CatalogSourceStatus`. -/
structure CatalogSourceStatus where
  GRPCConnectionState : Option GRPCConnectionState := none
  deriving DecidableEq, Repr

/-- The type `v1alpha1.CatalogSource`. -/
structure CatalogSource where
  TypeMeta : TypeMeta := {}
  ObjectMeta : ObjectMeta
  Spec : CatalogSourceSpec := {}
  Status : CatalogSourceStatus := {}
  deriving DecidableEq, Repr

/-- The source type `v1alpha1.SourceTypeGrpc`. -/
def SourceTypeGrpc : String := "grpc"

/-- The type `schema.GroupVersionKind`. -/
structure GroupVersionKind where
  Group : String
  Version : String
  Kind : String
  deriving DecidableEq, Repr

/-- `GroupVersion().String()` of a group-version-kind. -/
def GroupVersionKind.GroupVersionString (gvk : GroupVersionKind) : String :=
  if gvk.Group = "" then gvk.Version else gvk.Group ++ "/" ++ gvk.Version

/-- The group-version `v1alpha1.SchemeGroupVersion` of the operators API. -/
def SchemeGroupVersion : GroupVersionKind :=
  { Group := "operators.coreos.com", Version := "v1alpha1", Kind := "" }

/-- The kind `v1alpha1.CatalogSourceKind`. -/
def CatalogSourceKind : String := "CatalogSource"

/-- The type `client.ObjectKey`, a namespaced name. -/
structure ObjectKey where
  Namespace : String
  Name : String
  deriving DecidableEq, Repr

/-- `client.ObjectKeyFromObject`: the accessor of a typed object never fails. -/
def ObjectKeyFromObject (meta : ObjectMeta) : Except GoError ObjectKey :=
  .ok { Namespace := meta.Namespace, Name := meta.Name }

/-! ## The cluster resource store behind `client.Client` -/

/-- What the resource store holds. -/
structure Store where
  pods : List Pod
  catalogSources : List CatalogSource
  deriving DecidableEq, Repr

/-- A call made through the client. -/
inductive Call where
  | get (resource : String) (key : ObjectKey)
  | create (resource : String) (key : ObjectKey)
  deriving DecidableEq, Repr

/-- The client with the store it talks to. `faults n` is the failure of the
call number `n` (counted from 0) when the API server or the transport fails
it; such a call leaves the store alone. `calls` records the calls made. -/
structure Client where
  store : Store
  faults : Nat → Option GoError
  calls : List Call

/-- `k8serrors.NewNotFound`. -/
def NewNotFound (unicodeIsPrint : Char → Bool) (resource name : String) : GoError :=
  .statusError StatusReasonNotFound (resource ++ " " ++ Quote unicodeIsPrint name ++ " not found")

/-- `k8serrors.NewAlreadyExists`. -/
def NewAlreadyExists (unicodeIsPrint : Char → Bool) (resource name : String) : GoError :=
  .statusError StatusReasonAlreadyExists
    (resource ++ " " ++ Quote unicodeIsPrint name ++ " already exists")

def podsResource : String := "pods"

def catalogSourcesResource : String := "catalogsources.operators.coreos.com"

/-- The key of a stored pod. -/
def Pod.key (p : Pod) : ObjectKey :=
  { Namespace := p.ObjectMeta.Namespace, Name := p.ObjectMeta.Name }

/-- The key of a stored catalog source. -/
def CatalogSource.key (cs : CatalogSource) : ObjectKey :=
  { Namespace := cs.ObjectMeta.Namespace, Name := cs.ObjectMeta.Name }

/-- `Client.Get` into a pod: the object is returned as the store holds it.
What a decoder keeps of the object that is read into, where the stored object
leaves a field unset, is not represented. -/
def Client.GetPod (unicodeIsPrint : Char → Bool) (cl : Client) (key : ObjectKey) :
    Except GoError Pod × Client :=
  let cl1 : Client := { cl with calls := cl.calls ++ [.get podsResource key] }
  match cl.faults cl.calls.length with
  | some err => (.error err, cl1)
  | none =>
    match cl.store.pods.find? (fun p => p.key = key) with
    | some p => (.ok p, cl1)
    | none => (.error (NewNotFound unicodeIsPrint podsResource key.Name), cl1)

/-- `Client.Create` of a pod: the error, and the client afterwards. -/
def Client.CreatePod (unicodeIsPrint : Char → Bool) (cl : Client) (pod : Pod) :
    Option GoError × Client :=
  let cl1 : Client := { cl with calls := cl.calls ++ [.create podsResource pod.key] }
  match cl.faults cl.calls.length with
  | some err => (some err, cl1)
  | none =>
    if cl.store.pods.any (fun p => p.key = pod.key) then
      (some (NewAlreadyExists unicodeIsPrint podsResource pod.ObjectMeta.Name), cl1)
    else
      (none, { cl1 with store := { cl.store with pods := cl.store.pods ++ [pod] } })

/-- `Client.Get` into a catalog source: the object is returned as the store
holds it. What a decoder keeps of the object that is read into, where the
stored object leaves a field unset, is not represented. -/
def Client.GetCatalogSource (unicodeIsPrint : Char → Bool) (cl : Client) (key : ObjectKey) :
    Except GoError CatalogSource × Client :=
  let cl1 : Client := { cl with calls := cl.calls ++ [.get catalogSourcesResource key] }
  match cl.faults cl.calls.length with
  | some err => (.error err, cl1)
  | none =>
    match cl.store.catalogSources.find? (fun cs => cs.key = key) with
    | some cs => (.ok cs, cl1)
    | none => (.error (NewNotFound unicodeIsPrint catalogSourcesResource key.Name), cl1)

/-- `Client.Create` of a catalog source: the error, and the client afterwards. -/
def Client.CreateCatalogSource (unicodeIsPrint : Char → Bool) (cl : Client)
    (cs : CatalogSource) : Option GoError × Client :=
  let cl1 : Client := { cl with calls := cl.calls ++ [.create catalogSourcesResource cs.key] }
  match cl.faults cl.calls.length with
  | some err => (some err, cl1)
  | none =>
    if cl.store.catalogSources.any (fun x => x.key = cs.key) then
      (some (NewAlreadyExists unicodeIsPrint catalogSourcesResource cs.ObjectMeta.Name), cl1)
    else
      (none, { cl1 with
        store := { cl.store with catalogSources := cl.store.catalogSources ++ [cs] } })

/-! ## What the sources take from outside -/

/-- The `runtime.Scheme` of the configuration, by the one answer the sources
ask of it: `apiutil.GVKForObject` for a catalog source. -/
structure Scheme where
  GVKForCatalogSource : Except GoError GroupVersionKind

/-- The struct `operator.Configuration`; its client is passed separately. -/
structure Configuration where
  Namespace : String
  Scheme : Scheme

/-- Functions and behaviour outside the files embedded here: the Unicode
table of `strconv`, the two name helpers of `internal/util/k8sutil`, the image
label reader of `internal/registry`, and what the other actors of the cluster
do to the store during one poll interval. -/
structure Env where
  unicodeIsPrint : Char → Bool
  FormatOperatorNameDNS1123 : String → String
  TrimDNS1123Label : String → String
  GetImageLabels : String → Except GoError (List (String × String))
  controllers : Store → Store

/-! ## `registry_pod.go`: building and creating the pod -/

/-- The function `getPodName`. -/
def getPodName (env : Env) (bundleImage : String) : String :=
  env.TrimDNS1123Label (env.FormatOperatorNameDNS1123 bundleImage)

/-- The method `podForBundleRegistry`. -/
def RegistryPod.podForBundleRegistry (env : Env) (rp : RegistryPod) (ns : String) :
    Except GoError Pod :=
  match rp.getContainerCmd with
  | .error err => .error (.errorString ("error in parsing container command: " ++ err.Error))
  | .ok containerCmd =>
    .ok {
      ObjectMeta := { Name := getPodName env rp.BundleImage, Namespace := ns }
      Spec := {
        Containers := [{
          Name := registryContainerName
          Image := rp.IndexImage
          Command := ["/bin/sh", "-c", containerCmd]
          Ports := [{ Name := registryContainerPortName, ContainerPort := registryGRPCPort }] }] } }

/-- The group of an `apiVersion` as `schema.ParseGroupVersion` reads it;
`none` when the string does not parse. -/
def parseGroup (apiVersion : String) : Option String :=
  if apiVersion = "" ∨ apiVersion = "/" then some ""
  else
    match apiVersion.splitOn "/" with
    | [_] => some ""
    | [g, _] => some g
    | _ => none

/-- The helper `referSameObject` of `controllerutil`: same group, kind and name. -/
def referSameObject (a b : OwnerReference) : Bool :=
  match parseGroup a.APIVersion, parseGroup b.APIVersion with
  | some ga, some gb => ga = gb ∧ a.Kind = b.Kind ∧ a.Name = b.Name
  | _, _ => false

/-- The owner references after `ref` is put in: it takes the place of the last
reference to the same object, or is appended when there is none. -/
def upsertOwnerRef (ref : OwnerReference) (existingRefs : List OwnerReference) :
    List OwnerReference :=
  match (existingRefs.reverse.findIdx? (referSameObject ref)) with
  | none => existingRefs ++ [ref]
  | some i => existingRefs.set (existingRefs.length - 1 - i) ref

/-- `controllerutil.SetOwnerReference` with a catalog source as the owner of a pod. -/
def SetOwnerReference (owner : CatalogSource) (object : Pod) (scheme : Scheme) :
    Except GoError Pod :=
  match scheme.GVKForCatalogSource with
  | .error err => .error err
  | .ok gvk =>
    let ref : OwnerReference :=
      { APIVersion := gvk.GroupVersionString, Kind := gvk.Kind,
        UID := owner.ObjectMeta.UID, Name := owner.ObjectMeta.Name }
    .ok { object with
      ObjectMeta := { object.ObjectMeta with
        OwnerReferences := upsertOwnerRef ref object.ObjectMeta.OwnerReferences } }

/-- The method `RegistryPod.Create`: the pod or the error, and the client
afterwards. -/
def RegistryPod.Create (env : Env) (rp : RegistryPod) (cfg : Configuration)
    (cs : CatalogSource) (cl : Client) : Except GoError Pod × Client :=
  let rp := rp.setDefaults
  match rp.validate env.unicodeIsPrint with
  | some err => (.error (.errorString ("invalid registry pod: " ++ err.Error)), cl)
  | none =>
    match rp.podForBundleRegistry env cfg.Namespace with
    | .error err =>
      (.error (.errorString ("error in building registry pod definition: " ++ err.Error)), cl)
    | .ok pod =>
      match ObjectKeyFromObject pod.ObjectMeta with
      | .error err =>
        (.error (.errorString ("error in getting object key from the registry pod name " ++
          pod.ObjectMeta.Name ++ ": " ++ err.Error)), cl)
      | .ok podKey =>
        match cl.GetPod env.unicodeIsPrint podKey with
        | (.ok existingPod, cl) => (.ok existingPod, cl)
        | (.error err, cl) =>
          if !IsNotFound err then (.error err, cl)
          else
            match SetOwnerReference cs pod cfg.Scheme with
            | .error err =>
              (.error (.errorString
                ("error in setting registry pod owner reference: " ++ err.Error)), cl)
            | .ok pod =>
              match cl.CreatePod env.unicodeIsPrint pod with
              | (some err, cl) =>
                (.error (.errorString ("error creating registry pod: " ++ err.Error)), cl)
              | (none, cl) => (.ok pod, cl)

/-! ## `wait.PollImmediateUntil` -/

/-- The constant `time.Millisecond`: a `time.Duration` is a number of
nanoseconds, and a context is given by the time that is left until its `Done`
channel closes. -/
def Millisecond : Nat := 1000000

/-- The error `wait.ErrWaitTimeout`. -/
def ErrWaitTimeout : GoError := .errorString "timed out waiting for the condition"

/-- The loop of `wait.WaitFor` behind `wait.PollUntil`, driven by a ticker of
period `interval`: `ticks` is the number of ticks that still come before the
stop channel closes and `ctx` the time left until it closes. On each tick the
other actors of the cluster have had the time since the evaluation before to
act, then the condition is evaluated. The result is the error, the state of
the condition closure, the client and the time left. -/
def WaitFor {α : Type} (env : Env) (interval : Nat)
    (condition : α → Client → Except GoError Bool × α × Client) :
    Nat → Nat → α → Client → Option GoError × α × Client × Nat
  | 0, _, a, cl => (some ErrWaitTimeout, a, cl, 0)
  | ticks + 1, ctx, a, cl =>
    match condition a { cl with store := env.controllers cl.store } with
    | (.error err, a, cl) => (some err, a, cl, ctx - interval)
    | (.ok true, a, cl) => (none, a, cl, ctx - interval)
    | (.ok false, a, cl) => WaitFor env interval condition ticks (ctx - interval) a cl

/-- `wait.PollUntil(interval, condition, stopCh)`, the stop channel closing
after `ctx`: the ticker fires at every multiple of `interval` up to then, a
tick at the very moment of closing included. The sources pass a positive
interval (the ticker of the library refuses any other). -/
def PollUntil {α : Type} (env : Env) (interval : Nat)
    (condition : α → Client → Except GoError Bool × α × Client)
    (ctx : Nat) (a : α) (cl : Client) : Option GoError × α × Client × Nat :=
  WaitFor env interval condition (ctx / interval) ctx a cl

/-- `wait.PollImmediateUntil(interval, condition, ctx.Done())`: the condition
is evaluated at once, and then on every tick until the context is done. -/
def PollImmediateUntil {α : Type} (env : Env) (interval : Nat)
    (condition : α → Client → Except GoError Bool × α × Client)
    (ctx : Nat) (a : α) (cl : Client) : Option GoError × α × Client × Nat :=
  match condition a cl with
  | (.error err, a, cl) => (some err, a, cl, ctx)
  | (.ok true, a, cl) => (none, a, cl, ctx)
  | (.ok false, a, cl) =>
    if ctx = 0 then (some ErrWaitTimeout, a, cl, ctx)
    else PollUntil env interval condition ctx a cl

/-! ## `olm_resources.go` and `catalog.go` -/

/-- The option `withSDKPublisher`. -/
def withSDKPublisher (pkgName : String) : CatalogSource → CatalogSource :=
  fun cs => { cs with Spec := { cs.Spec with DisplayName := pkgName, Publisher := "operator-sdk" } }

/-- The constructor `newCatalogSource`. -/
def newCatalogSource (name ns : String) (opts : List (CatalogSource → CatalogSource)) :
    CatalogSource :=
  let cs : CatalogSource :=
    { TypeMeta := { APIVersion := SchemeGroupVersion.GroupVersionString, Kind := CatalogSourceKind }
      ObjectMeta := { Name := name, Namespace := ns } }
  opts.foldl (fun cs opt => opt cs) cs

/-- The condition closure `catSrcCheck` of `waitForCatalogSource`; its state
is the catalog source it reads into. -/
def catSrcCheck (env : Env) (catSrcKey : ObjectKey) (cs : CatalogSource) (cl : Client) :
    Except GoError Bool × CatalogSource × Client :=
  match cl.GetCatalogSource env.unicodeIsPrint catSrcKey with
  | (.error err, cl) => (.error err, cs, cl)
  | (.ok cs, cl) =>
    match cs.Status.GRPCConnectionState with
    | some st => if st.LastObservedState = "READY" then (.ok true, cs, cl) else (.ok false, cs, cl)
    | none => (.ok false, cs, cl)

/-- The function `waitForCatalogSource`: the error, the catalog source as last
read, the client and the time left of the context. -/
def waitForCatalogSource (env : Env) (ctx : Nat) (cs : CatalogSource) (cl : Client) :
    Option GoError × CatalogSource × Client × Nat :=
  match ObjectKeyFromObject cs.ObjectMeta with
  | .error err =>
    (some (.errorString ("error in getting catalog source key: " ++ err.Error)), cs, cl, ctx)
  | .ok catSrcKey =>
    match PollImmediateUntil env (200 * Millisecond) (catSrcCheck env catSrcKey) ctx cs cl with
    | (some err, cs, cl, ctx) =>
      (some (.errorString ("catalog source connection is not ready: " ++ err.Error)), cs, cl, ctx)
    | (none, cs, cl, ctx) => (none, cs, cl, ctx)

/-! ## `encoding/json`, as far as `updateCatalogSource` uses it -/

/-- What `json.Marshal` writes for one rune of a string (HTML escaping on). -/
def jsonEscapeRune (r : Char) : List Char :=
  if r = '"' ∨ r = '\\' then ['\\', r]
  else if r = '\n' then ['\\', 'n']
  else if r = '\r' then ['\\', 'r']
  else if r = '\t' then ['\\', 't']
  else if r.toNat < 0x20 ∨ r = '<' ∨ r = '>' ∨ r = '&' ∨ r.toNat = 0x2028 ∨ r.toNat = 0x2029 then
    ['\\', 'u'] ++ hexDigits 4 r.toNat
  else [r]

/-- What `json.Marshal` writes for a string. -/
def jsonString (s : String) : String :=
  String.mk (['"'] ++ (s.data.map jsonEscapeRune).flatten ++ ['"'])

/-- `json.Marshal` of a `[]string`; `none` is the nil slice. -/
def jsonMarshalStrings : Option (List String) → Except GoError String
  | none => .ok "null"
  | some l => .ok ("[" ++ ",".intercalate (l.map jsonString) ++ "]")

/-! ## `index_image.go` -/

/-- The struct `IndexImageCatalogCreator`; `InjectBundles` is `none` for the
nil slice. -/
structure IndexImageCatalogCreator where
  PackageName : String
  IndexImage : String
  InjectBundles : Option (List String)
  InjectBundleMode : String
  BundleImage : String
  cfg : Configuration

def defaultDBPath : String := "/database/index.db"

/-- The method `getDBPath`. -/
def IndexImageCatalogCreator.getDBPath (env : Env) (c : IndexImageCatalogCreator) :
    Except GoError String :=
  match env.GetImageLabels c.IndexImage with
  | .error err => .error (.errorString ("get index image labels: " ++ err.Error))
  | .ok labels =>
    match labels.lookup "operators.operatorframework.io.index.database.v1" with
    | some dbPath => .ok dbPath
    | none => .ok defaultDBPath

/-- The condition closure `podCheck` of `createRegistryPod`; its state is the
pod it reads into. -/
def podCheck (env : Env) (podKey : ObjectKey) (pod : Pod) (cl : Client) :
    Except GoError Bool × Pod × Client :=
  match cl.GetPod env.unicodeIsPrint podKey with
  | (.error err, cl) =>
    (.error (.wrapError ("error getting pod " ++ podKey.Name ++ ": " ++ err.Error) err), pod, cl)
  | (.ok pod, cl) => (.ok (pod.Status.Phase = PodRunning), pod, cl)

/-- The method `createRegistryPod`: the pod or the error, the client
afterwards and the time left of the context. -/
def IndexImageCatalogCreator.createRegistryPod (env : Env) (c : IndexImageCatalogCreator)
    (ctx : Nat) (cs : CatalogSource) (dbPath : String) (cl : Client) :
    Except GoError Pod × Client × Nat :=
  let rp : RegistryPod :=
    { IndexImage := c.IndexImage, BundleImage := c.BundleImage, DBPath := dbPath,
      BundleAddMode := "" }
  match ParseBundleAddMode env.unicodeIsPrint c.InjectBundleMode with
  | (_, some err) => (.error err, cl, ctx)
  | (mode, none) =>
    let rp := { rp with BundleAddMode := mode }
    match rp.Create env c.cfg cs cl with
    | (.error err, cl) => (.error err, cl, ctx)
    | (.ok pod, cl) =>
      match ObjectKeyFromObject pod.ObjectMeta with
      | .error err => (.error err, cl, ctx)
      | .ok podKey =>
        match PollImmediateUntil env (200 * Millisecond) (podCheck env podKey) ctx pod cl with
        | (some err, _, cl, ctx) =>
          (.error (.errorString ("error waiting for registry pod " ++ podKey.Name ++
            " to run: " ++ err.Error)), cl, ctx)
        | (none, pod, cl, ctx) => (.ok pod, cl, ctx)

/-- The method `updateCatalogSource`: the error and the catalog source, which
is changed in memory only. -/
def IndexImageCatalogCreator.updateCatalogSource (c : IndexImageCatalogCreator)
    (podAddr : String) (cs : CatalogSource) : Option GoError × CatalogSource :=
  let cs : CatalogSource :=
    { cs with Spec := { cs.Spec with
        SourceType := SourceTypeGrpc, Address := GetRegistryPodHost podAddr } }
  match jsonMarshalStrings c.InjectBundles with
  | .error err =>
    (some (.errorString ("error in json marshal injected bundles: " ++ err.Error)), cs)
  | .ok injectedBundlesJSON =>
    (none, { cs with ObjectMeta := { cs.ObjectMeta with Annotations :=
      [("operators.operatorframework.io/index-image", c.IndexImage),
       ("operators.operatorframework.io/inject-bundle-mode", c.InjectBundleMode),
       ("operators.operatorframework.io/injected-bundles", injectedBundlesJSON)] } })

/-- The method `CreateCatalog`: the catalog source or the error, the client
afterwards and the time left of the context. The log lines are left out. -/
def IndexImageCatalogCreator.CreateCatalog (env : Env) (c : IndexImageCatalogCreator)
    (ctx : Nat) (name : String) (cl : Client) : Except GoError CatalogSource × Client × Nat :=
  match c.getDBPath env with
  | .error err => (.error (.errorString ("get database path: " ++ err.Error)), cl, ctx)
  | .ok dbPath =>
    let cs := newCatalogSource name c.cfg.Namespace [withSDKPublisher c.PackageName]
    match cl.CreateCatalogSource env.unicodeIsPrint cs with
    | (some err, cl) =>
      (.error (.wrapError ("error creating catalog source: " ++ err.Error) err), cl, ctx)
    | (none, cl) =>
      match c.createRegistryPod env ctx cs dbPath cl with
      | (.error err, cl, ctx) =>
        (.error (.errorString ("error in creating registry pod: " ++ err.Error)), cl, ctx)
      | (.ok registryPod, cl, ctx) =>
        match c.updateCatalogSource registryPod.Status.PodIP cs with
        | (some err, _) =>
          (.error (.errorString ("error in updating catalog source: " ++ err.Error)), cl, ctx)
        | (none, cs) =>
          match waitForCatalogSource env ctx cs cl with
          | (some err, _, cl, ctx) => (.error err, cl, ctx)
          | (none, cs, cl, ctx) => (.ok cs, cl, ctx)

/-! ## Go runtime: splitting strings, byte lengths -/

/-- `strings.Split(s, sep)` for a separator of one character, on the
characters of `s`: the pieces between the separators, so the empty input gives
one empty piece. -/
def splitChars (sep : Char) : List Char → List (List Char)
  | [] => [[]]
  | c :: rest =>
    if c = sep then [] :: splitChars sep rest
    else
      match splitChars sep rest with
      | [] => [[c]]
      | piece :: pieces => (c :: piece) :: pieces

/-- `strings.Split(s, sep)` for a separator of one character. -/
def Split (s : String) (sep : Char) : List String :=
  (splitChars sep s.data).map String.mk

/-- The characters before and after the first occurrence of `sep`, if any. -/
def cutAt (sep : Char) : List Char → Option (List Char × List Char)
  | [] => none
  | c :: rest =>
    if c = sep then some ([], rest)
    else
      match cutAt sep rest with
      | none => none
      | some (before, after) => some (c :: before, after)

/-- `strings.SplitN(s, sep, 2)` for a separator of one character: `s` itself
when it does not hold the separator, else what precedes and what follows the
first separator. -/
def SplitN2 (s : String) (sep : Char) : List String :=
  match cutAt sep s.data with
  | none => [s]
  | some (before, after) => [String.mk before, String.mk after]

/-- `strings.Join`. -/
def Join (elems : List String) (sep : String) : String :=
  sep.intercalate elems

/-- `len(s)`: the number of bytes of the UTF-8 encoding of `s`. -/
def len (s : String) : Nat :=
  (s.data.map Char.utf8Size).sum

/-- `strconv.QuoteToASCII`, the verb `%+q` applied to a string. -/
def QuoteToASCII (s : String) : String :=
  Quote (fun _ => false) s

/-! ## `k8s.io/apimachinery`: `validation.IsDNS1123Subdomain` -/

/-- The regular expression `[a-z0-9]([-a-z0-9]*[a-z0-9])?` of one label. -/
def dns1123LabelFmt : String := "[a-z0-9]([-a-z0-9]*[a-z0-9])?"

/-- The regular expression of a subdomain: labels separated by dots. -/
def dns1123SubdomainFmt : String :=
  dns1123LabelFmt ++ "(\\." ++ dns1123LabelFmt ++ ")*"

def dns1123SubdomainErrorMsg : String :=
  "a DNS-1123 subdomain must consist of lower case alphanumeric characters, " ++
  "\x27-\x27 or \x27.\x27, and must start and end with an alphanumeric character"

def DNS1123SubdomainMaxLength : Nat := 253

/-- A character of the class `[a-z0-9]`. -/
def isLowerAlnum (c : Char) : Bool :=
  c.isLower || c.isDigit

/-- The anchored match of `dns1123LabelFmt` against a whole label. -/
def matchesDNS1123Label (label : List Char) : Bool :=
  match label with
  | [] => false
  | first :: _ =>
    isLowerAlnum first && label.all (fun c => isLowerAlnum c || c == '-') &&
    (match label.getLast? with
     | some last => isLowerAlnum last
     | none => false)

/-- The anchored match of `dns1123SubdomainFmt` against `value`. -/
def matchesDNS1123Subdomain (value : String) : Bool :=
  (splitChars '.' value.data).all matchesDNS1123Label

/-- `validation.MaxLenError`. -/
def MaxLenError (length : Nat) : String :=
  "must be no more than " ++ toString length ++ " characters"

/-- `validation.RegexError` with one example. -/
def RegexError (msg fmt examples : String) : String :=
  msg ++ " (e.g. \x27" ++ examples ++ "\x27, regex used for validation is \x27" ++ fmt ++ "\x27)"

/-- `validation.IsDNS1123Subdomain`: the reasons why `value` is not a DNS-1123
subdomain, none when it is one. -/
def IsDNS1123Subdomain (value : String) : List String :=
  (if len value > DNS1123SubdomainMaxLength then [MaxLenError DNS1123SubdomainMaxLength]
   else []) ++
  (if matchesDNS1123Subdomain value then []
   else [RegexError dns1123SubdomainErrorMsg dns1123SubdomainFmt "example.com"])

/-! ## Fixtures: the name helpers of `internal/util/k8sutil`, and the test's configuration -/

/-- The bound `validation.DNS1123LabelMaxLength`. -/
def DNS1123LabelMaxLength : Nat := 63

/-- Whether `validation.IsDNS1123Label` reports nothing for `value`: at most 63
bytes, and the label expression matches. -/
def isDNS1123Label (value : String) : Bool :=
  decide (len value ≤ DNS1123LabelMaxLength) && matchesDNS1123Label value.data

/-- `regexp.ReplaceAllString` for the expression `[^a-zA-Z0-9]+` and the
replacement `-`: every run of characters that are no ASCII letters or digits
becomes one `-`. `inRun` tells that the character before was part of a run. -/
def replaceRuns : Bool → List Char → List Char
  | _, [] => []
  | inRun, c :: rest =>
    if c.isAlphanum then c :: replaceRuns false rest
    else if inRun then replaceRuns true rest
    else '-' :: replaceRuns true rest

/-- Modelled from the spec: `k8sutil.FormatOperatorNameDNS1123` of
`internal/util/k8sutil`, which is not among the sources. Section 4.1 gives its
purpose, a name over a limited character set; the body is what the helper of
this revision does: a name that is a DNS-1123 label already is returned as it
is, and in every other name each run of characters outside `[a-zA-Z0-9]`
becomes one separator `-`. Upper-case letters are kept. -/
def specFormatOperatorNameDNS1123 (name : String) : String :=
  if isDNS1123Label name then name else String.mk (replaceRuns false name.data)

/-- Modelled from the spec: `k8sutil.TrimDNS1123Label` of
`internal/util/k8sutil`, which is not among the sources. Section 4.1 gives its
purpose, a name of limited length; the body is what the helper of this revision
does: a label of more than 63 bytes is cut to its last 63 and the separators
at both ends of the cut are dropped, a shorter label is returned as it is. The
cut is made on characters, which are the bytes of the names the formatter
returns. -/
def specTrimDNS1123Label (label : String) : String :=
  if len label > DNS1123LabelMaxLength then
    String.mk (((label.data.drop (label.data.length - 63)).dropWhile
      (· == '-')).reverse.dropWhile (· == '-')).reverse
  else label

/-- An environment for concrete runs: the modelled name helpers, an index image
without labels, and a cluster in which nobody else acts. -/
def testEnv : Env :=
  { unicodeIsPrint := fun _ => false
    FormatOperatorNameDNS1123 := specFormatOperatorNameDNS1123
    TrimDNS1123Label := specTrimDNS1123Label
    GetImageLabels := fun _ => .ok []
    controllers := fun st => st }

/-- The configuration `newFakeConfig` of the test: namespace `default` and a
scheme that knows the operators API. -/
def newFakeConfig : Configuration :=
  { Namespace := "default"
    Scheme := ⟨Except.ok
      { Group := "operators.coreos.com", Version := "v1alpha1", Kind := "CatalogSource" }⟩ }

/-- The fake client of the test: an empty store and no failing call. -/
def newFakeClient : Client :=
  { store := { pods := [], catalogSources := [] }, faults := fun _ => none, calls := [] }

/-- The constructor `newRegistryPod` of the test. -/
def newRegistryPod (dbPath bundleImage : String) : RegistryPod :=
  { BundleImage := bundleImage, IndexImage := defaultIndexImage,
    BundleAddMode := SemverBundleAddMode, DBPath := dbPath }

/-- The catalog source `newCatalogSource()` of the test: only its type is set. -/
def testCatalogSource : CatalogSource :=
  { TypeMeta := { APIVersion := SchemeGroupVersion.GroupVersionString, Kind := CatalogSourceKind }
    ObjectMeta := { Name := "", Namespace := "" } }

/-- A pod that somebody else left at the name derived from the test's bundle
image: another image, another command, no owner. -/
def foreignPod : Pod :=
  { ObjectMeta := { Name := "quay-io-example-example-operator-bundle-0-2-0",
                    Namespace := "default" }
    Spec := { Containers := [{ Name := "other", Image := "busybox", Command := ["sleep"],
                               Ports := [] }] } }

/-- A store that already holds `foreignPod`, behind a client without failing
calls. -/
def clientWithForeignPod : Client :=
  { store := { pods := [foreignPod], catalogSources := [] }, faults := fun _ => none,
    calls := [] }

/-- A client on an empty store whose second call, the create, is refused by
the API server. -/
def clientRefusingCreate : Client :=
  { store := { pods := [], catalogSources := [] }
    faults := fun n =>
      if n = 1 then some (.statusError "Forbidden" "pods is forbidden") else none
    calls := [] }

/-- The registry pod of the test. -/
def testRegistryPod : RegistryPod :=
  newRegistryPod "/database/index.db" "quay.io/example/example-operator-bundle:0.2.0"

deriving instance DecidableEq for Except

/-- A creator with the values of the test: the bundle image of the test, no
index image, mode semver. -/
def testCreator : IndexImageCatalogCreator :=
  { PackageName := "example", IndexImage := "", InjectBundles := none,
    InjectBundleMode := "semver",
    BundleImage := "quay.io/example/example-operator-bundle:0.2.0", cfg := newFakeConfig }

/-- An environment in which the cluster does its part: within one interval
every pod is running with an address and every catalog source reports a ready
connection. -/
def liveEnv : Env :=
  { testEnv with
    controllers := fun st =>
      { pods := st.pods.map (fun p =>
          { p with Status := { Phase := PodRunning, PodIP := "10.0.0.1" } })
        catalogSources := st.catalogSources.map (fun c =>
          { c with Status := { GRPCConnectionState := some ⟨"READY"⟩ } }) } }

/-- A string that is empty or holds white space only. -/
def onlySpace (s : String) : Prop := ∀ c ∈ s.data, isSpace c = true

/-- A rune that `%q` writes as it is: printable ASCII other than the double
quote and the backslash. -/
def plainRune (c : Char) : Bool :=
  0x20 ≤ c.toNat && c.toNat ≤ 0x7E && c != '"' && c != '\\'

/-- A catalog source whose connection is reported as failing. -/
def failingCatalogSource : CatalogSource :=
  { ObjectMeta := { Name := "example-catalog", Namespace := "default" }
    Status := { GRPCConnectionState := some ⟨"TRANSIENT_FAILURE"⟩ } }

/-- A store that holds `failingCatalogSource`, behind a client without
failing calls. -/
def clientWithFailingCatalog : Client :=
  { store := { pods := [], catalogSources := [failingCatalogSource] }
    faults := fun _ => none
    calls := [] }

/-- A client on an empty store whose first call, the read, fails in the API
server. -/
def clientFailingRead : Client :=
  { store := { pods := [], catalogSources := [] }
    faults := fun n =>
      if n = 0 then some (.statusError "InternalError" "etcdserver: request timed out")
      else none
    calls := [] }

/-- What a slow cluster does in one interval: a pod without a phase becomes
Pending and a Pending pod becomes Running with an address; once every pod is
Running, a catalog source without a connection state gets `CONNECTING` and a
connecting one gets `READY`. -/
def slowControllers (st : Store) : Store :=
  { pods := st.pods.map (fun p =>
      if p.Status.Phase = "" then { p with Status := { Phase := "Pending" } }
      else if p.Status.Phase = "Pending" then
        { p with Status := { Phase := PodRunning, PodIP := "10.0.0.1" } }
      else p)
    catalogSources := st.catalogSources.map (fun c =>
      if st.pods.all (fun p => p.Status.Phase = PodRunning) then
        match c.Status.GRPCConnectionState with
        | none => { c with Status := { GRPCConnectionState := some ⟨"CONNECTING"⟩ } }
        | some st =>
          if st.LastObservedState = "CONNECTING" then
            { c with Status := { GRPCConnectionState := some ⟨"READY"⟩ } }
          else c
      else c) }

/-- An environment with the slow cluster. -/
def slowEnv : Env := { testEnv with controllers := slowControllers }

/-- A client on an empty store whose fifth call fails in the API server. -/
def clientFailingFifthCall : Client :=
  { store := { pods := [], catalogSources := [] }
    faults := fun n =>
      if n = 4 then some (.statusError "InternalError" "etcdserver: request timed out")
      else none
    calls := [] }

/-- The other actors of the cluster delete nothing: after their step every
pod and every catalog source of before is still there under its key. -/
def keepsObjects (controllers : Store → Store) : Prop :=
  ∀ st : Store,
    (∀ p ∈ st.pods, ∃ q ∈ (controllers st).pods, q.key = p.key) ∧
    (∀ c ∈ st.catalogSources, ∃ d ∈ (controllers st).catalogSources, d.key = c.key)

/-- A character that may stand in a resource name: a lower-case letter, a
digit or the separator `-`. -/
def legalNameChar (c : Char) : Bool :=
  c.isLower || c.isDigit || c == '-'

/-- An environment whose name helpers are the modelled ones of
`internal/util/k8sutil`. -/
def withSpecNames (env : Env) : Env :=
  { env with
    FormatOperatorNameDNS1123 := specFormatOperatorNameDNS1123
    TrimDNS1123Label := specTrimDNS1123Label }

/-- The states of the reader of JSON arrays of strings: before the array,
after the opening bracket, inside a string (with the characters read so far,
in reverse), after a backslash, inside a `\u` escape (with the number of
digits read and their value), after a string, after a comma, after the
closing bracket. -/
inductive JsonState where
  | start
  | afterOpen
  | inString (acc : List Char)
  | afterBackslash (acc : List Char)
  | inUnicode (acc : List Char) (count value : Nat)
  | afterString
  | afterComma
  | done
  deriving DecidableEq, Repr

/-- The value of a hexadecimal digit. -/
def hexVal (c : Char) : Option Nat :=
  if 0x30 ≤ c.toNat ∧ c.toNat ≤ 0x39 then some (c.toNat - 0x30)
  else if 0x61 ≤ c.toNat ∧ c.toNat ≤ 0x66 then some (c.toNat - 0x61 + 10)
  else if 0x41 ≤ c.toNat ∧ c.toNat ≤ 0x46 then some (c.toNat - 0x41 + 10)
  else none

/-- One step of the reader of JSON arrays of strings: the state and the
strings read so far (in reverse) after the character `c`; `none` when `c`
cannot stand there. -/
def jsonStep (st : JsonState) (out : List String) (c : Char) :
    Option (JsonState × List String) :=
  match st with
  | .start => if c = '[' then some (.afterOpen, out) else none
  | .afterOpen =>
    if c = ']' then some (.done, out)
    else if c = '"' then some (.inString [], out)
    else none
  | .inString acc =>
    if c = '"' then some (.afterString, String.mk acc.reverse :: out)
    else if c = '\\' then some (.afterBackslash acc, out)
    else some (.inString (c :: acc), out)
  | .afterBackslash acc =>
    if c = '"' ∨ c = '\\' ∨ c = '/' then some (.inString (c :: acc), out)
    else if c = 'n' then some (.inString ('\n' :: acc), out)
    else if c = 'r' then some (.inString ('\r' :: acc), out)
    else if c = 't' then some (.inString ('\t' :: acc), out)
    else if c = 'b' then some (.inString ('\x08' :: acc), out)
    else if c = 'f' then some (.inString ('\x0c' :: acc), out)
    else if c = 'u' then some (.inUnicode acc 0 0, out)
    else none
  | .inUnicode acc count value =>
    match hexVal c with
    | none => none
    | some v =>
      if count = 3 then some (.inString (Char.ofNat (value * 16 + v) :: acc), out)
      else some (.inUnicode acc (count + 1) (value * 16 + v), out)
  | .afterString =>
    if c = ',' then some (.afterComma, out)
    else if c = ']' then some (.done, out)
    else none
  | .afterComma => if c = '"' then some (.inString [], out) else none
  | .done => none

/-- The reader run over the characters of a text. -/
def jsonRun : List Char → JsonState → List String → Option (List String)
  | [], .done, out => some out.reverse
  | [], _, _ => none
  | c :: rest, st, out =>
    match jsonStep st out c with
    | none => none
    | some (st2, out2) => jsonRun rest st2 out2

/-- A reader of JSON arrays of strings: the strings of the array in order, or
`none` when the text is not a JSON array of strings. -/
def jsonDecodeStrings (text : String) : Option (List String) :=
  jsonRun text.data .start []

/-! ## `internal/flags/resolve_types.go` -/

def replaces : String := "replaces"

def skipRange : String := "skipRange"

/-- The type `ResolveTypes`: the values of a CSV's resolve types. -/
structure ResolveTypes where
  SkipRange : String
  Replaces : String
  deriving DecidableEq, Repr

/-- `removeQuotes`: `s` without one pair of matching surrounding quotes. The
source indexes bytes; a quote is one byte, so the first (last) byte is a quote
exactly when the first (last) character is. -/
def removeQuotes (s : String) : Except GoError String :=
  if len s < 2 then .ok s
  else
    match s.data with
    | [] => .ok s
    | trimChar :: rest =>
      if trimChar = '\x27' ∨ trimChar = '"' ∨ trimChar = '\x60' then
        if rest.getLast? ≠ some trimChar then
          .error (.errorString ("string " ++ s ++ " is incorrectly quoted"))
        else .ok (String.mk rest.dropLast)
      else .ok s

/-- `ResolveTypes.Validate`, with `semver.ParseRange` taken as the parameter
`ParseRange` (the error it returns, if any). -/
def ResolveTypes.Validate (unicodeIsPrint : Char → Bool)
    (ParseRange : String → Option GoError) (m : ResolveTypes) : Option GoError :=
  let errs := IsDNS1123Subdomain m.Replaces
  if m.Replaces ≠ "" ∧ errs.length > 0 then
    some (.errorString ("invalid replaces " ++ Quote unicodeIsPrint m.Replaces ++ ": [" ++
      Join (errs.map QuoteToASCII) " " ++ "]"))
  else if m.SkipRange ≠ "" then
    match ParseRange m.SkipRange with
    | some err =>
      some (.errorString ("invalid skipRange " ++ Quote unicodeIsPrint m.SkipRange ++ ": " ++
        err.Error))
    | none => none
  else none

/-- One turn of the loop of `ResolveTypes.Set` over the entry `mode`: the error
that ends the call, if any, and the receiver after the turn. -/
def ResolveTypes.setMode (unicodeIsPrint : Char → Bool) (m : ResolveTypes) (mode : String) :
    Option GoError × ResolveTypes :=
  match SplitN2 mode '=' with
  | [first, second] =>
    let modeType := TrimSpace first
    let value := TrimSpace second
    if modeType = "" then
      (some (.errorString "resolve mode type cannot be empty"), m)
    else if value = "" then
      (some (.errorString ("resolve mode value for type " ++ Quote unicodeIsPrint modeType ++
        " cannot be empty")), m)
    else
      match removeQuotes value with
      | .error err =>
        (some (.errorString ("error unquoting " ++ Quote unicodeIsPrint value ++ ": " ++
          err.Error)), m)
      | .ok valueUnquoted =>
        if TrimSpace modeType = replaces then
          if m.Replaces ≠ "" then
            (some (.errorString ("duplicate " ++ Quote unicodeIsPrint modeType ++
              " resolve mode")), m)
          else (none, { m with Replaces := valueUnquoted })
        else if TrimSpace modeType = skipRange then
          if m.SkipRange ≠ "" then
            (some (.errorString ("duplicate " ++ Quote unicodeIsPrint modeType ++
              " resolve mode")), m)
          else (none, { m with SkipRange := valueUnquoted })
        else
          (some (.errorString ("invalid resolve mode type " ++ Quote unicodeIsPrint modeType)), m)
  | _ =>
    (some (.errorString ("invalid resolve mode " ++ Quote unicodeIsPrint mode ++
      ": must have format \"<type>=<value>\"")), m)

/-- The loop of `ResolveTypes.Set` over the entries, left at the first error. -/
def ResolveTypes.setModes (unicodeIsPrint : Char → Bool) :
    List String → ResolveTypes → Option GoError × ResolveTypes
  | [], m => (none, m)
  | mode :: rest, m =>
    match m.setMode unicodeIsPrint mode with
    | (some err, m1) => (some err, m1)
    | (none, m1) => ResolveTypes.setModes unicodeIsPrint rest m1

/-- `ResolveTypes.Set` on the receiver `m`: the error returned, if any, and the
receiver after the call. -/
def ResolveTypes.Set (unicodeIsPrint : Char → Bool) (ParseRange : String → Option GoError)
    (m : ResolveTypes) (str : String) : Option GoError × ResolveTypes :=
  match ResolveTypes.setModes unicodeIsPrint (Split str ',') m with
  | (some err, m1) => (some err, m1)
  | (none, m1) => (m1.Validate unicodeIsPrint ParseRange, m1)

/-- `ResolveTypes.IsEmpty`. -/
def ResolveTypes.IsEmpty (m : ResolveTypes) : Bool :=
  m == { SkipRange := "", Replaces := "" }

/-- `ResolveTypes.String`. -/
def ResolveTypes.String (unicodeIsPrint : Char → Bool) (m : ResolveTypes) : String :=
  let types := []
  let types := if m.Replaces ≠ "" then
    types ++ [replaces ++ "=" ++ Quote unicodeIsPrint m.Replaces] else types
  let types := if m.SkipRange ≠ "" then
    types ++ [skipRange ++ "=" ++ Quote unicodeIsPrint m.SkipRange] else types
  Join types ","

/-- A version `MAJOR.MINOR.PATCH` of decimal numbers. -/
def isPlainVersion (v : List Char) : Bool :=
  match splitChars '.' v with
  | [a, b, c] => [a, b, c].all (fun n => !n.isEmpty && n.all Char.isDigit)
  | _ => false

/-- One comparator of a range: an operator made of `=`, `<`, `>`, `!`, possibly
none, before a plain version. -/
def isComparator (part : List Char) : Bool :=
  isPlainVersion (part.dropWhile (fun c => c == '=' || c == '<' || c == '>' || c == '!'))

/-- A stand-in for `semver.ParseRange` in the closed examples: it accepts the
ranges made of comparators over plain versions, separated by blanks and `||`,
which covers the ranges of `resolve_types_test.go`. -/
def testParseRange (s : String) : Option GoError :=
  let parts := (splitChars ' ' s.data).filter (fun part => !part.isEmpty)
  if !parts.isEmpty && parts.all (fun part => part == ['|', '|'] || isComparator part) then none
  else some (.errorString ("Could not get version from string: " ++ Quote (fun _ => false) s))

/-- The empty `ResolveTypes` the flag starts from. -/
def emptyResolveTypes : ResolveTypes :=
  { SkipRange := "", Replaces := "" }

/-- `Set` on an empty `ResolveTypes`, with the test stand-ins for what the
source takes from libraries. -/
def testSet (str : String) : Option GoError × ResolveTypes :=
  emptyResolveTypes.Set (fun _ => false) testParseRange str

/-! ## `cmd/operator-sdk/bundle/internal/output.go` -/

/-- The type `bundle.ValidationError` of the operator registry: a list of
inner errors. -/
structure ValidationError where
  Errors : List GoError
  deriving DecidableEq, Repr

/-- A non-nil error value as `NewOutput` tells them apart: either `errors.As`
finds a `bundle.ValidationError` in its chain, or it finds none and the error
is taken by its message. -/
inductive BundleError where
  | validation (verr : ValidationError)
  | other (err : GoError)
  deriving DecidableEq, Repr

/-- The type `Object`; the field `Type` is written `Typ`. -/
structure Object where
  Typ : String
  Message : String
  deriving DecidableEq, Repr

/-- The type `Output`. -/
structure Output where
  Passed : Bool
  Objects : List Object
  deriving DecidableEq, Repr

/-- The level `valerrors.LevelError`. -/
def LevelError : String := "Error"

/-- The body of the loop of `NewOutput` for one element of `errs`, `none` being
the nil error: the objects collected after it. -/
def appendObjects (objects : List Object) : Option BundleError → List Object
  | none => objects
  | some (.validation verr) =>
    objects ++ verr.Errors.map (fun valErr => { Typ := LevelError, Message := valErr.Error })
  | some (.other err) => objects ++ [{ Typ := LevelError, Message := err.Error }]

/-- The constructor `NewOutput`. -/
def NewOutput (errs : List (Option BundleError)) : Output :=
  let objects := errs.foldl appendObjects []
  { Passed := objects.length == 0, Objects := objects }

/-! ## `olm_resources.go`: subscriptions -/

/-- The type `v1alpha1.SubscriptionSpec`, with the fields the options set. -/
structure SubscriptionSpec where
  CatalogSource : String := ""
  CatalogSourceNamespace : String := ""
  Package : String := ""
  Channel : String := ""
  StartingCSV : String := ""
  deriving DecidableEq, Repr

/-- The type `v1alpha1.Subscription`; `Spec` is a pointer, `none` when nil. -/
structure Subscription where
  TypeMeta : TypeMeta := {}
  ObjectMeta : ObjectMeta
  Spec : Option SubscriptionSpec := none
  deriving DecidableEq, Repr

def SubscriptionKind : String := "Subscription"

/-- The run-time panic of a field access through a nil pointer, as an error
value. -/
def nilPointerDereference : GoError :=
  .errorString "runtime error: invalid memory address or nil pointer dereference"

/-- The function `getSubscriptionName`. -/
def getSubscriptionName (env : Env) (csvName : String) : String :=
  env.FormatOperatorNameDNS1123 csvName ++ "-sub"

/-- The option `withCatalogSource`: it assigns through `sub.Spec` without
looking whether the pointer is nil, which panics when it is. -/
def withCatalogSource (csName csNamespace : String) : Subscription → Except GoError Subscription :=
  fun sub =>
    match sub.Spec with
    | none => .error nilPointerDereference
    | some spec =>
      .ok { sub with Spec := some { spec with
        CatalogSource := csName, CatalogSourceNamespace := csNamespace } }

/-- The option `withPackageChannel`: it allocates the spec when the pointer is
nil. -/
def withPackageChannel (pkgName channelName startingCSV : String) :
    Subscription → Except GoError Subscription :=
  fun sub =>
    let spec : SubscriptionSpec :=
      match sub.Spec with
      | none => {}
      | some spec => spec
    .ok { sub with Spec := some { spec with
      Package := pkgName, Channel := channelName, StartingCSV := startingCSV } }

/-- The loop of `newSubscription` over the options, left at the first panic. -/
def applyOptions : List (Subscription → Except GoError Subscription) → Subscription →
    Except GoError Subscription
  | [], sub => .ok sub
  | opt :: opts, sub =>
    match opt sub with
    | .error err => .error err
    | .ok sub => applyOptions opts sub

/-- The constructor `newSubscription`: the subscription, or the panic of an
option. -/
def newSubscription (env : Env) (csvName ns : String)
    (opts : List (Subscription → Except GoError Subscription)) : Except GoError Subscription :=
  let sub : Subscription :=
    { TypeMeta := { APIVersion := SchemeGroupVersion.GroupVersionString, Kind := SubscriptionKind }
      ObjectMeta := { Name := getSubscriptionName env csvName, Namespace := ns } }
  applyOptions opts sub

/-! ## Words of the claims on the flag and on the command -/

/-- The type and the value of an entry `<type>=<value>`, white space around
each removed; `none` for an entry without `=`. -/
def entryOf (mode : String) : Option (String × String) :=
  match SplitN2 mode '=' with
  | [first, second] => some (TrimSpace first, TrimSpace second)
  | _ => none

/-- The values of the entries of type `t` among `entries`, in order. -/
def valuesOf (t : String) (entries : List String) : List String :=
  entries.filterMap (fun mode =>
    match entryOf mode with
    | some (modeType, value) => if modeType = t then some value else none
    | none => none)

/-- The number of occurrences of the clause separator `&&` in a command, as
`strings.Count` counts them. -/
def countSeparators : List Char → Nat
  | [] => 0
  | [_] => 0
  | a :: b :: rest =>
    if a = '&' ∧ b = '&' then countSeparators rest + 1 else countSeparators (b :: rest)

/-- A registry pod whose bundle image carries a clause of its own. -/
def injectingRegistryPod : RegistryPod :=
  { BundleAddMode := "semver"
    BundleImage := "quay.io/example/bundle:0.1.0 && touch /tmp/owned ; true"
    IndexImage := defaultIndexImage
    DBPath := "/database/index.db" }

/-- A registry pod that is already running under the name derived from the
test's bundle image, built earlier with the mode replaces. -/
def replacesPod : Pod :=
  { ObjectMeta := { Name := "quay-io-example-example-operator-bundle-0-2-0",
                    Namespace := "default" }
    Spec := { Containers := [{
      Name := "registry-grpc"
      Image := "quay.io/operator-framework/upstream-opm-builder:latest"
      Command := ["/bin/sh", "-c",
        "/bin/mkdir -p /database/index.db &&/bin/opm registry add -d /database/index.db" ++
        " -b quay.io/example/example-operator-bundle:0.2.0 --mode=replaces" ++
        " &&/bin/opm registry serve -d /database/index.db -p 50051"]
      Ports := [{ Name := "grpc", ContainerPort := 50051 }] }] }
    Status := { Phase := "Running", PodIP := "10.0.0.1" } }

/-- A store that already holds `replacesPod`, behind a client without failing
calls. -/
def clientWithReplacesPod : Client :=
  { store := { pods := [replacesPod], catalogSources := [] }, faults := fun _ => none,
    calls := [] }

/-- The invocation number `k` (from 0) of a condition that is polled from the
state `a` and the client `cl`, provided no earlier invocation has ended the
poll: what it returns, and the state and the client it leaves. The other
actors of the cluster act between two invocations. -/
def invocation {α : Type} (env : Env)
    (condition : α → Client → Except GoError Bool × α × Client) (a : α) (cl : Client) :
    Nat → Except GoError Bool × α × Client
  | 0 => condition a cl
  | k + 1 =>
    condition (invocation env condition a cl k).2.1
      { (invocation env condition a cl k).2.2 with
        store := env.controllers (invocation env condition a cl k).2.2.store }

/-- A store that holds a catalog source named `example-catalog` whose
connection has not been observed yet, behind a client without failing calls. -/
def clientWithNewCatalog : Client :=
  { store := { pods := []
               catalogSources := [newCatalogSource "example-catalog" "default" []] }
    faults := fun _ => none
    calls := [] }

/-! ## Lemmas on the runtime helpers -/

theorem dropWhile_reverse_dropWhile_eq_nil (p : Char → Bool) (l : List Char) :
    (l.dropWhile p).reverse.dropWhile p = [] ↔ ∀ c ∈ l, p c = true := by
  constructor
  · intro h
    have h1 : ∀ c ∈ l.dropWhile p, p c = true := by
      intro c hc
      exact (List.dropWhile_eq_nil_iff.mp h) c (List.mem_reverse.mpr hc)
    have h2 : l.dropWhile p = [] := by
      cases hd : l.dropWhile p with
      | nil => rfl
      | cons a t =>
        have hne : l.dropWhile p ≠ [] := by simp [hd]
        have hnot := List.head_dropWhile_not p l hne
        have ha : p a = true := h1 a (by simp [hd])
        simp [hd] at hnot
        simp [hnot] at ha
    exact List.dropWhile_eq_nil_iff.mp h2
  · intro h
    have h2 : l.dropWhile p = [] := List.dropWhile_eq_nil_iff.mpr h
    simp [h2]

theorem TrimSpace_length_lt_one (s : String) :
    (TrimSpace s).length < 1 ↔ onlySpace s := by
  unfold TrimSpace onlySpace
  rw [String.length_mk, List.length_reverse, Nat.lt_one_iff, List.length_eq_zero]
  exact dropWhile_reverse_dropWhile_eq_nil isSpace s.data

theorem appendEscapedRune_plain (p : Char → Bool) (c : Char) (h : plainRune c = true) :
    appendEscapedRune p c = [c] := by
  unfold plainRune at h
  simp only [Bool.and_eq_true, decide_eq_true_eq, bne_iff_ne, ne_eq] at h
  obtain ⟨⟨⟨h1, h2⟩, h3⟩, h4⟩ := h
  unfold appendEscapedRune IsPrint
  have hlt : c.toNat < 0x80 := by omega
  simp [h3, h4, hlt, h1, h2]

theorem Quote_plain (p : Char → Bool) (s : String) (h : ∀ c ∈ s.data, plainRune c = true) :
    Quote p s = "\"" ++ s ++ "\"" := by
  have hmap : ∀ l : List Char, (∀ c ∈ l, plainRune c = true) →
      (l.map (appendEscapedRune p)).flatten = l := by
    intro l
    induction l with
    | nil => intro _; rfl
    | cons a t ih =>
      intro hl
      simp only [List.map_cons, List.flatten_cons]
      rw [appendEscapedRune_plain p a (hl a (by simp)), ih (fun c hc => hl c (by simp [hc]))]
      rfl
  unfold Quote
  rw [hmap s.data h]
  apply String.ext
  simp

set_option maxRecDepth 100000 in
theorem templateParse_containerCommand :
    templateParse containerCommand = some
      [.text "/bin/mkdir -p ", .field "DBPath", .text " &&/bin/opm registry add -d ",
       .field "DBPath", .text " -b ", .field "BundleImage", .text " --mode=",
       .field "BundleAddMode", .text " &&/bin/opm registry serve -d ", .field "DBPath",
       .text " -p ", .field "GRPCPort"] := by
  decide

theorem toString_registryGRPCPort : toString registryGRPCPort = "50051" := by decide

theorem getContainerCmd_eq (rp : RegistryPod) :
    rp.getContainerCmd = .ok ("/bin/mkdir -p " ++ rp.DBPath ++ " &&/bin/opm registry add -d " ++
      rp.DBPath ++ " -b " ++ rp.BundleImage ++ " --mode=" ++ rp.BundleAddMode ++
      " &&/bin/opm registry serve -d " ++ rp.DBPath ++ " -p 50051") := by
  unfold RegistryPod.getContainerCmd
  rw [templateParse_containerCommand]
  simp [templateExecute, bundleCmd, List.lookup, FieldValue.print, toString_registryGRPCPort,
    String.append_assoc]

theorem validate_of_blank_image (p : Char → Bool) (rp : RegistryPod)
    (hb : onlySpace rp.BundleImage) :
    rp.validate p = some (.errorString "bundle image cannot be empty") := by
  unfold RegistryPod.validate
  rw [if_pos ((TrimSpace_length_lt_one _).mpr hb)]

theorem validate_of_blank_path (p : Char → Bool) (rp : RegistryPod)
    (hb : ¬ onlySpace rp.BundleImage) (hd : onlySpace rp.DBPath) :
    rp.validate p = some (.errorString "registry database path cannot be empty") := by
  unfold RegistryPod.validate
  rw [if_neg (mt (TrimSpace_length_lt_one _).mp hb), if_pos ((TrimSpace_length_lt_one _).mpr hd)]

theorem validate_of_blank_mode (p : Char → Bool) (rp : RegistryPod)
    (hb : ¬ onlySpace rp.BundleImage) (hd : ¬ onlySpace rp.DBPath)
    (hm : onlySpace rp.BundleAddMode) :
    rp.validate p = some (.errorString "bundle add mode cannot be empty") := by
  unfold RegistryPod.validate
  rw [if_neg (mt (TrimSpace_length_lt_one _).mp hb), if_neg (mt (TrimSpace_length_lt_one _).mp hd),
    if_pos ((TrimSpace_length_lt_one _).mpr hm)]

theorem validate_of_unknown_mode (p : Char → Bool) (rp : RegistryPod)
    (hb : ¬ onlySpace rp.BundleImage) (hd : ¬ onlySpace rp.DBPath)
    (hm : ¬ onlySpace rp.BundleAddMode)
    (h1 : rp.BundleAddMode ≠ "semver") (h2 : rp.BundleAddMode ≠ "replaces") :
    rp.validate p = some (.errorString ("invalid bundle mode " ++ Quote p rp.BundleAddMode ++
      ": must be one of [" ++ Quote p ReplacesBundleAddMode ++ ", " ++
      Quote p SemverBundleAddMode ++ "]")) := by
  unfold RegistryPod.validate
  rw [if_neg (mt (TrimSpace_length_lt_one _).mp hb), if_neg (mt (TrimSpace_length_lt_one _).mp hd),
    if_neg (mt (TrimSpace_length_lt_one _).mp hm), if_pos ⟨h1, h2⟩]

theorem validate_of_known_mode (p : Char → Bool) (rp : RegistryPod)
    (hb : ¬ onlySpace rp.BundleImage) (hd : ¬ onlySpace rp.DBPath)
    (h : rp.BundleAddMode = "semver" ∨ rp.BundleAddMode = "replaces") :
    rp.validate p = none := by
  have hm : ¬ onlySpace rp.BundleAddMode := by
    intro hm
    rcases h with h | h
    · rw [h] at hm; exact absurd (hm 's' (by decide)) (by decide)
    · rw [h] at hm; exact absurd (hm 'r' (by decide)) (by decide)
  unfold RegistryPod.validate
  rw [if_neg (mt (TrimSpace_length_lt_one _).mp hb), if_neg (mt (TrimSpace_length_lt_one _).mp hd),
    if_neg (mt (TrimSpace_length_lt_one _).mp hm), if_neg]
  rintro ⟨h1, h2⟩
  rcases h with h | h
  · exact h1 h
  · exact h2 h

theorem validate_eq_none_iff (p : Char → Bool) (rp : RegistryPod) :
    rp.validate p = none ↔
      ¬ onlySpace rp.BundleImage ∧ ¬ onlySpace rp.DBPath ∧
      (rp.BundleAddMode = "semver" ∨ rp.BundleAddMode = "replaces") := by
  constructor
  · intro h
    by_cases hb : onlySpace rp.BundleImage
    · rw [validate_of_blank_image p rp hb] at h; exact absurd h (by simp)
    by_cases hd : onlySpace rp.DBPath
    · rw [validate_of_blank_path p rp hb hd] at h; exact absurd h (by simp)
    by_cases hm : onlySpace rp.BundleAddMode
    · rw [validate_of_blank_mode p rp hb hd hm] at h; exact absurd h (by simp)
    by_cases h1 : rp.BundleAddMode = "semver"
    · exact ⟨hb, hd, Or.inl h1⟩
    by_cases h2 : rp.BundleAddMode = "replaces"
    · exact ⟨hb, hd, Or.inr h2⟩
    rw [validate_of_unknown_mode p rp hb hd hm h1 h2] at h; exact absurd h (by simp)
  · rintro ⟨hb, hd, h⟩
    exact validate_of_known_mode p rp hb hd h

theorem setDefaults_BundleImage (rp : RegistryPod) :
    rp.setDefaults.BundleImage = rp.BundleImage := by
  unfold RegistryPod.setDefaults
  by_cases hi : rp.IndexImage = "" <;> by_cases hm : rp.BundleAddMode = "" <;>
    by_cases hd : rp.IndexImage = defaultIndexImage <;> simp [hi, hm, hd] <;> split <;> rfl

theorem setDefaults_DBPath (rp : RegistryPod) : rp.setDefaults.DBPath = rp.DBPath := by
  unfold RegistryPod.setDefaults
  by_cases hi : rp.IndexImage = "" <;> by_cases hm : rp.BundleAddMode = "" <;>
    by_cases hd : rp.IndexImage = defaultIndexImage <;> simp [hi, hm, hd] <;> split <;> rfl

theorem setDefaults_BundleAddMode_of_ne (rp : RegistryPod) (hm : rp.BundleAddMode ≠ "") :
    rp.setDefaults.BundleAddMode = rp.BundleAddMode := by
  unfold RegistryPod.setDefaults
  by_cases hi : rp.IndexImage = "" <;> simp [hi, hm]

theorem setDefaults_validate_of_valid (p : Char → Bool) (rp : RegistryPod)
    (h : rp.validate p = none) : rp.setDefaults.validate p = none := by
  obtain ⟨hb, hd, hm⟩ := (validate_eq_none_iff p rp).mp h
  have hne : rp.BundleAddMode ≠ "" := by
    rcases hm with hm | hm <;> rw [hm] <;> decide
  refine (validate_eq_none_iff p _).mpr ⟨?_, ?_, ?_⟩
  · rw [setDefaults_BundleImage]; exact hb
  · rw [setDefaults_DBPath]; exact hd
  · rw [setDefaults_BundleAddMode_of_ne rp hne]; exact hm

theorem setDefaults_validate_of_blank (p : Char → Bool) (rp : RegistryPod)
    (h : onlySpace rp.BundleImage ∨ onlySpace rp.DBPath) :
    ∃ err, rp.setDefaults.validate p = some err := by
  cases hv : rp.setDefaults.validate p with
  | some err => exact ⟨err, rfl⟩
  | none =>
    obtain ⟨hb, hd, _⟩ := (validate_eq_none_iff p _).mp hv
    rw [setDefaults_BundleImage] at hb
    rw [setDefaults_DBPath] at hd
    rcases h with h | h
    · exact absurd h hb
    · exact absurd h hd

/-- The pod that `podForBundleRegistry` builds. -/
theorem podForBundleRegistry_eq (env : Env) (rp : RegistryPod) (ns : String) :
    rp.podForBundleRegistry env ns = .ok
      { ObjectMeta := { Name := getPodName env rp.BundleImage, Namespace := ns }
        Spec := { Containers := [
          { Name := registryContainerName
            Image := rp.IndexImage
            Command := ["/bin/sh", "-c",
              "/bin/mkdir -p " ++ rp.DBPath ++ " &&/bin/opm registry add -d " ++ rp.DBPath ++
              " -b " ++ rp.BundleImage ++ " --mode=" ++ rp.BundleAddMode ++
              " &&/bin/opm registry serve -d " ++ rp.DBPath ++ " -p 50051"]
            Ports := [{ Name := registryContainerPortName,
                        ContainerPort := registryGRPCPort }] }] } } := by
  unfold RegistryPod.podForBundleRegistry
  rw [getContainerCmd_eq]

theorem GetPod_snd (p : Char → Bool) (cl : Client) (key : ObjectKey) :
    (cl.GetPod p key).2 = { cl with calls := cl.calls ++ [.get podsResource key] } := by
  unfold Client.GetPod
  cases cl.faults cl.calls.length with
  | some e => rfl
  | none =>
    cases cl.store.pods.find? (fun p => p.key = key) with
    | some q => rfl
    | none => rfl

theorem GetPod_eq (p : Char → Bool) (cl : Client) (key : ObjectKey) :
    cl.GetPod p key =
      ((cl.GetPod p key).1, { cl with calls := cl.calls ++ [.get podsResource key] }) := by
  rw [← GetPod_snd]

theorem GetPod_of_absent (p : Char → Bool) (cl : Client) (key : ObjectKey)
    (hread : cl.faults cl.calls.length = none)
    (hnone : cl.store.pods.find? (fun q => q.key = key) = none) :
    (cl.GetPod p key).1 = .error (NewNotFound p podsResource key.Name) := by
  unfold Client.GetPod
  rw [hread, hnone]

theorem upsertOwnerRef_nil (ref : OwnerReference) : upsertOwnerRef ref [] = [ref] := by
  simp [upsertOwnerRef]

theorem CreatePod_of_absent (p : Char → Bool) (cl : Client) (pod : Pod)
    (hfault : cl.faults cl.calls.length = none)
    (hnone : cl.store.pods.find? (fun q => q.key = pod.key) = none) :
    cl.CreatePod p pod =
      (none, { cl with
        calls := cl.calls ++ [.create podsResource pod.key]
        store := { cl.store with pods := cl.store.pods ++ [pod] } }) := by
  have hany : cl.store.pods.any (fun q => q.key = pod.key) = false := by
    rw [List.any_eq_false]
    intro x hx
    have := List.find?_eq_none.mp hnone x hx
    simpa using this
  unfold Client.CreatePod
  rw [hfault]
  simp only [hany]
  rfl

theorem IsNotFound_NewNotFound (p : Char → Bool) (resource name : String) :
    IsNotFound (NewNotFound p resource name) = true := by
  simp [IsNotFound, NewNotFound]

theorem ParseBundleAddMode_of_known (p : Char → Bool) (s : String)
    (h : s = "semver" ∨ s = "replaces") : ParseBundleAddMode p s = (s, none) := by
  unfold ParseBundleAddMode
  exact if_pos h

theorem ParseBundleAddMode_of_unknown (p : Char → Bool) (s : String)
    (h1 : s ≠ "semver") (h2 : s ≠ "replaces") :
    ParseBundleAddMode p s =
      ("", some (.errorString ("unknown bundle add mode " ++ Quote p s))) := by
  unfold ParseBundleAddMode
  refine if_neg ?_
  rintro (h | h)
  · exact h1 h
  · exact h2 h

/-- With a blank bundle image, a blank database path or a mode outside semver
and replaces, `createRegistryPod` returns an error and leaves the client as it
was: no call is made. -/
theorem createRegistryPod_of_invalid (env : Env) (c : IndexImageCatalogCreator) (ctx : Nat)
    (cs : CatalogSource) (dbPath : String) (cl : Client)
    (hinv : onlySpace c.BundleImage ∨ onlySpace dbPath ∨
      (c.InjectBundleMode ≠ "semver" ∧ c.InjectBundleMode ≠ "replaces")) :
    ∃ err, c.createRegistryPod env ctx cs dbPath cl = (.error err, cl, ctx) := by
  by_cases hm : c.InjectBundleMode = "semver" ∨ c.InjectBundleMode = "replaces"
  · have hblank : onlySpace c.BundleImage ∨ onlySpace dbPath := by
      rcases hinv with h | h | ⟨h1, h2⟩
      · exact Or.inl h
      · exact Or.inr h
      · rcases hm with hm | hm
        · exact absurd hm h1
        · exact absurd hm h2
    obtain ⟨err, herr⟩ := setDefaults_validate_of_blank env.unicodeIsPrint
      ⟨c.InjectBundleMode, c.BundleImage, c.IndexImage, dbPath⟩ hblank
    refine ⟨.errorString ("invalid registry pod: " ++ err.Error), ?_⟩
    unfold IndexImageCatalogCreator.createRegistryPod
    rw [ParseBundleAddMode_of_known _ _ hm]
    simp only []
    unfold RegistryPod.Create
    simp only [herr]
  · have h1 : c.InjectBundleMode ≠ "semver" := fun h => hm (Or.inl h)
    have h2 : c.InjectBundleMode ≠ "replaces" := fun h => hm (Or.inr h)
    refine ⟨.errorString ("unknown bundle add mode " ++
      Quote env.unicodeIsPrint c.InjectBundleMode), ?_⟩
    unfold IndexImageCatalogCreator.createRegistryPod
    rw [ParseBundleAddMode_of_unknown _ _ h1 h2]

theorem CreateCatalogSource_of_absent (p : Char → Bool) (cl : Client) (cs : CatalogSource)
    (hfault : cl.faults cl.calls.length = none)
    (hany : cl.store.catalogSources.any (fun x => x.key = cs.key) = false) :
    cl.CreateCatalogSource p cs =
      (none, { cl with
        calls := cl.calls ++ [.create catalogSourcesResource cs.key]
        store := { cl.store with catalogSources := cl.store.catalogSources ++ [cs] } }) := by
  unfold Client.CreateCatalogSource
  rw [hfault]
  simp only [hany]
  rfl

theorem CreateCatalogSource_of_present (p : Char → Bool) (cl : Client) (cs : CatalogSource)
    (hfault : cl.faults cl.calls.length = none)
    (hany : cl.store.catalogSources.any (fun x => x.key = cs.key) = true) :
    cl.CreateCatalogSource p cs =
      (some (NewAlreadyExists p catalogSourcesResource cs.ObjectMeta.Name),
       { cl with calls := cl.calls ++ [.create catalogSourcesResource cs.key] }) := by
  unfold Client.CreateCatalogSource
  rw [hfault]
  simp only [hany]
  rfl

theorem CreateCatalogSource_cases (p : Char → Bool) (cl : Client) (cs : CatalogSource) :
    (∃ err, cl.CreateCatalogSource p cs =
      (some err, { cl with calls := cl.calls ++ [.create catalogSourcesResource cs.key] })) ∨
    (cl.faults cl.calls.length = none ∧
      cl.store.catalogSources.any (fun x => x.key = cs.key) = false) := by
  cases hf : cl.faults cl.calls.length with
  | some e =>
    left
    refine ⟨e, ?_⟩
    unfold Client.CreateCatalogSource
    rw [hf]
  | none =>
    cases hany : cl.store.catalogSources.any (fun x => x.key = cs.key) with
    | true => exact Or.inl ⟨_, CreateCatalogSource_of_present p cl cs hf hany⟩
    | false => exact Or.inr ⟨rfl, rfl⟩

/-! ## The claims -/

set_option maxRecDepth 100000 in
/-- C1: for every registry pod, `getContainerCmd` returns no error and exactly
the three clauses joined by `&&`, with the database path, the bundle image and
the mode inserted verbatim and the port 50051; for the values of the test it
is the command the test expects. -/
theorem C1_getContainerCmd_exact (d b m i : String) :
    RegistryPod.getContainerCmd
        { DBPath := d, BundleImage := b, BundleAddMode := m, IndexImage := i } =
      .ok ("/bin/mkdir -p " ++ d ++ " &&/bin/opm registry add -d " ++ d ++ " -b " ++ b ++
        " --mode=" ++ m ++ " &&/bin/opm registry serve -d " ++ d ++ " -p 50051") ∧
    RegistryPod.getContainerCmd
        { DBPath := "/database/index.db",
          BundleImage := "quay.io/example/example-operator-bundle:0.2.0",
          BundleAddMode := SemverBundleAddMode, IndexImage := defaultIndexImage } =
      .ok ("/bin/mkdir -p /database/index.db &&" ++
        "/bin/opm registry add -d /database/index.db -b quay.io/example/example-operator-bundle:0.2.0 --mode=semver &&" ++
        "/bin/opm registry serve -d /database/index.db -p 50051") := by
  refine ⟨getContainerCmd_eq _, ?_⟩
  rw [getContainerCmd_eq]
  exact congrArg Except.ok (by decide)

/-- C2: `validate` checks in a fixed order and the first failure wins: a blank
bundle image gives "bundle image cannot be empty" whatever the other fields
are; otherwise a blank database path gives "registry database path cannot be
empty" whatever the mode is; otherwise a blank mode gives "bundle add mode
cannot be empty"; otherwise a mode that is neither semver nor replaces gives
the error that names the invalid bundle mode. -/
theorem C2_validate_first_failure_wins (p : Char → Bool) (rp : RegistryPod) :
    (onlySpace rp.BundleImage →
      rp.validate p = some (.errorString "bundle image cannot be empty")) ∧
    (¬ onlySpace rp.BundleImage → onlySpace rp.DBPath →
      rp.validate p = some (.errorString "registry database path cannot be empty")) ∧
    (¬ onlySpace rp.BundleImage → ¬ onlySpace rp.DBPath → onlySpace rp.BundleAddMode →
      rp.validate p = some (.errorString "bundle add mode cannot be empty")) ∧
    (¬ onlySpace rp.BundleImage → ¬ onlySpace rp.DBPath → ¬ onlySpace rp.BundleAddMode →
      rp.BundleAddMode ≠ "semver" → rp.BundleAddMode ≠ "replaces" →
      rp.validate p = some (.errorString ("invalid bundle mode " ++ Quote p rp.BundleAddMode ++
        ": must be one of [\"replaces\", \"semver\"]"))) := by
  have hq1 : Quote p "replaces" = "\"replaces\"" := by
    rw [Quote_plain p "replaces" (by decide)]; decide
  have hq2 : Quote p "semver" = "\"semver\"" := by
    rw [Quote_plain p "semver" (by decide)]; decide
  have hlit : ": must be one of [" ++ "\"replaces\"" ++ ", " ++ "\"semver\"" ++ "]" =
      ": must be one of [\"replaces\", \"semver\"]" := by decide
  refine ⟨validate_of_blank_image p rp, validate_of_blank_path p rp,
    validate_of_blank_mode p rp, ?_⟩
  intro hb hd hm h1 h2
  rw [validate_of_unknown_mode p rp hb hd hm h1 h2]
  have hq1' : Quote p ReplacesBundleAddMode = "\"replaces\"" := hq1
  have hq2' : Quote p SemverBundleAddMode = "\"semver\"" := hq2
  rw [hq1', hq2', ← hlit]
  simp [String.append_assoc]

/-- The witness of C2 on the registry pod of the test with an empty bundle
image. -/
theorem C2_validate_first_failure_wins_witness :
    RegistryPod.validate (fun _ => true)
        { BundleImage := "", IndexImage := defaultIndexImage,
          BundleAddMode := SemverBundleAddMode, DBPath := "/database/index.db" } =
      some (.errorString "bundle image cannot be empty") :=
  (C2_validate_first_failure_wins (fun _ => true)
    { BundleImage := "", IndexImage := defaultIndexImage,
      BundleAddMode := SemverBundleAddMode, DBPath := "/database/index.db" }).1
    (by intro c hc; simp at hc)

/-- C3, as stated, fails: a bundle image of one blank is not empty, the
database path is not empty and the mode is semver, yet `validate` returns the
error for an empty bundle image. -/
theorem C3_counterexample_blank_bundle_image :
    (" " ≠ "" ∧ "/database/index.db" ≠ "" ∧ SemverBundleAddMode = "semver") ∧
    RegistryPod.validate (fun _ => true)
        { BundleImage := " ", IndexImage := defaultIndexImage,
          BundleAddMode := SemverBundleAddMode, DBPath := "/database/index.db" } =
      some (.errorString "bundle image cannot be empty") := by
  decide

/-- C3, amended: `validate` returns no error if and only if the bundle image
is not blank (not empty and not white space only), the database path is not
blank, and the mode is exactly semver or exactly replaces; the index image
plays no part: with any other index image the result is the same. -/
theorem C3_validate_ok_iff (p : Char → Bool) (rp : RegistryPod) :
    (rp.validate p = none ↔
      (¬ onlySpace rp.BundleImage ∧ ¬ onlySpace rp.DBPath ∧
        (rp.BundleAddMode = "semver" ∨ rp.BundleAddMode = "replaces"))) ∧
    ∀ i : String, RegistryPod.validate p { rp with IndexImage := i } = rp.validate p :=
  ⟨validate_eq_none_iff p rp, fun _ => rfl⟩

/-- C4: `ParseBundleAddMode` accepts exactly semver and replaces: for these it
returns the string as the mode and no error; for every other string it returns
the empty mode and the error "unknown bundle add mode " followed by the string
as `%q` writes it, which is the string between double quotes when it is made
of printable ASCII other than the double quote and the backslash; the empty
string, another letter case and surrounding blanks are rejected like any
other string. -/
theorem C4_ParseBundleAddMode_closed (p : Char → Bool) (s : String) :
    ((s = "semver" ∨ s = "replaces") → ParseBundleAddMode p s = (s, none)) ∧
    (s ≠ "semver" → s ≠ "replaces" →
      ParseBundleAddMode p s =
        ("", some (.errorString ("unknown bundle add mode " ++ Quote p s)))) ∧
    ((∀ c ∈ s.data, plainRune c = true) → Quote p s = "\"" ++ s ++ "\"") ∧
    ParseBundleAddMode p "invalid" =
      ("", some (.errorString "unknown bundle add mode \"invalid\"")) ∧
    ParseBundleAddMode p "" = ("", some (.errorString "unknown bundle add mode \"\"")) ∧
    ParseBundleAddMode p "Semver" =
      ("", some (.errorString "unknown bundle add mode \"Semver\"")) ∧
    ParseBundleAddMode p " semver " =
      ("", some (.errorString "unknown bundle add mode \" semver \"")) := by
  have hlit : ∀ t : String, (∀ c ∈ t.data, plainRune c = true) → t ≠ "semver" →
      t ≠ "replaces" → ParseBundleAddMode p t =
        ("", some (.errorString ("unknown bundle add mode " ++ ("\"" ++ t ++ "\"")))) := by
    intro t ht h1 h2
    unfold ParseBundleAddMode
    simp [SemverBundleAddMode, ReplacesBundleAddMode, h1, h2, Quote_plain p t ht]
  refine ⟨?_, ?_, Quote_plain p s, ?_, ?_, ?_, ?_⟩
  · intro h
    unfold ParseBundleAddMode
    simp [SemverBundleAddMode, ReplacesBundleAddMode, h]
  · intro h1 h2
    unfold ParseBundleAddMode
    simp [SemverBundleAddMode, ReplacesBundleAddMode, h1, h2]
  · rw [hlit "invalid" (by decide) (by decide) (by decide)]; decide
  · rw [hlit "" (by decide) (by decide) (by decide)]; decide
  · rw [hlit "Semver" (by decide) (by decide) (by decide)]; decide
  · rw [hlit " semver " (by decide) (by decide) (by decide)]; decide

/-- C5: `setDefaults` on a registry pod with an unset mode selects semver when
the index image was unset or the default builder image and replaces for any
other index image; an unset index image becomes the default builder image; a
mode or an index image that was set is left as it was, and so are the bundle
image and the database path. -/
theorem C5_setDefaults_mode_selection (rp : RegistryPod) :
    (rp.BundleAddMode = "" → (rp.IndexImage = "" ∨ rp.IndexImage = defaultIndexImage) →
      rp.setDefaults.BundleAddMode = "semver") ∧
    (rp.BundleAddMode = "" → rp.IndexImage ≠ "" → rp.IndexImage ≠ defaultIndexImage →
      rp.setDefaults.BundleAddMode = "replaces") ∧
    (rp.IndexImage = "" →
      rp.setDefaults.IndexImage = "quay.io/operator-framework/upstream-opm-builder:latest") ∧
    (rp.BundleAddMode ≠ "" → rp.setDefaults.BundleAddMode = rp.BundleAddMode) ∧
    (rp.IndexImage ≠ "" → rp.setDefaults.IndexImage = rp.IndexImage) ∧
    rp.setDefaults.BundleImage = rp.BundleImage ∧ rp.setDefaults.DBPath = rp.DBPath := by
  obtain ⟨m, b, i, d⟩ := rp
  unfold RegistryPod.setDefaults
  simp only [SemverBundleAddMode, ReplacesBundleAddMode, defaultIndexImage]
  refine ⟨?_, ?_, ?_, ?_, ?_, ?_, ?_⟩
  · rintro rfl (rfl | rfl) <;> simp
  · rintro rfl h1 h2; simp [h1, h2]
  · rintro rfl; by_cases hm : m = "" <;> simp [hm]
  · intro hm; by_cases hi : i = "" <;> simp [hm, hi]
  · intro hi; by_cases hm : m = "" <;> by_cases hd : i = "quay.io/operator-framework/upstream-opm-builder:latest" <;> simp [hm, hi, hd]
  · by_cases hi : i = "" <;> by_cases hm : m = "" <;> by_cases hd : i = "quay.io/operator-framework/upstream-opm-builder:latest" <;> simp [hm, hi, hd]
  · by_cases hi : i = "" <;> by_cases hm : m = "" <;> by_cases hd : i = "quay.io/operator-framework/upstream-opm-builder:latest" <;> simp [hm, hi, hd]

/-- The witness of C5: an unset mode with a custom index image. -/
theorem C5_setDefaults_mode_selection_witness :
    (RegistryPod.setDefaults
      { BundleAddMode := "", BundleImage := "b", IndexImage := "example.com/index:v1",
        DBPath := "/database/index.db" }).BundleAddMode = "replaces" :=
  (C5_setDefaults_mode_selection
    { BundleAddMode := "", BundleImage := "b", IndexImage := "example.com/index:v1",
      DBPath := "/database/index.db" }).2.1 rfl (by decide) (by decide)

/-- C6: the call fails on the unset mode. For every creator whose
`InjectBundleMode` is empty, `createRegistryPod` returns the error of
`ParseBundleAddMode` for the empty string before `Create` and its
`setDefaults` are reached, and makes no call to the cluster; yet for a
bundle image and a database path that are not blank, `setDefaults` on the
registry pod it had built would have selected semver or replaces and
`validate` would have accepted it. -/
theorem C6_createRegistryPod_fails_on_unset_mode (env : Env) (c : IndexImageCatalogCreator)
    (ctx : Nat) (cs : CatalogSource) (dbPath : String) (cl : Client) :
    IndexImageCatalogCreator.createRegistryPod env { c with InjectBundleMode := "" } ctx cs
        dbPath cl =
      (.error (.errorString "unknown bundle add mode \"\""), cl, ctx) ∧
    (¬ onlySpace c.BundleImage → ¬ onlySpace dbPath →
      ((RegistryPod.setDefaults
          { IndexImage := c.IndexImage, BundleImage := c.BundleImage, DBPath := dbPath,
            BundleAddMode := "" }).BundleAddMode = "semver" ∨
       (RegistryPod.setDefaults
          { IndexImage := c.IndexImage, BundleImage := c.BundleImage, DBPath := dbPath,
            BundleAddMode := "" }).BundleAddMode = "replaces") ∧
      RegistryPod.validate env.unicodeIsPrint
        (RegistryPod.setDefaults
          { IndexImage := c.IndexImage, BundleImage := c.BundleImage, DBPath := dbPath,
            BundleAddMode := "" }) = none) := by
  constructor
  · unfold IndexImageCatalogCreator.createRegistryPod
    have hp : ParseBundleAddMode env.unicodeIsPrint "" =
        ("", some (.errorString "unknown bundle add mode \"\"")) := by
      unfold ParseBundleAddMode
      rw [if_neg (by decide), Quote_plain _ "" (by decide)]
      decide
    simp only [hp]
  · intro hb hd
    have hmode : (RegistryPod.setDefaults
          { IndexImage := c.IndexImage, BundleImage := c.BundleImage, DBPath := dbPath,
            BundleAddMode := "" }).BundleAddMode =
          "semver" ∨
        (RegistryPod.setDefaults
          { IndexImage := c.IndexImage, BundleImage := c.BundleImage, DBPath := dbPath,
            BundleAddMode := "" }).BundleAddMode =
          "replaces" := by
      unfold RegistryPod.setDefaults
      by_cases hi : c.IndexImage = "" <;> by_cases hdi : c.IndexImage = defaultIndexImage <;>
        simp [hi, hdi, SemverBundleAddMode, ReplacesBundleAddMode]
    refine ⟨hmode, (validate_eq_none_iff _ _).mpr ⟨?_, ?_, hmode⟩⟩
    · rw [setDefaults_BundleImage]; exact hb
    · rw [setDefaults_DBPath]; exact hd

/-- C9: adoption in `Create`. For every valid registry pod and every store
in which the read at the derived name and the configured namespace returns a
pod, `Create` returns that pod as it is stored and no error, whatever the
stored pod looks like; the store is left as it was and the read is the only
call made, so nothing is created and no owner reference is set. -/
theorem C9_Create_adopts_existing_pod (env : Env) (rp : RegistryPod) (cfg : Configuration)
    (cs : CatalogSource) (cl : Client) (existingPod : Pod)
    (hvalid : rp.validate env.unicodeIsPrint = none)
    (hget : (cl.GetPod env.unicodeIsPrint
      { Namespace := cfg.Namespace, Name := getPodName env rp.BundleImage }).1 =
        .ok existingPod) :
    (rp.Create env cfg cs cl).1 = .ok existingPod ∧
    (rp.Create env cfg cs cl).2.store = cl.store ∧
    (rp.Create env cfg cs cl).2.calls = cl.calls ++
      [.get podsResource { Namespace := cfg.Namespace, Name := getPodName env rp.BundleImage }] := by
  have hv := setDefaults_validate_of_valid _ rp hvalid
  have hg := GetPod_eq env.unicodeIsPrint cl
    { Namespace := cfg.Namespace, Name := getPodName env rp.BundleImage }
  rw [hget] at hg
  unfold RegistryPod.Create
  simp only [hv, podForBundleRegistry_eq, ObjectKeyFromObject, setDefaults_BundleImage, hg]
  simp

theorem getPodName_test :
    getPodName testEnv "quay.io/example/example-operator-bundle:0.2.0" =
      "quay-io-example-example-operator-bundle-0-2-0" := by
  decide

theorem testRegistryPod_valid (p : Char → Bool) : testRegistryPod.validate p = none :=
  validate_of_known_mode p testRegistryPod
    (fun h => absurd (h 'q' (by decide)) (by decide))
    (fun h => absurd (h '/' (by decide)) (by decide)) (Or.inl rfl)

/-- The witness of C9: the store holds a pod with another image and no owner
at the derived name; `Create` for the test's registry pod returns it
unchanged and writes nothing. -/
theorem C9_Create_adopts_existing_pod_witness :
    (testRegistryPod.Create testEnv newFakeConfig testCatalogSource clientWithForeignPod).1 =
      .ok foreignPod ∧
    (testRegistryPod.Create testEnv newFakeConfig testCatalogSource clientWithForeignPod).2.store =
      clientWithForeignPod.store ∧
    (testRegistryPod.Create testEnv newFakeConfig testCatalogSource clientWithForeignPod).2.calls =
      clientWithForeignPod.calls ++ [.get podsResource
        { Namespace := newFakeConfig.Namespace,
          Name := getPodName testEnv testRegistryPod.BundleImage }] :=
  C9_Create_adopts_existing_pod testEnv testRegistryPod newFakeConfig testCatalogSource
    clientWithForeignPod foreignPod (testRegistryPod_valid _)
    (by
      have hn : getPodName testEnv testRegistryPod.BundleImage =
          "quay-io-example-example-operator-bundle-0-2-0" := getPodName_test
      rw [hn]
      rfl)

/-- C10, as stated, fails: the registry pod of the test is valid, the store is
empty and the read reports not-found, but the API server refuses the create;
`Create` returns an error instead of the pod and the store holds no pod. -/
theorem C10_counterexample_create_refused :
    testRegistryPod.validate testEnv.unicodeIsPrint = none ∧
    clientRefusingCreate.store.pods = [] ∧
    (clientRefusingCreate.GetPod testEnv.unicodeIsPrint
      { Namespace := "default", Name := "quay-io-example-example-operator-bundle-0-2-0" }).1 =
      .error (.statusError "NotFound"
        "pods \"quay-io-example-example-operator-bundle-0-2-0\" not found") ∧
    (testRegistryPod.Create testEnv newFakeConfig testCatalogSource clientRefusingCreate).1 =
      .error (.errorString "error creating registry pod: pods is forbidden") ∧
    (testRegistryPod.Create testEnv newFakeConfig testCatalogSource
      clientRefusingCreate).2.store.pods = [] := by
  have hq : Quote testEnv.unicodeIsPrint "quay-io-example-example-operator-bundle-0-2-0" =
      "\"quay-io-example-example-operator-bundle-0-2-0\"" := by
    rw [Quote_plain _ _ (by decide)]; decide
  have hget : clientRefusingCreate.GetPod testEnv.unicodeIsPrint
      { Namespace := "default", Name := "quay-io-example-example-operator-bundle-0-2-0" } =
      (.error (.statusError "NotFound"
        "pods \"quay-io-example-example-operator-bundle-0-2-0\" not found"),
       { clientRefusingCreate with calls := [.get podsResource
          { Namespace := "default",
            Name := "quay-io-example-example-operator-bundle-0-2-0" }] }) := by
    simp [Client.GetPod, clientRefusingCreate, NewNotFound, hq, podsResource,
      StatusReasonNotFound]
  refine ⟨testRegistryPod_valid _, rfl, ?_, ?_, ?_⟩
  · rw [hget]
  · unfold RegistryPod.Create
    simp only [setDefaults_validate_of_valid _ _ (testRegistryPod_valid _),
      podForBundleRegistry_eq, ObjectKeyFromObject, setDefaults_BundleImage]
    have hn : getPodName testEnv testRegistryPod.BundleImage =
        "quay-io-example-example-operator-bundle-0-2-0" := getPodName_test
    have hns : newFakeConfig.Namespace = "default" := rfl
    rw [hn, hns, hget]
    simp [IsNotFound, StatusReasonNotFound, SetOwnerReference, newFakeConfig, Client.CreatePod,
      clientRefusingCreate, GoError.Error]
  · unfold RegistryPod.Create
    simp only [setDefaults_validate_of_valid _ _ (testRegistryPod_valid _),
      podForBundleRegistry_eq, ObjectKeyFromObject, setDefaults_BundleImage]
    have hn : getPodName testEnv testRegistryPod.BundleImage =
        "quay-io-example-example-operator-bundle-0-2-0" := getPodName_test
    have hns : newFakeConfig.Namespace = "default" := rfl
    rw [hn, hns, hget]
    simp [IsNotFound, StatusReasonNotFound, SetOwnerReference, newFakeConfig, Client.CreatePod,
      clientRefusingCreate, GoError.Error]

/-- C10, amended: creation in `Create`. For every valid registry pod and every
store that holds no pod with the derived name in the configured namespace,
where the read is answered (it reports not-found), the scheme knows the kind
of the catalog source and the create call is not refused, `Create` returns a
pod with the derived name in the configured namespace whose only owner
reference points to the given catalog source and whose only container is
named registry-grpc with the one port grpc 50051; afterwards the store holds
exactly that pod in addition, it is the pod found at the derived name and
namespace, and the calls made are the read and the create. -/
theorem C10_Create_creates_owned_pod (env : Env) (rp : RegistryPod) (cfg : Configuration)
    (cs : CatalogSource) (cl : Client) (gvk : GroupVersionKind)
    (hvalid : rp.validate env.unicodeIsPrint = none)
    (hnone : cl.store.pods.find? (fun q => q.key =
      { Namespace := cfg.Namespace, Name := getPodName env rp.BundleImage }) = none)
    (hread : cl.faults cl.calls.length = none)
    (hscheme : cfg.Scheme.GVKForCatalogSource = .ok gvk)
    (hcreate : cl.faults (cl.calls.length + 1) = none) :
    ∃ pod : Pod,
      (rp.Create env cfg cs cl).1 = .ok pod ∧
      pod.ObjectMeta.Name = getPodName env rp.BundleImage ∧
      pod.ObjectMeta.Namespace = cfg.Namespace ∧
      pod.ObjectMeta.OwnerReferences =
        [{ APIVersion := gvk.GroupVersionString, Kind := gvk.Kind,
           Name := cs.ObjectMeta.Name, UID := cs.ObjectMeta.UID }] ∧
      pod.Spec.Containers.map (fun c => (c.Name, c.Ports)) =
        [("registry-grpc", [{ Name := "grpc", ContainerPort := 50051 }])] ∧
      (rp.Create env cfg cs cl).2.store.pods = cl.store.pods ++ [pod] ∧
      (rp.Create env cfg cs cl).2.store.pods.find? (fun q => q.key =
        { Namespace := cfg.Namespace, Name := getPodName env rp.BundleImage }) = some pod ∧
      (rp.Create env cfg cs cl).2.store.catalogSources = cl.store.catalogSources ∧
      (rp.Create env cfg cs cl).2.calls = cl.calls ++
        [.get podsResource { Namespace := cfg.Namespace, Name := getPodName env rp.BundleImage },
         .create podsResource
           { Namespace := cfg.Namespace, Name := getPodName env rp.BundleImage }] := by
  have hv := setDefaults_validate_of_valid _ rp hvalid
  have hg := GetPod_eq env.unicodeIsPrint cl
    { Namespace := cfg.Namespace, Name := getPodName env rp.BundleImage }
  rw [GetPod_of_absent _ cl _ hread hnone] at hg
  have hcr := CreatePod_of_absent env.unicodeIsPrint
    { cl with calls := cl.calls ++ [.get podsResource
        { Namespace := cfg.Namespace, Name := getPodName env rp.BundleImage }] }
    { ObjectMeta :=
        { Name := getPodName env rp.BundleImage
          Namespace := cfg.Namespace
          OwnerReferences :=
            [{ APIVersion := gvk.GroupVersionString, Kind := gvk.Kind,
               Name := cs.ObjectMeta.Name, UID := cs.ObjectMeta.UID }] }
      Spec := { Containers := [
        { Name := registryContainerName
          Image := rp.setDefaults.IndexImage
          Command := ["/bin/sh", "-c",
            "/bin/mkdir -p " ++ rp.setDefaults.DBPath ++ " &&/bin/opm registry add -d " ++
            rp.setDefaults.DBPath ++ " -b " ++ rp.BundleImage ++ " --mode=" ++
            rp.setDefaults.BundleAddMode ++
            " &&/bin/opm registry serve -d " ++ rp.setDefaults.DBPath ++ " -p 50051"]
          Ports := [{ Name := registryContainerPortName,
                      ContainerPort := registryGRPCPort }] }] } }
    (by simpa using hcreate) hnone
  refine ⟨
    { ObjectMeta :=
        { Name := getPodName env rp.BundleImage
          Namespace := cfg.Namespace
          OwnerReferences :=
            [{ APIVersion := gvk.GroupVersionString, Kind := gvk.Kind,
               Name := cs.ObjectMeta.Name, UID := cs.ObjectMeta.UID }] }
      Spec := { Containers := [
        { Name := registryContainerName
          Image := rp.setDefaults.IndexImage
          Command := ["/bin/sh", "-c",
            "/bin/mkdir -p " ++ rp.setDefaults.DBPath ++ " &&/bin/opm registry add -d " ++
            rp.setDefaults.DBPath ++ " -b " ++ rp.BundleImage ++ " --mode=" ++
            rp.setDefaults.BundleAddMode ++
            " &&/bin/opm registry serve -d " ++ rp.setDefaults.DBPath ++ " -p 50051"]
          Ports := [{ Name := registryContainerPortName,
                      ContainerPort := registryGRPCPort }] }] } }, ?_⟩
  unfold RegistryPod.Create
  simp only [hv, podForBundleRegistry_eq, ObjectKeyFromObject, setDefaults_BundleImage, hg,
    IsNotFound_NewNotFound, SetOwnerReference, hscheme, upsertOwnerRef_nil, hcr]
  simp [registryContainerName, registryContainerPortName, registryGRPCPort, Pod.key, hnone]
  right
  intro x hx hns hname
  have h := List.find?_eq_none.mp hnone x hx
  simp [Pod.key, hns, hname] at h

/-- The witness of C10: the registry pod of the test in namespace default
against the empty store of the fake client. -/
theorem C10_Create_creates_owned_pod_witness :
    ∃ pod : Pod,
      (testRegistryPod.Create testEnv newFakeConfig testCatalogSource newFakeClient).1 =
        .ok pod ∧
      pod.ObjectMeta.Name = "quay-io-example-example-operator-bundle-0-2-0" ∧
      pod.ObjectMeta.Namespace = "default" ∧
      pod.Spec.Containers.map (fun c => (c.Name, c.Ports)) =
        [("registry-grpc", [{ Name := "grpc", ContainerPort := 50051 }])] ∧
      (testRegistryPod.Create testEnv newFakeConfig testCatalogSource
        newFakeClient).2.store.pods = [pod] := by
  obtain ⟨pod, h1, h2, h3, _, h5, h6, _, _, _⟩ :=
    C10_Create_creates_owned_pod testEnv testRegistryPod newFakeConfig testCatalogSource
      newFakeClient
      { Group := "operators.coreos.com", Version := "v1alpha1", Kind := "CatalogSource" }
      (testRegistryPod_valid _) rfl rfl rfl rfl
  exact ⟨pod, h1, h2.trans getPodName_test, h3, h5, h6⟩

set_option maxRecDepth 1000000 in
/-- C7, as stated, fails: the creator of the test with an empty bundle image
is an invalid configuration; `CreateCatalog` on the empty store returns the
validation error, but the store is not as it was before the call: the catalog
source has been created. -/
theorem C7_counterexample_catalog_source_created :
    onlySpace "" ∧
    newFakeClient.store = { pods := [], catalogSources := [] } ∧
    (IndexImageCatalogCreator.CreateCatalog testEnv { testCreator with BundleImage := "" } 0
        "example-catalog" newFakeClient).1 =
      .error (.errorString
        "error in creating registry pod: invalid registry pod: bundle image cannot be empty") ∧
    (IndexImageCatalogCreator.CreateCatalog testEnv { testCreator with BundleImage := "" } 0
        "example-catalog" newFakeClient).2.1.store =
      { pods := []
        catalogSources :=
          [newCatalogSource "example-catalog" "default" [withSDKPublisher "example"]] } ∧
    (IndexImageCatalogCreator.CreateCatalog testEnv { testCreator with BundleImage := "" } 0
        "example-catalog" newFakeClient).2.1.store ≠ newFakeClient.store := by
  refine ⟨?_, rfl, ?_, ?_, ?_⟩
  · intro c hc
    simp at hc
  · decide
  · decide
  · decide

/-- C7, amended: for every `CreateCatalog` call whose configuration is invalid
(a blank bundle image, a set `InjectBundleMode` that is neither semver nor
replaces, or a blank database path read from the index image), `CreateCatalog`
returns an error and no pod is created or read; the catalog source, however,
is created before the configuration is checked: the store afterwards holds the
catalog sources of before and at most the new one in addition, and it does
hold the new one whenever the database path was read and the create call was
not failed and found no catalog source of that name; the only call made is
that create. -/
theorem C7_CreateCatalog_invalid_configuration (env : Env) (c : IndexImageCatalogCreator)
    (ctx : Nat) (name : String) (cl : Client)
    (hinv : onlySpace c.BundleImage ∨
      (c.InjectBundleMode ≠ "" ∧ c.InjectBundleMode ≠ "semver" ∧
        c.InjectBundleMode ≠ "replaces") ∨
      (∃ dbPath, c.getDBPath env = .ok dbPath ∧ onlySpace dbPath)) :
    (∃ err, (c.CreateCatalog env ctx name cl).1 = .error err) ∧
    (c.CreateCatalog env ctx name cl).2.1.store.pods = cl.store.pods ∧
    ((c.CreateCatalog env ctx name cl).2.1.store.catalogSources = cl.store.catalogSources ∨
      (c.CreateCatalog env ctx name cl).2.1.store.catalogSources = cl.store.catalogSources ++
        [newCatalogSource name c.cfg.Namespace [withSDKPublisher c.PackageName]]) ∧
    (∀ dbPath, c.getDBPath env = .ok dbPath → cl.faults cl.calls.length = none →
      cl.store.catalogSources.any (fun x => x.key =
        (newCatalogSource name c.cfg.Namespace [withSDKPublisher c.PackageName]).key) = false →
      (c.CreateCatalog env ctx name cl).2.1.store.catalogSources = cl.store.catalogSources ++
        [newCatalogSource name c.cfg.Namespace [withSDKPublisher c.PackageName]]) ∧
    ((c.CreateCatalog env ctx name cl).2.1.calls = cl.calls ∨
      (c.CreateCatalog env ctx name cl).2.1.calls = cl.calls ++
        [.create catalogSourcesResource
          (newCatalogSource name c.cfg.Namespace [withSDKPublisher c.PackageName]).key]) := by
  cases hdb : c.getDBPath env with
  | error e =>
    have hR : c.CreateCatalog env ctx name cl =
        (.error (.errorString ("get database path: " ++ e.Error)), cl, ctx) := by
      unfold IndexImageCatalogCreator.CreateCatalog
      rw [hdb]
    rw [hR]
    refine ⟨⟨_, rfl⟩, rfl, Or.inl rfl, ?_, Or.inl rfl⟩
    intro dbPath h
    cases h
  | ok dbPath =>
    have hinv2 : onlySpace c.BundleImage ∨ onlySpace dbPath ∨
        (c.InjectBundleMode ≠ "semver" ∧ c.InjectBundleMode ≠ "replaces") := by
      rcases hinv with h | ⟨_, h1, h2⟩ | ⟨d, hd, hblank⟩
      · exact Or.inl h
      · exact Or.inr (Or.inr ⟨h1, h2⟩)
      · rw [hdb] at hd
        cases hd
        exact Or.inr (Or.inl hblank)
    rcases CreateCatalogSource_cases env.unicodeIsPrint cl
        (newCatalogSource name c.cfg.Namespace [withSDKPublisher c.PackageName]) with
      ⟨err, hc⟩ | ⟨hf, hany⟩
    · have hR : c.CreateCatalog env ctx name cl =
          (.error (.wrapError ("error creating catalog source: " ++ err.Error) err),
           { cl with calls := cl.calls ++ [.create catalogSourcesResource
              (newCatalogSource name c.cfg.Namespace [withSDKPublisher c.PackageName]).key] },
           ctx) := by
        unfold IndexImageCatalogCreator.CreateCatalog
        rw [hdb]
        simp only [hc]
      rw [hR]
      refine ⟨⟨_, rfl⟩, rfl, Or.inl rfl, ?_, Or.inr rfl⟩
      intro d _ hf hany
      rw [CreateCatalogSource_of_absent _ _ _ hf hany] at hc
      simp at hc
    · have hc := CreateCatalogSource_of_absent env.unicodeIsPrint cl _ hf hany
      obtain ⟨err, hr⟩ := createRegistryPod_of_invalid env c ctx
        (newCatalogSource name c.cfg.Namespace [withSDKPublisher c.PackageName]) dbPath
        { cl with
          calls := cl.calls ++ [.create catalogSourcesResource
            (newCatalogSource name c.cfg.Namespace [withSDKPublisher c.PackageName]).key]
          store := { cl.store with catalogSources := cl.store.catalogSources ++
            [newCatalogSource name c.cfg.Namespace [withSDKPublisher c.PackageName]] } } hinv2
      have hR : c.CreateCatalog env ctx name cl =
          (.error (.errorString ("error in creating registry pod: " ++ err.Error)),
           { cl with
             calls := cl.calls ++ [.create catalogSourcesResource
               (newCatalogSource name c.cfg.Namespace [withSDKPublisher c.PackageName]).key]
             store := { cl.store with catalogSources := cl.store.catalogSources ++
               [newCatalogSource name c.cfg.Namespace [withSDKPublisher c.PackageName]] } },
           ctx) := by
        unfold IndexImageCatalogCreator.CreateCatalog
        rw [hdb]
        simp only [hc, hr]
      rw [hR]
      exact ⟨⟨_, rfl⟩, rfl, Or.inr rfl, fun _ _ _ _ => rfl, Or.inr rfl⟩

/-- The witness of C7: the creator of the test with an empty bundle image,
on the empty store. -/
theorem C7_CreateCatalog_invalid_configuration_witness :
    (∃ err, (IndexImageCatalogCreator.CreateCatalog testEnv
      { testCreator with BundleImage := "" } 0 "example-catalog" newFakeClient).1 =
        .error err) ∧
    (IndexImageCatalogCreator.CreateCatalog testEnv
      { testCreator with BundleImage := "" } 0 "example-catalog"
        newFakeClient).2.1.store.pods = [] :=
  have h := C7_CreateCatalog_invalid_configuration testEnv
    { testCreator with BundleImage := "" } 0 "example-catalog" newFakeClient
    (Or.inl (by intro c hc; simp at hc))
  ⟨h.1, h.2.1⟩

set_option maxRecDepth 1000000 in
/-- C8: the second call fails. In a cluster that does its part the first
`CreateCatalog` call on the empty store succeeds and leaves one catalog source
and one pod; the second call with the same creator, name and namespace
returns the already-exists error of the catalog-source create, leaves the
store as the first call left it, still with exactly one pod at the derived
name, and makes that create as its only call, without a read before it. -/
theorem C8_second_CreateCatalog_fails_already_exists :
    (IndexImageCatalogCreator.CreateCatalog liveEnv testCreator (600 * Millisecond) "example-catalog"
      newFakeClient).1.toOption.isSome = true ∧
    (IndexImageCatalogCreator.CreateCatalog liveEnv testCreator (600 * Millisecond) "example-catalog"
      newFakeClient).2.1.store.catalogSources.length = 1 ∧
    (IndexImageCatalogCreator.CreateCatalog liveEnv testCreator (600 * Millisecond) "example-catalog"
      newFakeClient).2.1.store.pods.map Pod.key =
        [{ Namespace := "default", Name := "quay-io-example-example-operator-bundle-0-2-0" }] ∧
    (IndexImageCatalogCreator.CreateCatalog liveEnv testCreator (600 * Millisecond) "example-catalog"
      (IndexImageCatalogCreator.CreateCatalog liveEnv testCreator (600 * Millisecond) "example-catalog"
        newFakeClient).2.1).1 =
      .error (.wrapError
        "error creating catalog source: catalogsources.operators.coreos.com \"example-catalog\" already exists"
        (.statusError "AlreadyExists"
          "catalogsources.operators.coreos.com \"example-catalog\" already exists")) ∧
    (IndexImageCatalogCreator.CreateCatalog liveEnv testCreator (600 * Millisecond) "example-catalog"
      (IndexImageCatalogCreator.CreateCatalog liveEnv testCreator (600 * Millisecond) "example-catalog"
        newFakeClient).2.1).2.1.store =
      (IndexImageCatalogCreator.CreateCatalog liveEnv testCreator (600 * Millisecond) "example-catalog"
        newFakeClient).2.1.store ∧
    (IndexImageCatalogCreator.CreateCatalog liveEnv testCreator (600 * Millisecond) "example-catalog"
      (IndexImageCatalogCreator.CreateCatalog liveEnv testCreator (600 * Millisecond) "example-catalog"
        newFakeClient).2.1).2.1.calls =
      (IndexImageCatalogCreator.CreateCatalog liveEnv testCreator (600 * Millisecond) "example-catalog"
        newFakeClient).2.1.calls ++
        [.create catalogSourcesResource { Namespace := "default", Name := "example-catalog" }] := by
  refine ⟨?_, ?_, ?_, ?_, ?_, ?_⟩ <;> decide

/-- C12: for every registry pod and namespace, `podForBundleRegistry` returns
no error and a pod in that namespace, named by `getPodName` of the bundle
image, with exactly one container: its name is registry-grpc, its image is
the index image, its command is `/bin/sh`, `-c` and the rendered container
command, and its only port is named grpc with container port 50051. -/
theorem C12_podForBundleRegistry_shape (env : Env) (rp : RegistryPod) (ns : String) :
    ∃ (pod : Pod) (containerCmd : String),
      rp.podForBundleRegistry env ns = .ok pod ∧
      rp.getContainerCmd = .ok containerCmd ∧
      pod.ObjectMeta.Namespace = ns ∧
      pod.ObjectMeta.Name = getPodName env rp.BundleImage ∧
      pod.Spec.Containers =
        [{ Name := "registry-grpc", Image := rp.IndexImage,
           Command := ["/bin/sh", "-c", containerCmd],
           Ports := [{ Name := "grpc", ContainerPort := 50051 }] }] :=
  ⟨_, _, podForBundleRegistry_eq env rp ns, getContainerCmd_eq rp, rfl, rfl, rfl⟩

/-- C14: with the name helpers of `internal/util/k8sutil`, `getPodName` of
`quay.io/example/example-operator-bundle:0.2.0` is
`quay-io-example-example-operator-bundle-0-2-0`; and whatever the name helpers
are, two registry pods with the same bundle image get pods of the same name
from `podForBundleRegistry`, whatever their index image, database path and
mode are. -/
theorem C14_pod_name_depends_on_bundle_image_only :
    getPodName testEnv "quay.io/example/example-operator-bundle:0.2.0" =
      "quay-io-example-example-operator-bundle-0-2-0" ∧
    ∀ (env : Env) (rp1 rp2 : RegistryPod) (ns : String),
      rp1.BundleImage = rp2.BundleImage →
      ∃ pod1 pod2 : Pod,
        rp1.podForBundleRegistry env ns = .ok pod1 ∧
        rp2.podForBundleRegistry env ns = .ok pod2 ∧
        pod1.ObjectMeta.Name = pod2.ObjectMeta.Name ∧
        pod1.ObjectMeta.Name = getPodName env rp1.BundleImage := by
  refine ⟨by decide, ?_⟩
  intro env rp1 rp2 ns h
  refine ⟨_, _, podForBundleRegistry_eq env rp1 ns, podForBundleRegistry_eq env rp2 ns, ?_, rfl⟩
  show getPodName env rp1.BundleImage = getPodName env rp2.BundleImage
  rw [h]

/-- C15: for every creator, pod address and catalog source,
`updateCatalogSource` returns no error and leaves the catalog source with
source type grpc, the address `ip:50051` that `GetRegistryPodHost` gives, and
annotations that hold the creator's index image, its inject bundle mode and
what `json.Marshal` writes for its injected bundles under the three
provenance keys; name, namespace and the rest of the spec stay as they were. -/
theorem C15_updateCatalogSource_fields (c : IndexImageCatalogCreator) (ip : String)
    (cs : CatalogSource) :
    (c.updateCatalogSource ip cs).1 = none ∧
    (c.updateCatalogSource ip cs).2.Spec.SourceType = "grpc" ∧
    (c.updateCatalogSource ip cs).2.Spec.Address = ip ++ ":50051" ∧
    (c.updateCatalogSource ip cs).2.Spec.Address = GetRegistryPodHost ip ∧
    (c.updateCatalogSource ip cs).2.ObjectMeta.Annotations.lookup
      "operators.operatorframework.io/index-image" = some c.IndexImage ∧
    (c.updateCatalogSource ip cs).2.ObjectMeta.Annotations.lookup
      "operators.operatorframework.io/inject-bundle-mode" = some c.InjectBundleMode ∧
    (∃ injectedBundlesJSON, jsonMarshalStrings c.InjectBundles = .ok injectedBundlesJSON ∧
      (c.updateCatalogSource ip cs).2.ObjectMeta.Annotations.lookup
        "operators.operatorframework.io/injected-bundles" = some injectedBundlesJSON) ∧
    (c.updateCatalogSource ip cs).2.ObjectMeta.Annotations.map Prod.fst =
      ["operators.operatorframework.io/index-image",
       "operators.operatorframework.io/inject-bundle-mode",
       "operators.operatorframework.io/injected-bundles"] ∧
    (c.updateCatalogSource ip cs).2.ObjectMeta.Name = cs.ObjectMeta.Name ∧
    (c.updateCatalogSource ip cs).2.ObjectMeta.Namespace = cs.ObjectMeta.Namespace ∧
    (c.updateCatalogSource ip cs).2.Spec.DisplayName = cs.Spec.DisplayName ∧
    (c.updateCatalogSource ip cs).2.Spec.Publisher = cs.Spec.Publisher := by
  have hhost : GetRegistryPodHost ip = ip ++ ":50051" := by
    unfold GetRegistryPodHost
    rw [toString_registryGRPCPort, String.append_assoc]
    rfl
  cases hj : c.InjectBundles with
  | none =>
    simp [IndexImageCatalogCreator.updateCatalogSource, jsonMarshalStrings, hj, List.lookup,
      SourceTypeGrpc, hhost]
  | some l =>
    simp [IndexImageCatalogCreator.updateCatalogSource, jsonMarshalStrings, hj, List.lookup,
      SourceTypeGrpc, hhost]

/-- C17: the pod-readiness check of `createRegistryPod` re-reads the pod; when
the read returns a pod it reports no error and done exactly when the phase of
the pod just read is Running; so Pending, Succeeded,
Failed, Unknown and the unset phase all give done=false without an error; it
reports an error exactly when the read fails, and the error wraps the read
error. -/
theorem C17_podCheck_running_only (env : Env) (podKey : ObjectKey) (pod : Pod) (cl : Client) :
    (∀ read : Pod, (cl.GetPod env.unicodeIsPrint podKey).1 = .ok read →
      (podCheck env podKey pod cl).1 = .ok (decide (read.Status.Phase = "Running"))) ∧
    ((podCheck env podKey pod cl).1 = .ok true ↔
      ∃ read : Pod, (cl.GetPod env.unicodeIsPrint podKey).1 = .ok read ∧
        read.Status.Phase = "Running") ∧
    (∀ read : Pod, (cl.GetPod env.unicodeIsPrint podKey).1 = .ok read →
      read.Status.Phase ∈ ["Pending", "Succeeded", "Failed", "Unknown", ""] →
      (podCheck env podKey pod cl).1 = .ok false) ∧
    (∀ err, (cl.GetPod env.unicodeIsPrint podKey).1 = .error err →
      (podCheck env podKey pod cl).1 =
        .error (.wrapError ("error getting pod " ++ podKey.Name ++ ": " ++ err.Error) err)) ∧
    ((∃ e, (podCheck env podKey pod cl).1 = .error e) ↔
      ∃ err, (cl.GetPod env.unicodeIsPrint podKey).1 = .error err) ∧
    (podCheck env podKey pod cl).2.2.store = cl.store := by
  have hg := GetPod_eq env.unicodeIsPrint cl podKey
  unfold podCheck
  cases hr : (cl.GetPod env.unicodeIsPrint podKey).1 with
  | error err =>
    rw [hr] at hg
    simp [hg]
  | ok read =>
    rw [hr] at hg
    simp only [hg, PodRunning]
    refine ⟨?_, ?_, ?_, ?_, ?_, trivial⟩
    · intro r h
      cases h
      rfl
    · simp
    · intro r h hmem
      cases h
      have hne : read.Status.Phase ≠ "Running" := by
        intro h
        rw [h] at hmem
        revert hmem
        decide
      simp [hne]
    · intro err h
      cases h
    · simp

/-- The witness of C17: a stored pod whose phase is Failed gives done=false
and no error. -/
theorem C17_podCheck_running_only_witness :
    (podCheck testEnv { Namespace := "default", Name := "p" }
      { ObjectMeta := { Name := "p", Namespace := "default" }, Spec := { Containers := [] } }
      { store := { pods := [{ ObjectMeta := { Name := "p", Namespace := "default" },
                              Spec := { Containers := [] },
                              Status := { Phase := "Failed" } }],
                   catalogSources := [] },
        faults := fun _ => none, calls := [] }).1 = .ok false :=
  (C17_podCheck_running_only testEnv { Namespace := "default", Name := "p" }
      { ObjectMeta := { Name := "p", Namespace := "default" }, Spec := { Containers := [] } }
      { store := { pods := [{ ObjectMeta := { Name := "p", Namespace := "default" },
                              Spec := { Containers := [] },
                              Status := { Phase := "Failed" } }],
                   catalogSources := [] },
        faults := fun _ => none, calls := [] }).2.2.1
    { ObjectMeta := { Name := "p", Namespace := "default" }, Spec := { Containers := [] },
      Status := { Phase := "Failed" } } (by decide) (by decide)

theorem GetCatalogSource_eq (p : Char → Bool) (cl : Client) (key : ObjectKey) :
    cl.GetCatalogSource p key =
      ((cl.GetCatalogSource p key).1,
       { cl with calls := cl.calls ++ [.get catalogSourcesResource key] }) := by
  unfold Client.GetCatalogSource
  cases cl.faults cl.calls.length with
  | some e => rfl
  | none =>
    cases cl.store.catalogSources.find? (fun cs => cs.key = key) with
    | some q => rfl
    | none => rfl

/-- C18: the catalog-readiness check of `waitForCatalogSource` re-reads the
catalog source; it reports done with no error exactly when the record just
read has a connection state whose last observed state is `READY`; a record
without a connection state, or with another state string such as `ready`,
`CONNECTING` or `TRANSIENT_FAILURE`, gives done=false with no error; a failed
read gives the read error itself. -/
theorem C18_catSrcCheck_ready_only (env : Env) (catSrcKey : ObjectKey) (cs : CatalogSource)
    (cl : Client) :
    ((catSrcCheck env catSrcKey cs cl).1 = .ok true ↔
      ∃ (read : CatalogSource) (st : GRPCConnectionState),
        (cl.GetCatalogSource env.unicodeIsPrint catSrcKey).1 = .ok read ∧
        read.Status.GRPCConnectionState = some st ∧ st.LastObservedState = "READY") ∧
    (∀ read : CatalogSource, (cl.GetCatalogSource env.unicodeIsPrint catSrcKey).1 = .ok read →
      read.Status.GRPCConnectionState = none →
      (catSrcCheck env catSrcKey cs cl).1 = .ok false) ∧
    (∀ (read : CatalogSource) (st : GRPCConnectionState),
      (cl.GetCatalogSource env.unicodeIsPrint catSrcKey).1 = .ok read →
      read.Status.GRPCConnectionState = some st → st.LastObservedState ≠ "READY" →
      (catSrcCheck env catSrcKey cs cl).1 = .ok false) ∧
    ("ready" ≠ "READY" ∧ "CONNECTING" ≠ "READY" ∧ "TRANSIENT_FAILURE" ≠ "READY") ∧
    (∀ err, (cl.GetCatalogSource env.unicodeIsPrint catSrcKey).1 = .error err →
      (catSrcCheck env catSrcKey cs cl).1 = .error err) ∧
    (catSrcCheck env catSrcKey cs cl).2.2.store = cl.store := by
  have hg := GetCatalogSource_eq env.unicodeIsPrint cl catSrcKey
  unfold catSrcCheck
  cases hr : (cl.GetCatalogSource env.unicodeIsPrint catSrcKey).1 with
  | error err =>
    rw [hr] at hg
    simp [hg]
  | ok read =>
    rw [hr] at hg
    simp only [hg]
    cases hst : read.Status.GRPCConnectionState with
    | none => simp [hst]
    | some st =>
      by_cases hready : st.LastObservedState = "READY"
      · simp [hst, hready]
        intro r st2 h1 h2
        subst h1
        rw [hst] at h2
        cases h2
        exact hready
      · simp [hst, hready]

/-- The witness of C18: a stored catalog source whose connection state is
`TRANSIENT_FAILURE` gives done=false and no error. -/
theorem C18_catSrcCheck_ready_only_witness :
    (catSrcCheck testEnv { Namespace := "default", Name := "example-catalog" }
      testCatalogSource clientWithFailingCatalog).1 = .ok false :=
  (C18_catSrcCheck_ready_only testEnv { Namespace := "default", Name := "example-catalog" }
    testCatalogSource clientWithFailingCatalog).2.2.1
    failingCatalogSource ⟨"TRANSIENT_FAILURE"⟩ (by decide) rfl (by decide)

theorem CreatePod_of_error (p : Char → Bool) (cl : Client) (pod : Pod) (err : GoError)
    (h : (cl.CreatePod p pod).1 = some err) :
    cl.CreatePod p pod =
      (some err, { cl with calls := cl.calls ++ [.create podsResource pod.key] }) := by
  unfold Client.CreatePod at h ⊢
  cases hf : cl.faults cl.calls.length with
  | some e =>
    rw [hf] at h
    simp only [Option.some.injEq] at h
    rw [h]
  | none =>
    rw [hf] at h
    cases hany : cl.store.pods.any (fun q => q.key = pod.key) with
    | true =>
      simp only [hany, if_true, Option.some.injEq] at h
      simp only [hany, if_true, h]
    | false =>
      simp [hany] at h

set_option maxRecDepth 1000000 in
/-- C11, as stated, fails for the create call: on an empty store the API
server refuses the create with a Forbidden status error; `Create` returns
another error value, a plain error whose message puts `error creating registry
pod: ` in front of the store's message, and the status reason is gone. -/
theorem C11_counterexample_create_error_reworded :
    clientRefusingCreate.faults 1 = some (.statusError "Forbidden" "pods is forbidden") ∧
    (testRegistryPod.Create testEnv newFakeConfig testCatalogSource clientRefusingCreate).1 =
      .error (.errorString "error creating registry pod: pods is forbidden") ∧
    (testRegistryPod.Create testEnv newFakeConfig testCatalogSource clientRefusingCreate).1 ≠
      .error (.statusError "Forbidden" "pods is forbidden") ∧
    (testRegistryPod.Create testEnv newFakeConfig testCatalogSource
      clientRefusingCreate).2.calls =
      [.get podsResource
        { Namespace := "default", Name := "quay-io-example-example-operator-bundle-0-2-0" },
       .create podsResource
        { Namespace := "default", Name := "quay-io-example-example-operator-bundle-0-2-0" }] := by
  refine ⟨?_, ?_, ?_, ?_⟩ <;> decide

/-- C11, amended: for every valid registry pod, a read failure other than
not-found is returned by `Create` as the store's error itself, after the read
as the only call; a failure of the create call is returned as a new error
whose message is `error creating registry pod: ` followed by the message of
the store's error, after exactly one read and one create; in both cases the
store is left as it was and there is no second attempt. -/
theorem C11_Create_store_failures (env : Env) (rp : RegistryPod) (cfg : Configuration)
    (cs : CatalogSource) (cl : Client)
    (hvalid : rp.validate env.unicodeIsPrint = none) :
    (∀ err : GoError,
      (cl.GetPod env.unicodeIsPrint
        { Namespace := cfg.Namespace, Name := getPodName env rp.BundleImage }).1 = .error err →
      IsNotFound err = false →
      (rp.Create env cfg cs cl).1 = .error err ∧
      (rp.Create env cfg cs cl).2.store = cl.store ∧
      (rp.Create env cfg cs cl).2.calls = cl.calls ++
        [.get podsResource
          { Namespace := cfg.Namespace, Name := getPodName env rp.BundleImage }]) ∧
    (∀ (notFound err : GoError) (pod owned : Pod),
      (cl.GetPod env.unicodeIsPrint
        { Namespace := cfg.Namespace, Name := getPodName env rp.BundleImage }).1 =
          .error notFound →
      IsNotFound notFound = true →
      rp.setDefaults.podForBundleRegistry env cfg.Namespace = .ok pod →
      SetOwnerReference cs pod cfg.Scheme = .ok owned →
      (Client.CreatePod env.unicodeIsPrint (cl.GetPod env.unicodeIsPrint
        { Namespace := cfg.Namespace, Name := getPodName env rp.BundleImage }).2 owned).1 =
          some err →
      (rp.Create env cfg cs cl).1 =
        .error (.errorString ("error creating registry pod: " ++ err.Error)) ∧
      (rp.Create env cfg cs cl).2.store = cl.store ∧
      (rp.Create env cfg cs cl).2.calls = cl.calls ++
        [.get podsResource
          { Namespace := cfg.Namespace, Name := getPodName env rp.BundleImage },
         .create podsResource owned.key]) := by
  have hv := setDefaults_validate_of_valid _ rp hvalid
  have hg := GetPod_eq env.unicodeIsPrint cl
    { Namespace := cfg.Namespace, Name := getPodName env rp.BundleImage }
  constructor
  · intro err hget hnf
    rw [hget] at hg
    unfold RegistryPod.Create
    simp only [hv, podForBundleRegistry_eq, ObjectKeyFromObject, setDefaults_BundleImage, hg, hnf]
    simp
  · intro notFound err pod owned hget hnf hpod hown hcreate
    rw [GetPod_snd] at hcreate
    have hc := CreatePod_of_error _ _ _ _ hcreate
    rw [hget] at hg
    rw [podForBundleRegistry_eq] at hpod
    cases hpod
    simp only [setDefaults_BundleImage] at hown
    unfold RegistryPod.Create
    simp only [hv, podForBundleRegistry_eq, ObjectKeyFromObject, setDefaults_BundleImage, hg, hnf,
      hown, hc]
    simp

/-- The witness of C11: the API server fails the read with an internal
error; `Create` for the test's registry pod returns that very error and makes
no other call. -/
theorem C11_Create_store_failures_witness :
    (testRegistryPod.Create testEnv newFakeConfig testCatalogSource clientFailingRead).1 =
      .error (.statusError "InternalError" "etcdserver: request timed out") ∧
    (testRegistryPod.Create testEnv newFakeConfig testCatalogSource clientFailingRead).2.store =
      clientFailingRead.store ∧
    (testRegistryPod.Create testEnv newFakeConfig testCatalogSource clientFailingRead).2.calls =
      clientFailingRead.calls ++
        [.get podsResource { Namespace := newFakeConfig.Namespace,
                             Name := getPodName testEnv testRegistryPod.BundleImage }] :=
  (C11_Create_store_failures testEnv testRegistryPod newFakeConfig testCatalogSource
    clientFailingRead (testRegistryPod_valid _)).1
    (.statusError "InternalError" "etcdserver: request timed out") (by decide) (by decide)

/-- The loop of `WaitFor`, entered after the invocation number `m`: when the
invocation number `j` comes within the ticks left and is the first after `m`
that answers done or an error, the loop ends with that answer, in the state
that invocation leaves, `j - m` intervals later. -/
theorem WaitFor_stop {α : Type} (env : Env) (interval : Nat)
    (condition : α → Client → Except GoError Bool × α × Client) (a : α) (cl : Client) :
    ∀ (ticks m j : Nat) (ctx : Nat), m < j → j ≤ m + ticks →
      (∀ i, m < i → i < j → (invocation env condition a cl i).1 = .ok false) →
      ((invocation env condition a cl j).1 = .ok true →
        WaitFor env interval condition ticks ctx (invocation env condition a cl m).2.1
            (invocation env condition a cl m).2.2 =
          (none, (invocation env condition a cl j).2.1, (invocation env condition a cl j).2.2,
            ctx - (j - m) * interval)) ∧
      (∀ e, (invocation env condition a cl j).1 = .error e →
        WaitFor env interval condition ticks ctx (invocation env condition a cl m).2.1
            (invocation env condition a cl m).2.2 =
          (some e, (invocation env condition a cl j).2.1, (invocation env condition a cl j).2.2,
            ctx - (j - m) * interval)) := by
  intro ticks
  induction ticks with
  | zero => intro m j ctx h1 h2; omega
  | succ t ih =>
    intro m j ctx hmj hj hfalse
    have hstep : invocation env condition a cl (m + 1) =
        condition (invocation env condition a cl m).2.1
          { (invocation env condition a cl m).2.2 with
            store := env.controllers (invocation env condition a cl m).2.2.store } := rfl
    by_cases hjm : j = m + 1
    · subst hjm
      have hone : (m + 1 - m) * interval = interval := by
        rw [Nat.add_sub_cancel_left, Nat.one_mul]
      rw [hone]
      constructor
      · intro hdone
        rw [WaitFor, ← hstep]
        rcases hinv : invocation env condition a cl (m + 1) with ⟨r, a1, cl1⟩
        rw [hinv] at hdone
        simp only at hdone
        subst hdone
        rfl
      · intro e herr
        rw [WaitFor, ← hstep]
        rcases hinv : invocation env condition a cl (m + 1) with ⟨r, a1, cl1⟩
        rw [hinv] at herr
        simp only at herr
        subst herr
        rfl
    · have hnext : (invocation env condition a cl (m + 1)).1 = .ok false :=
        hfalse (m + 1) (by omega) (by omega)
      have hloop : WaitFor env interval condition (t + 1) ctx
            (invocation env condition a cl m).2.1 (invocation env condition a cl m).2.2 =
          WaitFor env interval condition t (ctx - interval)
            (invocation env condition a cl (m + 1)).2.1
            (invocation env condition a cl (m + 1)).2.2 := by
        rw [WaitFor, ← hstep]
        rcases hinv : invocation env condition a cl (m + 1) with ⟨r, a1, cl1⟩
        rw [hinv] at hnext
        simp only at hnext
        subst hnext
        rfl
      have htime : ctx - interval - (j - (m + 1)) * interval = ctx - (j - m) * interval := by
        have hsplit : j - m = (j - (m + 1)) + 1 := by omega
        rw [hsplit, Nat.add_mul, Nat.one_mul, Nat.sub_sub, Nat.add_comm]
      have h := ih (m + 1) j (ctx - interval) (by omega) (by omega)
        (fun i hi1 hi2 => hfalse i (by omega) hi2)
      rw [hloop, ← htime]
      exact h

/-- The loop of `WaitFor`, entered after the invocation number `m`, when no
invocation within the ticks left answers done or an error: it ends with the
timeout error, in the state the last of them leaves. -/
theorem WaitFor_timeout {α : Type} (env : Env) (interval : Nat)
    (condition : α → Client → Except GoError Bool × α × Client) (a : α) (cl : Client) :
    ∀ (ticks m : Nat) (ctx : Nat),
      (∀ i, m < i → i ≤ m + ticks → (invocation env condition a cl i).1 = .ok false) →
      WaitFor env interval condition ticks ctx (invocation env condition a cl m).2.1
          (invocation env condition a cl m).2.2 =
        (some ErrWaitTimeout, (invocation env condition a cl (m + ticks)).2.1,
          (invocation env condition a cl (m + ticks)).2.2, 0) := by
  intro ticks
  induction ticks with
  | zero => intro m ctx _; rfl
  | succ t ih =>
    intro m ctx hfalse
    have hstep : invocation env condition a cl (m + 1) =
        condition (invocation env condition a cl m).2.1
          { (invocation env condition a cl m).2.2 with
            store := env.controllers (invocation env condition a cl m).2.2.store } := rfl
    have hnext : (invocation env condition a cl (m + 1)).1 = .ok false :=
      hfalse (m + 1) (by omega) (by omega)
    have hloop : WaitFor env interval condition (t + 1) ctx
          (invocation env condition a cl m).2.1 (invocation env condition a cl m).2.2 =
        WaitFor env interval condition t (ctx - interval)
          (invocation env condition a cl (m + 1)).2.1
          (invocation env condition a cl (m + 1)).2.2 := by
      rw [WaitFor, ← hstep]
      rcases hinv : invocation env condition a cl (m + 1) with ⟨r, a1, cl1⟩
      rw [hinv] at hnext
      simp only at hnext
      subst hnext
      rfl
    have h := ih (m + 1) (ctx - interval) (fun i hi1 hi2 => hfalse i (by omega) (by omega))
    rw [hloop, h, show m + 1 + t = m + (t + 1) by omega]

/-- `PollImmediateUntil` ends at the first invocation that answers done or an
error, provided its tick comes before cancellation: with that answer, in the
state the invocation leaves, and `j` intervals after the start for the
invocation number `j`. -/
theorem PollImmediateUntil_stop {α : Type} (env : Env) (interval : Nat)
    (condition : α → Client → Except GoError Bool × α × Client)
    (ctx : Nat) (a : α) (cl : Client) (j : Nat) (hj : j ≤ ctx / interval)
    (hfalse : ∀ i, i < j → (invocation env condition a cl i).1 = .ok false) :
    ((invocation env condition a cl j).1 = .ok true →
      PollImmediateUntil env interval condition ctx a cl =
        (none, (invocation env condition a cl j).2.1, (invocation env condition a cl j).2.2,
          ctx - j * interval)) ∧
    (∀ e, (invocation env condition a cl j).1 = .error e →
      PollImmediateUntil env interval condition ctx a cl =
        (some e, (invocation env condition a cl j).2.1, (invocation env condition a cl j).2.2,
          ctx - j * interval)) := by
  have hzero : invocation env condition a cl 0 = condition a cl := rfl
  cases j with
  | zero =>
    rw [Nat.zero_mul, Nat.sub_zero]
    constructor
    · intro hdone
      unfold PollImmediateUntil
      rw [← hzero]
      rcases hinv : invocation env condition a cl 0 with ⟨r, a1, cl1⟩
      rw [hinv] at hdone
      simp only at hdone
      subst hdone
      rfl
    · intro e herr
      unfold PollImmediateUntil
      rw [← hzero]
      rcases hinv : invocation env condition a cl 0 with ⟨r, a1, cl1⟩
      rw [hinv] at herr
      simp only at herr
      subst herr
      rfl
  | succ k =>
    have hfirst : (invocation env condition a cl 0).1 = .ok false := hfalse 0 (by omega)
    have hctx : ctx ≠ 0 := by
      intro h
      rw [h, Nat.zero_div] at hj
      omega
    have hpoll : PollImmediateUntil env interval condition ctx a cl =
        WaitFor env interval condition (ctx / interval) ctx
          (invocation env condition a cl 0).2.1 (invocation env condition a cl 0).2.2 := by
      unfold PollImmediateUntil
      rw [← hzero]
      rcases hinv : invocation env condition a cl 0 with ⟨r, a1, cl1⟩
      rw [hinv] at hfirst
      simp only at hfirst
      subst hfirst
      simp only [if_neg hctx]
      rfl
    have h := WaitFor_stop env interval condition a cl (ctx / interval) 0 (k + 1) ctx
      (by omega) (by omega) (fun i _ hi => hfalse i hi)
    rw [hpoll]
    rw [Nat.sub_zero] at h
    exact h

/-- `PollImmediateUntil` ends with the timeout error when no invocation up to
the last tick before cancellation answers done or an error. -/
theorem PollImmediateUntil_timeout {α : Type} (env : Env) (interval : Nat)
    (condition : α → Client → Except GoError Bool × α × Client)
    (ctx : Nat) (a : α) (cl : Client)
    (hfalse : ∀ i, i ≤ ctx / interval → (invocation env condition a cl i).1 = .ok false) :
    PollImmediateUntil env interval condition ctx a cl =
      (some ErrWaitTimeout, (invocation env condition a cl (ctx / interval)).2.1,
        (invocation env condition a cl (ctx / interval)).2.2, 0) := by
  have hzero : invocation env condition a cl 0 = condition a cl := rfl
  have hfirst : (invocation env condition a cl 0).1 = .ok false := hfalse 0 (Nat.zero_le _)
  by_cases hctx : ctx = 0
  · subst hctx
    unfold PollImmediateUntil
    rw [← hzero, Nat.zero_div]
    rcases hinv : invocation env condition a cl 0 with ⟨r, a1, cl1⟩
    rw [hinv] at hfirst
    simp only at hfirst
    subst hfirst
    rfl
  · have hpoll : PollImmediateUntil env interval condition ctx a cl =
        WaitFor env interval condition (ctx / interval) ctx
          (invocation env condition a cl 0).2.1 (invocation env condition a cl 0).2.2 := by
      unfold PollImmediateUntil
      rw [← hzero]
      rcases hinv : invocation env condition a cl 0 with ⟨r, a1, cl1⟩
      rw [hinv] at hfirst
      simp only at hfirst
      subst hfirst
      simp only [if_neg hctx]
      rfl
    have h := WaitFor_timeout env interval condition a cl (ctx / interval) 0 ctx
      (fun i _ hi => hfalse i (by rw [Nat.zero_add] at hi; exact hi))
    rw [hpoll, h, Nat.zero_add]

theorem podCheck_store (env : Env) (podKey : ObjectKey) (pod : Pod) (cl : Client) :
    (podCheck env podKey pod cl).2.2.store = cl.store := by
  have hg := GetPod_eq env.unicodeIsPrint cl podKey
  unfold podCheck
  cases hr : (cl.GetPod env.unicodeIsPrint podKey).1 with
  | error err => rw [hr] at hg; simp [hg]
  | ok read => rw [hr] at hg; simp [hg]

theorem catSrcCheck_store (env : Env) (catSrcKey : ObjectKey) (cs : CatalogSource)
    (cl : Client) : (catSrcCheck env catSrcKey cs cl).2.2.store = cl.store := by
  have hg := GetCatalogSource_eq env.unicodeIsPrint cl catSrcKey
  unfold catSrcCheck
  cases hr : (cl.GetCatalogSource env.unicodeIsPrint catSrcKey).1 with
  | error err => rw [hr] at hg; simp [hg]
  | ok read =>
    rw [hr] at hg
    simp only [hg]
    cases hst : read.Status.GRPCConnectionState with
    | none => simp [hst]
    | some st =>
      by_cases hready : st.LastObservedState = "READY"
      · simp [hst, hready]
      · simp [hst, hready]

/-- The loop of `WaitFor` with a check that only reads and ticks that fit
into the time left: the store at the end is the store of the start after `k`
steps of the other actors, and the `k` ticks used have taken their time. -/
theorem WaitFor_store {α : Type} (env : Env) (interval : Nat)
    (condition : α → Client → Except GoError Bool × α × Client)
    (hread : ∀ a cl, (condition a cl).2.2.store = cl.store) (hpos : 1 ≤ interval) :
    ∀ (ticks : Nat) (ctx : Nat) (a : α) (cl : Client), ticks * interval ≤ ctx →
      ∃ k : Nat,
        (WaitFor env interval condition ticks ctx a cl).2.2.2 + k ≤ ctx ∧
        (WaitFor env interval condition ticks ctx a cl).2.2.1.store =
          env.controllers^[k] cl.store := by
  intro ticks
  induction ticks with
  | zero =>
    intro ctx a cl _
    exact ⟨0, by simp [WaitFor], rfl⟩
  | succ t ih =>
    intro ctx a cl hfit
    rw [Nat.succ_mul] at hfit
    have hs := hread a { cl with store := env.controllers cl.store }
    rcases hc : condition a { cl with store := env.controllers cl.store } with ⟨r, a2, cl2⟩
    rw [hc] at hs
    simp only at hs
    cases r with
    | error err =>
      refine ⟨1, ?_, ?_⟩
      · simp only [WaitFor, hc]
        omega
      · simp [WaitFor, hc, hs]
    | ok b =>
      cases b with
      | true =>
        refine ⟨1, ?_, ?_⟩
        · simp only [WaitFor, hc]
          omega
        · simp [WaitFor, hc, hs]
      | false =>
        obtain ⟨k, hk1, hk2⟩ := ih (ctx - interval) a2 cl2 (by omega)
        refine ⟨k + 1, ?_, ?_⟩
        · simp only [WaitFor, hc]
          omega
        · simp only [WaitFor, hc]
          rw [hk2, hs, Function.iterate_succ_apply]

/-- The store after `PollImmediateUntil` with a check that only reads. -/
theorem PollImmediateUntil_store {α : Type} (env : Env) (interval : Nat)
    (condition : α → Client → Except GoError Bool × α × Client)
    (hread : ∀ a cl, (condition a cl).2.2.store = cl.store) (hpos : 1 ≤ interval)
    (ctx : Nat) (a : α) (cl : Client) : ∃ k : Nat,
      (PollImmediateUntil env interval condition ctx a cl).2.2.2 + k ≤ ctx ∧
      (PollImmediateUntil env interval condition ctx a cl).2.2.1.store =
        env.controllers^[k] cl.store := by
  have hs := hread a cl
  rcases hc : condition a cl with ⟨r, a2, cl2⟩
  rw [hc] at hs
  simp only at hs
  cases r with
  | error err =>
    refine ⟨0, ?_, ?_⟩
    · simp [PollImmediateUntil, hc]
    · simp [PollImmediateUntil, hc, hs]
  | ok b =>
    cases b with
    | true =>
      refine ⟨0, ?_, ?_⟩
      · simp [PollImmediateUntil, hc]
      · simp [PollImmediateUntil, hc, hs]
    | false =>
      by_cases hz : ctx = 0
      · refine ⟨0, ?_, ?_⟩
        · simp [PollImmediateUntil, hc, hz]
        · simp [PollImmediateUntil, hc, hz, hs]
      · obtain ⟨k, hk1, hk2⟩ := WaitFor_store env interval condition hread hpos
          (ctx / interval) ctx a2 cl2 (Nat.div_mul_le_self ctx interval)
        refine ⟨k, ?_, ?_⟩
        · simp only [PollImmediateUntil, hc, hz, if_false, PollUntil]
          exact hk1
        · simp only [PollImmediateUntil, hc, hz, if_false, PollUntil]
          rw [hk2, hs]

theorem CreatePod_store (p : Char → Bool) (cl : Client) (pod : Pod) :
    ((cl.CreatePod p pod).1 ≠ none ∧ (cl.CreatePod p pod).2.store = cl.store) ∨
    ((cl.CreatePod p pod).1 = none ∧
      (cl.CreatePod p pod).2.store = { cl.store with pods := cl.store.pods ++ [pod] }) := by
  unfold Client.CreatePod
  cases hf : cl.faults cl.calls.length with
  | some e => left; simp
  | none =>
    cases hany : cl.store.pods.any (fun q => q.key = pod.key) with
    | true => left; simp [hany]
    | false => right; simp [hany]

/-- The store after `Create`: the store of before, with at most one pod added,
and none when `Create` returns an error. -/
theorem Create_store (env : Env) (rp : RegistryPod) (cfg : Configuration)
    (cs : CatalogSource) (cl : Client) :
    ∃ created : List Pod, created.length ≤ 1 ∧
      (rp.Create env cfg cs cl).2.store = { cl.store with pods := cl.store.pods ++ created } ∧
      (∀ e, (rp.Create env cfg cs cl).1 = .error e → created = []) := by
  unfold RegistryPod.Create
  simp only [podForBundleRegistry_eq, ObjectKeyFromObject]
  split
  · exact ⟨[], by simp, by simp, fun _ _ => rfl⟩
  · rw [GetPod_eq]
    cases (cl.GetPod env.unicodeIsPrint _).1 with
    | ok existingPod => exact ⟨[], by simp, by simp, fun _ _ => rfl⟩
    | error err =>
      simp only
      split
      · exact ⟨[], by simp, by simp, fun _ _ => rfl⟩
      · split
        · exact ⟨[], by simp, by simp, fun _ _ => rfl⟩
        · rename_i owned _
          rcases hc : Client.CreatePod env.unicodeIsPrint
              { cl with calls := cl.calls ++ [.get podsResource
                { Namespace := cfg.Namespace,
                  Name := getPodName env rp.setDefaults.BundleImage }] } owned with ⟨r, cl2⟩
          have hst := CreatePod_store env.unicodeIsPrint
              { cl with calls := cl.calls ++ [.get podsResource
                { Namespace := cfg.Namespace,
                  Name := getPodName env rp.setDefaults.BundleImage }] } owned
          rw [hc] at hst
          simp only at hst
          rcases hst with ⟨hne, hs⟩ | ⟨heq, hs⟩
          · cases r with
            | none => exact absurd rfl hne
            | some e => exact ⟨[], by simp, by simp [hs], fun _ _ => rfl⟩
          · subst heq
            exact ⟨[owned], by simp, by simp [hs], fun e he => by simp at he⟩

/-- The store after `createRegistryPod`: the store of before with at most one
pod added, after `k` steps of the other actors, `k` being at most the ticks
used. -/
theorem createRegistryPod_store (env : Env) (c : IndexImageCatalogCreator) (ctx : Nat)
    (cs : CatalogSource) (dbPath : String) (cl : Client) :
    ∃ (k : Nat) (created : List Pod), created.length ≤ 1 ∧
      (c.createRegistryPod env ctx cs dbPath cl).2.2 + k ≤ ctx ∧
      (c.createRegistryPod env ctx cs dbPath cl).2.1.store =
        env.controllers^[k] { cl.store with pods := cl.store.pods ++ created } := by
  unfold IndexImageCatalogCreator.createRegistryPod
  simp only [ObjectKeyFromObject]
  split
  · exact ⟨0, [], by simp, by simp, by simp⟩
  · rename_i mode _
    obtain ⟨created, hlen, hstore, _⟩ := Create_store env
      { IndexImage := c.IndexImage, BundleImage := c.BundleImage, DBPath := dbPath,
        BundleAddMode := mode } c.cfg cs cl
    rcases hcr : RegistryPod.Create env
      { IndexImage := c.IndexImage, BundleImage := c.BundleImage, DBPath := dbPath,
        BundleAddMode := mode } c.cfg cs cl with ⟨r, cl2⟩
    rw [hcr] at hstore
    simp only at hstore
    cases r with
    | error err => exact ⟨0, created, hlen, by simp, by simp [hstore]⟩
    | ok pod =>
      simp only
      obtain ⟨k, hk1, hk2⟩ := PollImmediateUntil_store env (200 * Millisecond)
        (podCheck env { Namespace := pod.ObjectMeta.Namespace, Name := pod.ObjectMeta.Name })
        (podCheck_store env _) (by decide) ctx pod cl2
      rcases hp : PollImmediateUntil env (200 * Millisecond)
        (podCheck env { Namespace := pod.ObjectMeta.Namespace, Name := pod.ObjectMeta.Name })
        ctx pod cl2 with ⟨r, pod2, cl3, ctx2⟩
      rw [hp] at hk1 hk2
      simp only at hk1 hk2
      cases r with
      | some err => exact ⟨k, created, hlen, hk1, by simp [hk2, hstore]⟩
      | none => exact ⟨k, created, hlen, hk1, by simp [hk2, hstore]⟩

/-- The store after `waitForCatalogSource`: the store of before after `k`
steps of the other actors, `k` being at most the ticks used. -/
theorem waitForCatalogSource_store (env : Env) (ctx : Nat) (cs : CatalogSource)
    (cl : Client) : ∃ k : Nat,
      (waitForCatalogSource env ctx cs cl).2.2.2 + k ≤ ctx ∧
      (waitForCatalogSource env ctx cs cl).2.2.1.store = env.controllers^[k] cl.store := by
  unfold waitForCatalogSource
  simp only [ObjectKeyFromObject]
  obtain ⟨k, hk1, hk2⟩ := PollImmediateUntil_store env (200 * Millisecond)
    (catSrcCheck env { Namespace := cs.ObjectMeta.Namespace, Name := cs.ObjectMeta.Name })
    (catSrcCheck_store env _) (by decide) ctx cs cl
  rcases hp : PollImmediateUntil env (200 * Millisecond)
    (catSrcCheck env { Namespace := cs.ObjectMeta.Namespace, Name := cs.ObjectMeta.Name })
    ctx cs cl with ⟨r, cs2, cl2, ctx2⟩
  rw [hp] at hk1 hk2
  simp only at hk1 hk2
  cases r with
  | some err => exact ⟨k, hk1, by simp [hk2]⟩
  | none => exact ⟨k, hk1, by simp [hk2]⟩

theorem keepsObjects_iterate (controllers : Store → Store) (h : keepsObjects controllers) :
    ∀ k : Nat, keepsObjects (controllers^[k]) := by
  intro k
  induction k with
  | zero =>
    intro st
    exact ⟨fun p hp => ⟨p, hp, rfl⟩, fun c hc => ⟨c, hc, rfl⟩⟩
  | succ n ih =>
    intro st
    rw [Function.iterate_succ_apply']
    constructor
    · intro p hp
      obtain ⟨q, hq, hqk⟩ := (ih st).1 p hp
      obtain ⟨r, hr, hrk⟩ := (h (controllers^[n] st)).1 q hq
      exact ⟨r, hr, hrk.trans hqk⟩
    · intro c hc
      obtain ⟨d, hd, hdk⟩ := (ih st).2 c hc
      obtain ⟨e, he, hek⟩ := (h (controllers^[n] st)).2 d hd
      exact ⟨e, he, hek.trans hdk⟩

theorem CreateCatalogSource_of_ok (p : Char → Bool) (cl : Client) (cs : CatalogSource)
    (h : (cl.CreateCatalogSource p cs).1 = none) :
    cl.CreateCatalogSource p cs =
      (none, { cl with
        calls := cl.calls ++ [.create catalogSourcesResource cs.key]
        store := { cl.store with catalogSources := cl.store.catalogSources ++ [cs] } }) := by
  rcases CreateCatalogSource_cases p cl cs with ⟨err, herr⟩ | ⟨hf, hany⟩
  · rw [herr] at h
    simp at h
  · exact CreateCatalogSource_of_absent p cl cs hf hany

theorem updateCatalogSource_eq (c : IndexImageCatalogCreator) (podAddr : String)
    (cs : CatalogSource) :
    c.updateCatalogSource podAddr cs = (none, (c.updateCatalogSource podAddr cs).2) := by
  unfold IndexImageCatalogCreator.updateCatalogSource
  cases c.InjectBundles <;> rfl

/-- The outcome of `CreateCatalog` once the database path is read and the
catalog source is created: an error of `createRegistryPod` or of
`waitForCatalogSource` is returned as an error, and the store at the end is
the store of before with the catalog source and at most one pod added, after
`k` steps of the other actors. -/
theorem CreateCatalog_after_catalog_source (env : Env) (c : IndexImageCatalogCreator)
    (ctx : Nat) (name : String) (cl : Client) (dbPath : String)
    (hdb : c.getDBPath env = .ok dbPath)
    (hcs : (cl.CreateCatalogSource env.unicodeIsPrint
      (newCatalogSource name c.cfg.Namespace [withSDKPublisher c.PackageName])).1 = none) :
    (∀ e, (c.createRegistryPod env ctx
        (newCatalogSource name c.cfg.Namespace [withSDKPublisher c.PackageName]) dbPath
        (cl.CreateCatalogSource env.unicodeIsPrint
          (newCatalogSource name c.cfg.Namespace [withSDKPublisher c.PackageName])).2).1 =
          .error e →
      (c.CreateCatalog env ctx name cl).1 =
        .error (.errorString ("error in creating registry pod: " ++ e.Error))) ∧
    (∀ pod e, (c.createRegistryPod env ctx
        (newCatalogSource name c.cfg.Namespace [withSDKPublisher c.PackageName]) dbPath
        (cl.CreateCatalogSource env.unicodeIsPrint
          (newCatalogSource name c.cfg.Namespace [withSDKPublisher c.PackageName])).2).1 =
          .ok pod →
      (waitForCatalogSource env
        (c.createRegistryPod env ctx
          (newCatalogSource name c.cfg.Namespace [withSDKPublisher c.PackageName]) dbPath
          (cl.CreateCatalogSource env.unicodeIsPrint
            (newCatalogSource name c.cfg.Namespace [withSDKPublisher c.PackageName])).2).2.2
        (c.updateCatalogSource pod.Status.PodIP
          (newCatalogSource name c.cfg.Namespace [withSDKPublisher c.PackageName])).2
        (c.createRegistryPod env ctx
          (newCatalogSource name c.cfg.Namespace [withSDKPublisher c.PackageName]) dbPath
          (cl.CreateCatalogSource env.unicodeIsPrint
            (newCatalogSource name c.cfg.Namespace [withSDKPublisher c.PackageName])).2).2.1).1 =
          some e →
      (c.CreateCatalog env ctx name cl).1 = .error e) ∧
    (∃ (k : Nat) (created : List Pod), k ≤ ctx ∧ created.length ≤ 1 ∧
      (c.CreateCatalog env ctx name cl).2.1.store =
        env.controllers^[k]
          { pods := cl.store.pods ++ created
            catalogSources := cl.store.catalogSources ++
              [newCatalogSource name c.cfg.Namespace [withSDKPublisher c.PackageName]] }) := by
  have hc := CreateCatalogSource_of_ok _ _ _ hcs
  obtain ⟨k1, created, hlen, hk1, hst1⟩ := createRegistryPod_store env c ctx
    (newCatalogSource name c.cfg.Namespace [withSDKPublisher c.PackageName]) dbPath
    (cl.CreateCatalogSource env.unicodeIsPrint
      (newCatalogSource name c.cfg.Namespace [withSDKPublisher c.PackageName])).2
  rcases hr : c.createRegistryPod env ctx
    (newCatalogSource name c.cfg.Namespace [withSDKPublisher c.PackageName]) dbPath
    (cl.CreateCatalogSource env.unicodeIsPrint
      (newCatalogSource name c.cfg.Namespace [withSDKPublisher c.PackageName])).2 with
    ⟨r, cl2, ctx2⟩
  rw [hr] at hk1 hst1
  simp only at hk1 hst1
  rw [hc] at hr hst1
  simp only at hr hst1
  cases r with
  | error err =>
    have hR : c.CreateCatalog env ctx name cl =
        (.error (.errorString ("error in creating registry pod: " ++ err.Error)), cl2, ctx2) := by
      unfold IndexImageCatalogCreator.CreateCatalog
      rw [hdb]
      simp only [hc, hr]
    rw [hR]
    refine ⟨?_, ?_, ⟨k1, created, by omega, hlen, hst1⟩⟩
    · intro e he
      cases he
      rfl
    · intro pod e he
      cases he
  | ok registryPod =>
    obtain ⟨k2, hk2, hst2⟩ := waitForCatalogSource_store env ctx2
      (c.updateCatalogSource registryPod.Status.PodIP
        (newCatalogSource name c.cfg.Namespace [withSDKPublisher c.PackageName])).2 cl2
    rcases hw : waitForCatalogSource env ctx2
      (c.updateCatalogSource registryPod.Status.PodIP
        (newCatalogSource name c.cfg.Namespace [withSDKPublisher c.PackageName])).2 cl2 with
      ⟨w, cs3, cl3, ctx3⟩
    rw [hw] at hk2 hst2
    simp only at hk2 hst2
    have hstore : cl3.store = env.controllers^[k2 + k1]
        { pods := cl.store.pods ++ created
          catalogSources := cl.store.catalogSources ++
            [newCatalogSource name c.cfg.Namespace [withSDKPublisher c.PackageName]] } := by
      rw [hst2, hst1, Function.iterate_add_apply]
    cases w with
    | some err =>
      have hR : c.CreateCatalog env ctx name cl = (.error err, cl3, ctx3) := by
        unfold IndexImageCatalogCreator.CreateCatalog
        rw [hdb]
        simp only [hc, hr]
        rw [updateCatalogSource_eq]
        simp only [hw]
      rw [hR]
      refine ⟨?_, ?_, ⟨k2 + k1, created, by omega, hlen, hstore⟩⟩
      · intro e he
        cases he
      · intro pod e hp he
        cases hp
        rw [hw] at he
        cases he
        rfl
    | none =>
      have hR : c.CreateCatalog env ctx name cl = (.ok cs3, cl3, ctx3) := by
        unfold IndexImageCatalogCreator.CreateCatalog
        rw [hdb]
        simp only [hc, hr]
        rw [updateCatalogSource_eq]
        simp only [hw]
      rw [hR]
      refine ⟨?_, ?_, ⟨k2 + k1, created, by omega, hlen, hstore⟩⟩
      · intro e he
        cases he
      · intro pod e hp he
        cases hp
        rw [hw] at he
        cases he

/-- C19: no compensating rollback. Once the database path is read and the
catalog source is created, a failure of `createRegistryPod` (mode parsing, pod
validation, pod read or create, pod readiness) or of `waitForCatalogSource`
(catalog readiness) makes `CreateCatalog` return an error; and however the
call ends, the store it leaves is the store of before with the catalog source
and at most one pod added, as the other actors of the cluster have left it
after the `k` intervals the call has waited, so `CreateCatalog` itself removes
nothing: when the other actors delete nothing, the catalog source and the pod
it created are still in the store. Every call it makes is a read or a create,
never a delete. -/
theorem C19_CreateCatalog_no_rollback (env : Env) (c : IndexImageCatalogCreator)
    (ctx : Nat) (name : String) (cl : Client) (dbPath : String)
    (hdb : c.getDBPath env = .ok dbPath)
    (hcs : (cl.CreateCatalogSource env.unicodeIsPrint
      (newCatalogSource name c.cfg.Namespace [withSDKPublisher c.PackageName])).1 = none) :
    (∀ e, (c.createRegistryPod env ctx
        (newCatalogSource name c.cfg.Namespace [withSDKPublisher c.PackageName]) dbPath
        (cl.CreateCatalogSource env.unicodeIsPrint
          (newCatalogSource name c.cfg.Namespace [withSDKPublisher c.PackageName])).2).1 =
          .error e →
      (c.CreateCatalog env ctx name cl).1 =
        .error (.errorString ("error in creating registry pod: " ++ e.Error))) ∧
    (∀ pod e, (c.createRegistryPod env ctx
        (newCatalogSource name c.cfg.Namespace [withSDKPublisher c.PackageName]) dbPath
        (cl.CreateCatalogSource env.unicodeIsPrint
          (newCatalogSource name c.cfg.Namespace [withSDKPublisher c.PackageName])).2).1 =
          .ok pod →
      (waitForCatalogSource env
        (c.createRegistryPod env ctx
          (newCatalogSource name c.cfg.Namespace [withSDKPublisher c.PackageName]) dbPath
          (cl.CreateCatalogSource env.unicodeIsPrint
            (newCatalogSource name c.cfg.Namespace [withSDKPublisher c.PackageName])).2).2.2
        (c.updateCatalogSource pod.Status.PodIP
          (newCatalogSource name c.cfg.Namespace [withSDKPublisher c.PackageName])).2
        (c.createRegistryPod env ctx
          (newCatalogSource name c.cfg.Namespace [withSDKPublisher c.PackageName]) dbPath
          (cl.CreateCatalogSource env.unicodeIsPrint
            (newCatalogSource name c.cfg.Namespace [withSDKPublisher c.PackageName])).2).2.1).1 =
          some e →
      (c.CreateCatalog env ctx name cl).1 = .error e) ∧
    (∃ (k : Nat) (created : List Pod), k ≤ ctx ∧ created.length ≤ 1 ∧
      (c.CreateCatalog env ctx name cl).2.1.store =
        env.controllers^[k]
          { pods := cl.store.pods ++ created
            catalogSources := cl.store.catalogSources ++
              [newCatalogSource name c.cfg.Namespace [withSDKPublisher c.PackageName]] } ∧
      (keepsObjects env.controllers →
        (∃ d ∈ (c.CreateCatalog env ctx name cl).2.1.store.catalogSources,
          d.key = { Namespace := c.cfg.Namespace, Name := name }) ∧
        (∀ p ∈ cl.store.pods ++ created,
          ∃ q ∈ (c.CreateCatalog env ctx name cl).2.1.store.pods, q.key = p.key))) ∧
    (∀ call ∈ (c.CreateCatalog env ctx name cl).2.1.calls,
      (∃ resource key, call = .get resource key) ∨
      (∃ resource key, call = .create resource key)) := by
  obtain ⟨h1, h2, k, created, hk, hlen, hstore⟩ :=
    CreateCatalog_after_catalog_source env c ctx name cl dbPath hdb hcs
  refine ⟨h1, h2, ⟨k, created, hk, hlen, hstore, ?_⟩, ?_⟩
  · intro hkeep
    have hit := keepsObjects_iterate env.controllers hkeep k
      { pods := cl.store.pods ++ created
        catalogSources := cl.store.catalogSources ++
          [newCatalogSource name c.cfg.Namespace [withSDKPublisher c.PackageName]] }
    rw [hstore]
    constructor
    · obtain ⟨d, hd, hdk⟩ := hit.2
        (newCatalogSource name c.cfg.Namespace [withSDKPublisher c.PackageName]) (by simp)
      exact ⟨d, hd, hdk.trans rfl⟩
    · intro p hp
      exact hit.1 p hp
  · intro call _
    cases call with
    | get resource key => exact Or.inl ⟨resource, key, rfl⟩
    | create resource key => exact Or.inr ⟨resource, key, rfl⟩

set_option maxRecDepth 1000000 in
/-- The witness of C19: nobody runs the pod, so the call of the test's creator
fails at pod readiness when the context is cancelled after 400 ms; the
catalog source and the pod it created are still in the store. -/
theorem C19_CreateCatalog_no_rollback_witness :
    (testCreator.CreateCatalog testEnv (400 * Millisecond) "example-catalog" newFakeClient).1 =
      .error (.errorString ("error in creating registry pod: error waiting for registry pod " ++
        "quay-io-example-example-operator-bundle-0-2-0 to run: " ++
        "timed out waiting for the condition")) ∧
    (∃ d ∈ (testCreator.CreateCatalog testEnv (400 * Millisecond) "example-catalog"
        newFakeClient).2.1.store.catalogSources,
      d.key = { Namespace := "default", Name := "example-catalog" }) ∧
    (testCreator.CreateCatalog testEnv (400 * Millisecond) "example-catalog" newFakeClient).2.1.store.pods.map
      Pod.key =
      [{ Namespace := "default", Name := "quay-io-example-example-operator-bundle-0-2-0" }] := by
  obtain ⟨_, _, ⟨k, created, _, _, _, hkeep⟩, _⟩ :=
    C19_CreateCatalog_no_rollback testEnv testCreator (400 * Millisecond) "example-catalog"
      newFakeClient
      defaultDBPath (by decide) (by decide)
  refine ⟨by decide, (hkeep ?_).1, by decide⟩
  intro st
  exact ⟨fun p hp => ⟨p, hp, rfl⟩, fun c hc => ⟨c, hc, rfl⟩⟩

/-- A list trimmed of a kind of character at both ends: it is no longer, holds
only elements of the list, neither starts nor ends with such a character, and
is empty exactly when the list holds nothing else. -/
theorem trim_both_ends (p : Char → Bool) (x : Char) (hx : p x = true) (l : List Char) :
    ((l.dropWhile p).reverse.dropWhile p).reverse.length ≤ l.length ∧
    (∀ c ∈ ((l.dropWhile p).reverse.dropWhile p).reverse, c ∈ l) ∧
    ((l.dropWhile p).reverse.dropWhile p).reverse.head? ≠ some x ∧
    ((l.dropWhile p).reverse.dropWhile p).reverse.getLast? ≠ some x ∧
    (((l.dropWhile p).reverse.dropWhile p).reverse = [] ↔ ∀ c ∈ l, p c = true) := by
  have hs1 : l.dropWhile p <:+ l := List.dropWhile_suffix p
  have hs2 : (l.dropWhile p).reverse.dropWhile p <:+ (l.dropWhile p).reverse :=
    List.dropWhile_suffix p
  have hhead : ∀ m : List Char, (m.dropWhile p).head? ≠ some x := by
    intro m h
    have := List.head?_dropWhile_not p m
    rw [h] at this
    simp only at this
    rw [hx] at this
    exact absurd this (by simp)
  refine ⟨?_, ?_, ?_, ?_, ?_⟩
  · rw [List.length_reverse]
    have h1 := hs1.length_le
    have h2 := hs2.length_le
    rw [List.length_reverse] at h2
    omega
  · intro c hc
    rw [List.mem_reverse] at hc
    have h1 := hs2.subset hc
    rw [List.mem_reverse] at h1
    exact hs1.subset h1
  · rw [List.head?_reverse]
    intro h
    have hne : (l.dropWhile p).reverse.dropWhile p ≠ [] := by
      intro hnil
      rw [hnil] at h
      simp at h
    have hsplit := List.takeWhile_append_dropWhile p (l.dropWhile p).reverse
    have hlast := List.getLast?_append_of_ne_nil ((l.dropWhile p).reverse.takeWhile p) hne
    rw [hsplit, List.getLast?_reverse, h] at hlast
    exact hhead l hlast
  · rw [List.getLast?_reverse]
    exact hhead _
  · rw [List.reverse_eq_nil_iff]
    exact dropWhile_reverse_dropWhile_eq_nil p l

theorem String_mk_eq_empty_iff (l : List Char) : String.mk l = "" ↔ l = [] := by
  constructor
  · intro h
    exact congrArg String.data h
  · intro h
    rw [h]

theorem jsonRun_cons (c : Char) (rest : List Char) (st : JsonState) (out : List String) :
    jsonRun (c :: rest) st out =
      match jsonStep st out c with
      | none => none
      | some (st2, out2) => jsonRun rest st2 out2 := by
  cases st <;> rfl

theorem hexVal_hexDigit (m : Nat) : hexVal (hexDigit m) = some (m % 16) := by
  have h : m % 16 < 16 := Nat.mod_lt _ (by decide)
  unfold hexDigit
  generalize m % 16 = k at h
  interval_cases k <;> rfl

theorem jsonRun_unicode (n : Nat) (hn : n < 65536) (acc : List Char) (out : List String)
    (tail : List Char) :
    jsonRun (['\\', 'u'] ++ hexDigits 4 n ++ tail) (.inString acc) out =
      jsonRun tail (.inString (Char.ofNat n :: acc)) out := by
  have hval : ((n / 16 / 16 / 16 % 16 * 16 + n / 16 / 16 % 16) * 16 + n / 16 % 16) * 16
      + n % 16 = n := by omega
  simp only [hexDigits, List.nil_append, List.cons_append, List.append_assoc, List.singleton_append]
  simp [jsonRun_cons, jsonStep, hexVal_hexDigit]
  rw [hval]

/-- Reading what `json.Marshal` writes for one rune gives the rune back. -/
theorem jsonRun_escape (c : Char) (acc : List Char) (out : List String) (tail : List Char) :
    jsonRun (jsonEscapeRune c ++ tail) (.inString acc) out =
      jsonRun tail (.inString (c :: acc)) out := by
  have hof : Char.ofNat c.toNat = c := Char.ofNat_toNat c
  unfold jsonEscapeRune
  split_ifs with h1 h2 h3 h4 h5
  · rcases h1 with h | h <;> subst h <;> simp [jsonRun_cons, jsonStep]
  · subst h2; simp [jsonRun_cons, jsonStep]
  · subst h3; simp [jsonRun_cons, jsonStep]
  · subst h4; simp [jsonRun_cons, jsonStep]
  · have hn : c.toNat < 65536 := by
      rcases h5 with h | h | h | h | h | h
      · omega
      · subst h; decide
      · subst h; decide
      · subst h; decide
      · omega
      · omega
    rw [jsonRun_unicode c.toNat hn, hof]
  · have hq : c ≠ '"' := fun h => h1 (Or.inl h)
    have hb : c ≠ '\\' := fun h => h1 (Or.inr h)
    simp [jsonRun_cons, jsonStep, hq, hb]

/-- Reading the body of a string that `json.Marshal` wrote, up to the closing
quote, gives the string back. -/
theorem jsonRun_string_body (s : List Char) :
    ∀ (acc : List Char) (out : List String) (tail : List Char),
      jsonRun ((s.map jsonEscapeRune).flatten ++ '"' :: tail) (.inString acc) out =
        jsonRun tail .afterString (String.mk (acc.reverse ++ s) :: out) := by
  induction s with
  | nil =>
    intro acc out tail
    simp [jsonRun_cons, jsonStep]
  | cons c s ih =>
    intro acc out tail
    simp only [List.map_cons, List.flatten_cons, List.append_assoc]
    rw [jsonRun_escape, ih]
    simp

theorem jsonString_data (s : String) :
    (jsonString s).data = '"' :: ((s.data.map jsonEscapeRune).flatten ++ ['"']) := rfl

theorem intercalate_go_data (l : List String) :
    ∀ acc : String, (String.intercalate.go acc "," l).data =
      acc.data ++ (l.map (fun a => ',' :: a.data)).flatten := by
  induction l with
  | nil => intro acc; simp [String.intercalate.go]
  | cons a l ih =>
    intro acc
    rw [String.intercalate.go, ih]
    simp [String.data_append]

/-- Reading the rest of an array that `json.Marshal` wrote, after a string. -/
theorem jsonRun_array_rest (l : List String) :
    ∀ out : List String,
      jsonRun ((l.map (fun a => ',' :: (jsonString a).data)).flatten ++ [']'])
        .afterString out = some (out.reverse ++ l) := by
  induction l with
  | nil =>
    intro out
    simp [jsonRun_cons, jsonStep, jsonRun]
  | cons a l ih =>
    intro out
    simp only [List.map_cons, List.flatten_cons, List.cons_append, List.append_assoc]
    rw [jsonString_data a]
    simp only [List.cons_append, List.append_assoc, List.singleton_append]
    rw [jsonRun_cons]
    simp only [jsonStep, if_true]
    rw [jsonRun_cons]
    simp only [jsonStep, if_true]
    rw [jsonRun_string_body, List.nil_append, ih]
    simp

/-- The reader gives back every list that `json.Marshal` wrote as an array. -/
theorem jsonDecodeStrings_array (l : List String) :
    jsonDecodeStrings ("[" ++ ",".intercalate (l.map jsonString) ++ "]") = some l := by
  unfold jsonDecodeStrings
  cases l with
  | nil => decide
  | cons a l =>
    have hd : ("[" ++ ",".intercalate ((a :: l).map jsonString) ++ "]").data =
        '[' :: ((jsonString a).data ++
          ((l.map (fun x => ',' :: (jsonString x).data)).flatten ++ [']'])) := by
      simp [String.data_append, String.intercalate, intercalate_go_data, List.map_map,
        Function.comp_def]
    rw [hd, jsonString_data a]
    simp only [List.cons_append, List.append_assoc, List.singleton_append]
    rw [jsonRun_cons]
    simp only [jsonStep, if_true]
    rw [jsonRun_cons]
    simp only [jsonStep]
    simp only [show ('"' = ']') = False by decide, if_false, if_true]
    rw [jsonRun_string_body, List.nil_append, jsonRun_array_rest]
    simp

/-- C16, as stated, fails for a list that was never set: the creator of the
test has the nil slice as `InjectBundles`, and the annotation that
`updateCatalogSource` writes is the JSON value `null`, which is not a JSON
array and not the empty array `[]`. -/
theorem C16_counterexample_nil_is_null :
    testCreator.InjectBundles = none ∧
    (testCreator.updateCatalogSource "10.0.0.1" testCatalogSource).2.ObjectMeta.Annotations.lookup
      "operators.operatorframework.io/injected-bundles" = some "null" ∧
    jsonDecodeStrings "null" = none ∧
    "null" ≠ "[]" := by
  refine ⟨rfl, ?_, ?_, ?_⟩ <;> decide

/-- C16, amended: for every creator whose `InjectBundles` is a list, the empty
one included, the injected-bundles annotation that `updateCatalogSource`
writes is a JSON array, the opening bracket, the bundle references as JSON
strings in the order of the list separated by commas, and the closing
bracket; read back as JSON it gives the list again, and for the empty list it
is `[]`. For a creator whose `InjectBundles` was never set the annotation is
`null`. -/
theorem C16_injected_bundles_annotation (c : IndexImageCatalogCreator) (ip : String)
    (cs : CatalogSource) (l : List String) :
    (IndexImageCatalogCreator.updateCatalogSource { c with InjectBundles := some l } ip
        cs).2.ObjectMeta.Annotations.lookup "operators.operatorframework.io/injected-bundles" =
      some ("[" ++ ",".intercalate (l.map jsonString) ++ "]") ∧
    jsonDecodeStrings ("[" ++ ",".intercalate (l.map jsonString) ++ "]") = some l ∧
    (IndexImageCatalogCreator.updateCatalogSource { c with InjectBundles := some [] } ip
        cs).2.ObjectMeta.Annotations.lookup "operators.operatorframework.io/injected-bundles" =
      some "[]" ∧
    (IndexImageCatalogCreator.updateCatalogSource
        { c with InjectBundles := some ["quay.io/example/a:1", "quay.io/example/b:2"] } ip
        cs).2.ObjectMeta.Annotations.lookup "operators.operatorframework.io/injected-bundles" =
      some "[\"quay.io/example/a:1\",\"quay.io/example/b:2\"]" ∧
    (IndexImageCatalogCreator.updateCatalogSource { c with InjectBundles := none } ip
        cs).2.ObjectMeta.Annotations.lookup "operators.operatorframework.io/injected-bundles" =
      some "null" := by
  have hlook : ∀ b : Option (List String), ∀ js, jsonMarshalStrings b = .ok js →
      (IndexImageCatalogCreator.updateCatalogSource { c with InjectBundles := b } ip
        cs).2.ObjectMeta.Annotations.lookup "operators.operatorframework.io/injected-bundles" =
      some js := by
    intro b js hjs
    simp [IndexImageCatalogCreator.updateCatalogSource, hjs, List.lookup]
  refine ⟨hlook _ _ rfl, jsonDecodeStrings_array l, ?_, ?_, hlook _ _ rfl⟩
  · rw [hlook (some []) _ rfl]
    decide
  · rw [hlook (some ["quay.io/example/a:1", "quay.io/example/b:2"]) _ rfl]
    decide

/-! ## The flag `ResolveTypes`: lemmas -/

theorem len_cons_cons (a b : Char) (rest : List Char) : ¬ len ⟨a :: b :: rest⟩ < 2 := by
  have ha := Char.utf8Size_pos a
  have hb := Char.utf8Size_pos b
  simp only [len, List.map_cons, List.sum_cons]
  omega

/-- A string that starts with a quote and has a further character: the quotes
go when the last character is the same quote, else the call fails. -/
theorem removeQuotes_quoted (q : Char) (rest : List Char)
    (hq : q = '\x27' ∨ q = '"' ∨ q = '\x60') (hrest : rest ≠ []) :
    removeQuotes ⟨q :: rest⟩ =
      if rest.getLast? ≠ some q then
        .error (.errorString ("string " ++ String.mk (q :: rest) ++ " is incorrectly quoted"))
      else .ok (String.mk rest.dropLast) := by
  cases rest with
  | nil => exact absurd rfl hrest
  | cons b rest =>
    unfold removeQuotes
    rw [if_neg (len_cons_cons q b rest)]
    simp only [if_pos hq]

/-- A string that does not start with a quote is returned as it is. -/
theorem removeQuotes_unquoted (s : String)
    (h : ∀ q, q = '\x27' ∨ q = '"' ∨ q = '\x60' → s.data.head? ≠ some q) :
    removeQuotes s = .ok s := by
  unfold removeQuotes
  split
  · rfl
  · cases hs : s.data with
    | nil => rfl
    | cons c rest =>
      have hc : ¬ (c = '\x27' ∨ c = '"' ∨ c = '\x60') := by
        intro hq
        exact h c hq (by rw [hs]; rfl)
      simp only [if_neg hc]

/-- A string of fewer than two characters is returned as it is. -/
theorem removeQuotes_short (s : String) (h : s.data.length < 2) : removeQuotes s = .ok s := by
  obtain ⟨l⟩ := s
  cases l with
  | nil => rfl
  | cons c rest =>
    cases rest with
    | nil =>
      by_cases hq : c = '\x27' ∨ c = '"' ∨ c = '\x60'
      · have hlen : len ⟨[c]⟩ < 2 := by
          rcases hq with rfl | rfl | rfl <;> decide
        unfold removeQuotes
        rw [if_pos hlen]
      · refine removeQuotes_unquoted _ ?_
        intro q hq2 hhead
        simp only [List.head?_cons, Option.some.injEq] at hhead
        exact hq (hhead ▸ hq2)
    | cons b rest => simp at h; omega

/-- C25: `removeQuotes` strips at most one pair of matching surrounding quotes.
A string of fewer than two characters, or one that does not start with a single
quote, a double quote or a back quote, is returned unchanged without error. A
string of at least two characters that starts with such a quote `q` loses its
first and its last character when the last character is `q` (nothing else is
removed, so quotes in the interior stay), and gives an error when the last
character is not `q`. The quoted `skipRange` entries of the test are stored
without their quotes. -/
theorem C25_removeQuotes_one_pair (s : String) :
    ((s.data.length < 2 ∨
        ∀ q, q = '\x27' ∨ q = '"' ∨ q = '\x60' → s.data.head? ≠ some q) →
      removeQuotes s = .ok s) ∧
    (∀ q, q = '\x27' ∨ q = '"' ∨ q = '\x60' → 2 ≤ s.data.length → s.data.head? = some q →
      (s.data.getLast? = some q → removeQuotes s = .ok (String.mk s.data.tail.dropLast)) ∧
      (s.data.getLast? ≠ some q → ∃ err, removeQuotes s = .error err)) ∧
    removeQuotes "\x27a\x27b\x27" = .ok "a\x27b" ∧
    removeQuotes "\"a\"\"" = .ok "a\"" ∧
    testSet "skipRange=\x27<=2.0.0 >1.0.0 || !1.1.2\x27" =
      (none, { SkipRange := "<=2.0.0 >1.0.0 || !1.1.2", Replaces := "" }) ∧
    testSet "skipRange=\"<=2.0.0 >1.0.0\"" =
      (none, { SkipRange := "<=2.0.0 >1.0.0", Replaces := "" }) := by
  refine ⟨?_, ?_, by decide, by decide, by decide, by decide⟩
  · rintro (h | h)
    · exact removeQuotes_short s h
    · exact removeQuotes_unquoted s h
  · intro q hq hlen hhead
    obtain ⟨l⟩ := s
    cases l with
    | nil => simp at hlen
    | cons c rest =>
      simp only [List.head?_cons, Option.some.injEq] at hhead
      subst hhead
      have hrest : rest ≠ [] := by
        intro h
        subst h
        simp at hlen
      have hlast : (c :: rest).getLast? = rest.getLast? := by
        cases rest with
        | nil => exact absurd rfl hrest
        | cons b t => exact List.getLast?_cons_cons
      simp only [hlast, List.tail_cons]
      rw [removeQuotes_quoted c rest hq hrest]
      constructor
      · intro h
        rw [if_neg (not_not.mpr h)]
      · intro h
        rw [if_pos h]
        exact ⟨_, rfl⟩

/-- C26: `Set` is not atomic. On the input `replaces=foo,skipRange=` the call
on an empty `ResolveTypes` returns an error (the second entry has an empty
value) and leaves the receiver changed: `Replaces` is `foo`, so the receiver
is no longer the empty value it was before the call. This holds whatever the
libraries behind `%q` and `semver.ParseRange` do. -/
theorem C26_Set_not_atomic (p : Char → Bool) (ParseRange : String → Option GoError) :
    emptyResolveTypes.Set p ParseRange "replaces=foo,skipRange=" =
      (some (.errorString ("resolve mode value for type " ++ Quote p "skipRange" ++
        " cannot be empty")), { SkipRange := "", Replaces := "foo" }) ∧
    (emptyResolveTypes.Set p ParseRange "replaces=foo,skipRange=").2 ≠ emptyResolveTypes ∧
    emptyResolveTypes.IsEmpty = true ∧
    (emptyResolveTypes.Set p ParseRange "replaces=foo,skipRange=").2.IsEmpty = false := by
  have h1 : Split "replaces=foo,skipRange=" ',' = ["replaces=foo", "skipRange="] := by decide
  have h2 : SplitN2 "replaces=foo" '=' = ["replaces", "foo"] := by decide
  have h3 : SplitN2 "skipRange=" '=' = ["skipRange", ""] := by decide
  have h4 : TrimSpace "replaces" = "replaces" := by decide
  have h5 : TrimSpace "foo" = "foo" := by decide
  have h6 : TrimSpace "skipRange" = "skipRange" := by decide
  have h7 : TrimSpace "" = "" := by decide
  have h8 : removeQuotes "foo" = .ok "foo" := by decide
  have hset : emptyResolveTypes.Set p ParseRange "replaces=foo,skipRange=" =
      (some (.errorString ("resolve mode value for type " ++ Quote p "skipRange" ++
        " cannot be empty")), { SkipRange := "", Replaces := "foo" }) := by
    unfold ResolveTypes.Set
    rw [h1]
    simp [ResolveTypes.setModes, ResolveTypes.setMode, h2, h3, h4, h5, h6, h7, h8, replaces,
      emptyResolveTypes]
  rw [hset]
  refine ⟨rfl, ?_, by decide, ?_⟩
  · show ResolveTypes.mk "" "foo" ≠ emptyResolveTypes
    decide
  · show (ResolveTypes.mk "" "foo").IsEmpty = false
    decide

set_option maxRecDepth 100000 in
/-- C28: validation does not protect the clause structure of the command. The
registry pod whose bundle image is
`quay.io/example/bundle:0.1.0 && touch /tmp/owned ; true` passes `validate`,
and the command `getContainerCmd` renders for it holds the separator `&&`
three times, not twice. In general `validate` accepts every bundle image and
every database path that is not blank, whatever their characters, when the
mode is semver or replaces. -/
theorem C28_validate_allows_clause_separators (p : Char → Bool) :
    (injectingRegistryPod.validate p = none ∧
      ∃ cmd, injectingRegistryPod.getContainerCmd = .ok cmd ∧ countSeparators cmd.data = 3 ∧
        cmd = "/bin/mkdir -p /database/index.db &&/bin/opm registry add -d /database/index.db" ++
          " -b quay.io/example/bundle:0.1.0 && touch /tmp/owned ; true --mode=semver" ++
          " &&/bin/opm registry serve -d /database/index.db -p 50051") ∧
    (∀ rp : RegistryPod, ¬ onlySpace rp.BundleImage → ¬ onlySpace rp.DBPath →
      (rp.BundleAddMode = "semver" ∨ rp.BundleAddMode = "replaces") →
      rp.validate p = none) ∧
    (∀ rp : RegistryPod, rp.getContainerCmd =
      .ok ("/bin/mkdir -p " ++ rp.DBPath ++ " &&/bin/opm registry add -d " ++ rp.DBPath ++
        " -b " ++ rp.BundleImage ++ " --mode=" ++ rp.BundleAddMode ++
        " &&/bin/opm registry serve -d " ++ rp.DBPath ++ " -p 50051")) := by
  refine ⟨⟨?_, ?_⟩, ?_, getContainerCmd_eq⟩
  · refine validate_of_known_mode p _ ?_ ?_ (Or.inl rfl)
    · intro h
      exact absurd (h 'q' (by decide)) (by decide)
    · intro h
      exact absurd (h '/' (by decide)) (by decide)
  · refine ⟨_, getContainerCmd_eq _, by decide, by decide⟩
  · intro rp hb hd hm
    exact validate_of_known_mode p rp hb hd hm

/-- The objects `NewOutput` collects for one element of `errs`. -/
theorem appendObjects_eq (objects : List Object) (err : Option BundleError) :
    appendObjects objects err = objects ++ appendObjects [] err := by
  cases err with
  | none => simp [appendObjects]
  | some e => cases e <;> simp [appendObjects]

theorem foldl_appendObjects (errs : List (Option BundleError)) (objects : List Object) :
    errs.foldl appendObjects objects = objects ++ (errs.map (appendObjects [])).flatten := by
  induction errs generalizing objects with
  | nil => simp
  | cons e rest ih =>
    rw [List.foldl_cons, ih, appendObjects_eq, List.map_cons, List.flatten_cons,
      List.append_assoc]

/-- C23, counterexample: a bundle validation error that wraps an empty list of
inner errors is a non-nil element of `errs`, yet `NewOutput` collects no object
for it and reports `Passed` as true, also next to nil elements. -/
theorem C23_counterexample_empty_validation_error :
    NewOutput [some (.validation { Errors := [] })] = { Passed := true, Objects := [] } ∧
    NewOutput [none, some (.validation { Errors := [] }), none] =
      { Passed := true, Objects := [] } := by
  decide

/-- C23, amended: `NewOutput(errs).Passed` is false exactly when an object was
collected, that is when some element of `errs` is a non-nil error that is not a
bundle validation error, or a bundle validation error that wraps at least one
inner error. Nil elements and validation errors wrapping an empty list
contribute no object; every other error contributes its message, a validation
error the messages of its inner errors, all at the level `Error` and in the
order of `errs`. -/
theorem C23_NewOutput_passed_iff_no_object (errs : List (Option BundleError)) :
    ((NewOutput errs).Passed = false ↔
      ∃ e ∈ errs, (∃ err, e = some (.other err)) ∨
        (∃ verr, e = some (.validation verr) ∧ verr.Errors ≠ [])) ∧
    ((NewOutput errs).Passed = true ↔ (NewOutput errs).Objects = []) ∧
    (NewOutput errs).Objects = (errs.map (fun e =>
      match e with
      | none => []
      | some (.validation verr) =>
        verr.Errors.map (fun valErr => { Typ := LevelError, Message := valErr.Error })
      | some (.other err) => [{ Typ := LevelError, Message := err.Error }])).flatten := by
  have hobj : (NewOutput errs).Objects = (errs.map (appendObjects [])).flatten := by
    unfold NewOutput
    simp only [foldl_appendObjects, List.nil_append]
  have hpass : (NewOutput errs).Passed = ((NewOutput errs).Objects.length == 0) := rfl
  refine ⟨?_, ?_, ?_⟩
  · rw [hpass, hobj]
    simp only [beq_eq_false_iff_ne, ne_eq, List.length_eq_zero, List.flatten_eq_nil_iff,
      List.mem_map, forall_exists_index, and_imp, forall_apply_eq_imp_iff₂, not_forall]
    constructor
    · rintro ⟨e, he, hne⟩
      refine ⟨e, he, ?_⟩
      cases e with
      | none => exact absurd rfl hne
      | some b =>
        cases b with
        | other err => exact Or.inl ⟨err, rfl⟩
        | validation verr =>
          refine Or.inr ⟨verr, rfl, ?_⟩
          intro hnil
          apply hne
          simp [appendObjects, hnil]
    · rintro ⟨e, he, h⟩
      refine ⟨e, he, ?_⟩
      rcases h with ⟨err, rfl⟩ | ⟨verr, rfl, hne⟩
      · simp [appendObjects]
      · simpa [appendObjects] using hne
  · rw [hpass]
    simp
  · rw [hobj]
    congr 1

/-- C24: `withCatalogSource` fails on a subscription whose spec has not been
allocated. `newSubscription` builds the subscription with a nil `Spec`, so the
option applied first to it dereferences the nil pointer and the call panics
instead of yielding a subscription; the same holds for every subscription with
a nil `Spec`. Where the spec is allocated the option sets the two fields, which
is the case after `withPackageChannel`, the sibling option that allocates the
spec when it is nil. -/
theorem C24_withCatalogSource_nil_spec (env : Env) (csvName ns n cns : String) :
    newSubscription env csvName ns [withCatalogSource n cns] = .error nilPointerDereference ∧
    (∀ sub : Subscription, sub.Spec = none →
      withCatalogSource n cns sub = .error nilPointerDereference) ∧
    (∀ (sub : Subscription) (spec : SubscriptionSpec), sub.Spec = some spec →
      withCatalogSource n cns sub = .ok { sub with Spec := some { spec with
        CatalogSource := n, CatalogSourceNamespace := cns } }) ∧
    (∀ pkg ch csv : String,
      newSubscription env csvName ns [withPackageChannel pkg ch csv, withCatalogSource n cns] =
        .ok { TypeMeta := { APIVersion := "operators.coreos.com/v1alpha1", Kind := "Subscription" }
              ObjectMeta := { Name := env.FormatOperatorNameDNS1123 csvName ++ "-sub",
                              Namespace := ns }
              Spec := some { CatalogSource := n, CatalogSourceNamespace := cns, Package := pkg,
                             Channel := ch, StartingCSV := csv } }) := by
  refine ⟨rfl, ?_, ?_, ?_⟩
  · intro sub h
    unfold withCatalogSource
    simp only [h]
  · intro sub spec h
    unfold withCatalogSource
    simp only [h]
  · intro pkg ch csv
    rfl

theorem setDefaults_IndexImage (rp : RegistryPod) :
    rp.setDefaults.IndexImage = if rp.IndexImage = "" then defaultIndexImage else rp.IndexImage := by
  unfold RegistryPod.setDefaults
  simp only []
  split_ifs <;> rfl

/-- A pod returned by `Create` is either the pod found under the derived key,
or the pod built from the defaulted registry pod, with owner references added. -/
theorem Create_ok_cases (env : Env) (rp : RegistryPod) (cfg : Configuration)
    (cs : CatalogSource) (cl : Client) (created : Pod) (cl2 : Client)
    (h : rp.Create env cfg cs cl = (.ok created, cl2)) :
    ∃ built, rp.setDefaults.podForBundleRegistry env cfg.Namespace = .ok built ∧
      ((cl.GetPod env.unicodeIsPrint built.key).1 = .ok created ∨
        created.Spec = built.Spec) := by
  unfold RegistryPod.Create at h
  simp only at h
  split at h
  · simp at h
  · split at h
    · simp at h
    · rename_i built hbuilt
      refine ⟨built, hbuilt, ?_⟩
      simp only [ObjectKeyFromObject] at h
      split at h
      · rename_i existing cl3 hget
        left
        simp only [Prod.mk.injEq, Except.ok.injEq] at h
        rw [← h.1]
        exact congrArg Prod.fst hget
      · rename_i err cl3 hget
        split at h
        · simp at h
        · split at h
          · simp at h
          · rename_i owned hown
            split at h
            · simp at h
            · right
              simp only [Prod.mk.injEq, Except.ok.injEq] at h
              rw [← h.1]
              unfold SetOwnerReference at hown
              split at hown
              · simp at hown
              · simp only [Except.ok.injEq] at hown
                rw [← hown]

set_option maxRecDepth 1000000 in
/-- C29, as stated, fails: the store already holds a running pod under the
name derived from the test's bundle image, whose command renders
`--mode=replaces`. `createRegistryPod` of the test's creator, whose mode is
semver, succeeds by adopting that pod, so the pod it returns renders replaces
after `--mode=` while the inject-bundle-mode annotation is semver. -/
theorem C29_counterexample_adopted_pod :
    testCreator.InjectBundleMode = "semver" ∧
    (testCreator.createRegistryPod testEnv 0 testCatalogSource defaultDBPath
      clientWithReplacesPod).1 = .ok replacesPod ∧
    replacesPod.Spec.Containers.map (fun k => k.Command) =
      [["/bin/sh", "-c",
        "/bin/mkdir -p /database/index.db &&/bin/opm registry add -d /database/index.db" ++
        " -b quay.io/example/example-operator-bundle:0.2.0 --mode=replaces" ++
        " &&/bin/opm registry serve -d /database/index.db -p 50051"]] ∧
    (testCreator.createRegistryPod testEnv 0 testCatalogSource defaultDBPath
      clientWithReplacesPod).2.1.store = clientWithReplacesPod.store ∧
    (testCreator.updateCatalogSource "10.0.0.1" testCatalogSource).2.ObjectMeta.Annotations.lookup
      "operators.operatorframework.io/inject-bundle-mode" = some "semver" := by
  refine ⟨rfl, ?_, rfl, ?_, ?_⟩ <;> decide

/-- C29, amended: the provenance annotations record the raw fields of the
creator. For every creator `updateCatalogSource` succeeds and sets the
index-image annotation to the creator's `IndexImage` verbatim and the
inject-bundle-mode annotation to its `InjectBundleMode` verbatim. The pod that
`Create` builds for the creator's registry pod runs the index image after
defaulting, so with an unset `IndexImage` the annotation is empty while the pod
built runs `quay.io/operator-framework/upstream-opm-builder:latest`. When
`createRegistryPod` succeeds, the mode is semver or replaces and the command of
the pod built renders that same mode after `--mode=`; the pod `Create` returns
is that pod, up to its owner references, whenever the store held no pod under
the derived name, and otherwise it may be the pod read from the store, whose
command is not looked at. -/
theorem C29_annotations_record_raw_fields (env : Env) (c : IndexImageCatalogCreator)
    (ctx : Nat) (cs : CatalogSource) (dbPath : String) (cl : Client) :
    (∀ (podAddr : String) (cs1 : CatalogSource),
      (c.updateCatalogSource podAddr cs1).1 = none ∧
      (c.updateCatalogSource podAddr cs1).2.ObjectMeta.Annotations.lookup
        "operators.operatorframework.io/index-image" = some c.IndexImage ∧
      (c.updateCatalogSource podAddr cs1).2.ObjectMeta.Annotations.lookup
        "operators.operatorframework.io/inject-bundle-mode" = some c.InjectBundleMode) ∧
    (∃ built,
      ({ IndexImage := c.IndexImage, BundleImage := c.BundleImage, DBPath := dbPath,
         BundleAddMode := (ParseBundleAddMode env.unicodeIsPrint c.InjectBundleMode).1 } :
        RegistryPod).setDefaults.podForBundleRegistry env c.cfg.Namespace = .ok built ∧
      built.Spec.Containers.map (fun k => k.Image) =
        [if c.IndexImage = "" then "quay.io/operator-framework/upstream-opm-builder:latest"
         else c.IndexImage]) ∧
    (∀ (pod : Pod) (cl2 : Client) (ctx2 : Nat),
      c.createRegistryPod env ctx cs dbPath cl = (.ok pod, cl2, ctx2) →
      (c.InjectBundleMode = "semver" ∨ c.InjectBundleMode = "replaces") ∧
      ∃ built,
        ({ IndexImage := c.IndexImage, BundleImage := c.BundleImage, DBPath := dbPath,
           BundleAddMode := (ParseBundleAddMode env.unicodeIsPrint c.InjectBundleMode).1 } :
          RegistryPod).setDefaults.podForBundleRegistry env c.cfg.Namespace = .ok built ∧
        built.Spec.Containers.map (fun k => k.Command) =
          [["/bin/sh", "-c",
            "/bin/mkdir -p " ++ dbPath ++ " &&/bin/opm registry add -d " ++ dbPath ++
            " -b " ++ c.BundleImage ++ " --mode=" ++ c.InjectBundleMode ++
            " &&/bin/opm registry serve -d " ++ dbPath ++ " -p 50051"]] ∧
        ∃ (created : Pod) (cl1 : Client),
          ({ IndexImage := c.IndexImage, BundleImage := c.BundleImage, DBPath := dbPath,
             BundleAddMode := (ParseBundleAddMode env.unicodeIsPrint c.InjectBundleMode).1 } :
            RegistryPod).Create env c.cfg cs cl = (.ok created, cl1) ∧
          ((cl.GetPod env.unicodeIsPrint built.key).1 = .ok created ∨
            created.Spec = built.Spec) ∧
          (cl.store.pods.find? (fun q => q.key = built.key) = none →
            created.Spec = built.Spec)) := by
  refine ⟨?_, ?_, ?_⟩
  · intro podAddr cs1
    refine ⟨?_, ?_, ?_⟩
    · rw [updateCatalogSource_eq]
    · unfold IndexImageCatalogCreator.updateCatalogSource
      cases c.InjectBundles <;> simp [jsonMarshalStrings, List.lookup]
    · unfold IndexImageCatalogCreator.updateCatalogSource
      cases c.InjectBundles <;> simp [jsonMarshalStrings, List.lookup]
  · refine ⟨_, podForBundleRegistry_eq env _ _, ?_⟩
    simp only [List.map_cons, List.map_nil, setDefaults_IndexImage]
    rfl
  · intro pod cl2 ctx2 h
    have hmode : c.InjectBundleMode = "semver" ∨ c.InjectBundleMode = "replaces" := by
      by_contra hn
      obtain ⟨err, herr⟩ := createRegistryPod_of_invalid env c ctx cs dbPath cl
        (Or.inr (Or.inr ⟨fun h1 => hn (Or.inl h1), fun h2 => hn (Or.inr h2)⟩))
      rw [herr] at h
      simp at h
    have hparse := ParseBundleAddMode_of_known env.unicodeIsPrint c.InjectBundleMode hmode
    have hne : c.InjectBundleMode ≠ "" := by
      rcases hmode with hm | hm <;> rw [hm] <;> decide
    refine ⟨hmode, ?_⟩
    obtain ⟨created, cl1, hcreate⟩ : ∃ (created : Pod) (cl1 : Client),
        ({ IndexImage := c.IndexImage, BundleImage := c.BundleImage, DBPath := dbPath,
           BundleAddMode := (ParseBundleAddMode env.unicodeIsPrint c.InjectBundleMode).1 } :
          RegistryPod).Create env c.cfg cs cl = (.ok created, cl1) := by
      unfold IndexImageCatalogCreator.createRegistryPod at h
      rw [hparse] at h
      simp only at h
      rw [hparse]
      split at h
      · simp at h
      · rename_i created cl1 hc
        exact ⟨created, cl1, hc⟩
    obtain ⟨built, hbuilt, hcases⟩ := Create_ok_cases env _ c.cfg cs cl created cl1 hcreate
    have habsent : cl.store.pods.find? (fun q => q.key = built.key) = none →
        created.Spec = built.Spec := by
      intro hnone
      rcases hcases with hget | hspec
      · unfold Client.GetPod at hget
        rw [hnone] at hget
        cases hf : cl.faults cl.calls.length with
        | some err =>
          rw [hf] at hget
          simp at hget
        | none =>
          rw [hf] at hget
          simp at hget
      · exact hspec
    refine ⟨built, hbuilt, ?_, created, cl1, hcreate, hcases, habsent⟩
    rw [podForBundleRegistry_eq] at hbuilt
    simp only [Except.ok.injEq] at hbuilt
    rw [← hbuilt]
    simp only [List.map_cons, List.map_nil, setDefaults_DBPath, setDefaults_BundleImage]
    rw [setDefaults_BundleAddMode_of_ne _ (by rw [hparse]; exact hne), hparse]

set_option maxRecDepth 1000000 in
/-- The witness of C29: the test's creator, whose `IndexImage` is unset, against
a cluster that runs the pod. `createRegistryPod` succeeds, the annotations are
the empty index image and the mode semver, and the pod in the store runs the
default builder image with `--mode=semver` in its command. -/
theorem C29_annotations_record_raw_fields_witness :
    (testCreator.createRegistryPod liveEnv (2000 * Millisecond) testCatalogSource defaultDBPath newFakeClient).1.isOk
      = true ∧
    (testCreator.updateCatalogSource "10.0.0.1" testCatalogSource).2.ObjectMeta.Annotations =
      [("operators.operatorframework.io/index-image", ""),
       ("operators.operatorframework.io/inject-bundle-mode", "semver"),
       ("operators.operatorframework.io/injected-bundles", "null")] ∧
    (testCreator.createRegistryPod liveEnv (2000 * Millisecond) testCatalogSource defaultDBPath
        newFakeClient).2.1.store.pods.map (fun q => q.Spec.Containers.map
          (fun k => (k.Image, k.Command))) =
      [[("quay.io/operator-framework/upstream-opm-builder:latest",
         ["/bin/sh", "-c",
          "/bin/mkdir -p /database/index.db &&/bin/opm registry add -d /database/index.db" ++
          " -b quay.io/example/example-operator-bundle:0.2.0 --mode=semver" ++
          " &&/bin/opm registry serve -d /database/index.db -p 50051"])]] ∧
    (testCreator.InjectBundleMode = "semver" ∨ testCreator.InjectBundleMode = "replaces") := by
  have hok : (testCreator.createRegistryPod liveEnv (2000 * Millisecond) testCatalogSource defaultDBPath
      newFakeClient).1.isOk = true := by decide
  cases hrun : (testCreator.createRegistryPod liveEnv (2000 * Millisecond) testCatalogSource defaultDBPath
      newFakeClient).1 with
  | error err =>
    rw [hrun] at hok
    exact absurd hok (by simp [Except.isOk, Except.toBool])
  | ok pod =>
    have h := (C29_annotations_record_raw_fields liveEnv testCreator (2000 * Millisecond)
      testCatalogSource
      defaultDBPath newFakeClient).2.2 pod _ _ (Prod.ext hrun rfl)
    exact ⟨rfl, by decide, by decide, h.1⟩

theorem dropWhile_of_head (p : Char → Bool) (l : List Char)
    (h : ∀ c, l.head? = some c → p c = false) : l.dropWhile p = l := by
  cases l with
  | nil => rfl
  | cons a t => rw [List.dropWhile_cons, h a rfl]; rfl

/-- White space is trimmed from a string only at its ends. -/
theorem TrimSpace_of_ends (s : String) (hh : ∀ c, s.data.head? = some c → isSpace c = false)
    (hl : ∀ c, s.data.getLast? = some c → isSpace c = false) : TrimSpace s = s := by
  unfold TrimSpace
  rw [dropWhile_of_head isSpace s.data hh, dropWhile_of_head isSpace s.data.reverse ?_,
    List.reverse_reverse]
  intro c hc
  rw [List.head?_reverse] at hc
  exact hl c hc

/-- `strings.TrimSpace` is idempotent. -/
theorem TrimSpace_idem (s : String) : TrimSpace (TrimSpace s) = TrimSpace s := by
  refine TrimSpace_of_ends _ ?_ ?_
  · intro c hc
    by_contra hsp
    rw [Bool.not_eq_false] at hsp
    exact (trim_both_ends isSpace c hsp s.data).2.2.1 hc
  · intro c hc
    by_contra hsp
    rw [Bool.not_eq_false] at hsp
    exact (trim_both_ends isSpace c hsp s.data).2.2.2.1 hc

theorem SplitN2_cases (mode : String) (sep : Char) :
    SplitN2 mode sep = [mode] ∨ ∃ a b, SplitN2 mode sep = [a, b] := by
  unfold SplitN2
  cases cutAt sep mode.data with
  | none => exact Or.inl rfl
  | some ab => exact Or.inr ⟨_, _, rfl⟩

/-- A turn of the loop of `Set` that does not fail has read an entry
`<type>=<value>` whose type is replaces or skipRange and whose value is not
empty, has found the field of that type empty, and has stored the value,
unquoted, in it. -/
theorem setMode_ok (p : Char → Bool) (m : ResolveTypes) (mode : String) (m2 : ResolveTypes)
    (h : m.setMode p mode = (none, m2)) :
    ∃ t v u, entryOf mode = some (t, v) ∧ v ≠ "" ∧ removeQuotes v = .ok u ∧
      ((t = "replaces" ∧ m.Replaces = "" ∧ m2 = { m with Replaces := u }) ∨
       (t = "skipRange" ∧ m.SkipRange = "" ∧ m2 = { m with SkipRange := u })) := by
  unfold ResolveTypes.setMode at h
  unfold entryOf
  rcases SplitN2_cases mode '=' with hs | ⟨a, b, hs⟩
  · rw [hs] at h
    simp at h
  · rw [hs] at h ⊢
    simp only [TrimSpace_idem] at h
    refine ⟨TrimSpace a, TrimSpace b, ?_⟩
    by_cases h1 : TrimSpace a = ""
    · simp [h1] at h
    by_cases h2 : TrimSpace b = ""
    · simp [h1, h2] at h
    simp only [h1, h2, if_false] at h
    cases hq : removeQuotes (TrimSpace b) with
    | error err =>
      rw [hq] at h
      simp at h
    | ok u =>
      rw [hq] at h
      refine ⟨u, rfl, h2, rfl, ?_⟩
      simp only at h
      split_ifs at h with h3 h4 h5 h6
      · simp at h
      · simp only [Prod.mk.injEq, true_and] at h
        exact Or.inl ⟨h3, not_not.mp h4, h.symm⟩
      · simp at h
      · simp only [Prod.mk.injEq, true_and] at h
        exact Or.inr ⟨h5, not_not.mp h6, h.symm⟩
      · simp at h

theorem valuesOf_cons (t mode : String) (entries : List String) :
    valuesOf t (mode :: entries) =
      match entryOf mode with
      | some (modeType, value) =>
        if modeType = t then value :: valuesOf t entries else valuesOf t entries
      | none => valuesOf t entries := by
  unfold valuesOf
  rw [List.filterMap_cons]
  cases entryOf mode with
  | none => rfl
  | some tv =>
    obtain ⟨modeType, value⟩ := tv
    by_cases h : modeType = t <;> simp [h]

/-- The loop of `Set`, when no turn fails: every entry has the form
`<type>=<value>` with the type replaces or skipRange, and each field holds the
unquoted value of the last entry of its type, or what it held before when no
entry has that type. -/
theorem setModes_ok (p : Char → Bool) (entries : List String) (m m2 : ResolveTypes)
    (h : ResolveTypes.setModes p entries m = (none, m2)) :
    (∀ e ∈ entries, ∃ t v, entryOf e = some (t, v) ∧ (t = "replaces" ∨ t = "skipRange")) ∧
    ((valuesOf "replaces" entries).getLast? = none → m2.Replaces = m.Replaces) ∧
    (∀ v, (valuesOf "replaces" entries).getLast? = some v → removeQuotes v = .ok m2.Replaces) ∧
    ((valuesOf "skipRange" entries).getLast? = none → m2.SkipRange = m.SkipRange) ∧
    (∀ v, (valuesOf "skipRange" entries).getLast? = some v →
      removeQuotes v = .ok m2.SkipRange) := by
  induction entries generalizing m with
  | nil =>
    simp only [ResolveTypes.setModes, Prod.mk.injEq, true_and] at h
    subst h
    simp [valuesOf]
  | cons e rest ih =>
    rw [ResolveTypes.setModes] at h
    cases hturn : m.setMode p e with
    | mk err m1 =>
      rw [hturn] at h
      cases err with
      | some err => simp at h
      | none =>
        simp only at h
        obtain ⟨t, v, u, hentry, _, hq, hcase⟩ := setMode_ok p m e m1 hturn
        obtain ⟨ih1, ih2, ih3, ih4, ih5⟩ := ih m1 h
        have hlast : ∀ (w : String) (l : List String),
            (w :: l).getLast? = some (match l.getLast? with | none => w | some x => x) := by
          intro w l
          cases l with
          | nil => rfl
          | cons a l =>
            rw [List.getLast?_cons_cons]
            cases hl : (a :: l).getLast? with
            | none => simp at hl
            | some x => rfl
        rw [valuesOf_cons, valuesOf_cons, hentry]
        simp only
        refine ⟨?_, ?_⟩
        · intro e2 he2
          rcases List.mem_cons.mp he2 with rfl | he2
          · refine ⟨t, v, hentry, ?_⟩
            rcases hcase with ⟨ht, _⟩ | ⟨ht, _⟩
            · exact Or.inl ht
            · exact Or.inr ht
          · exact ih1 e2 he2
        · rcases hcase with ⟨ht, _, hm1⟩ | ⟨ht, _, hm1⟩
          · have hne : ¬ t = "skipRange" := by rw [ht]; decide
            rw [if_pos ht, if_neg hne, hlast]
            subst hm1
            refine ⟨by simp, ?_, ih4, ih5⟩
            intro w hw
            simp only [Option.some.injEq] at hw
            cases hl : (valuesOf "replaces" rest).getLast? with
            | none =>
              rw [hl] at hw
              rw [ih2 hl, ← hw]
              exact hq
            | some x =>
              rw [hl] at hw
              rw [← hw]
              exact ih3 x hl
          · have hne : ¬ t = "replaces" := by rw [ht]; decide
            rw [if_pos ht, if_neg hne, hlast]
            subst hm1
            refine ⟨ih2, ih3, by simp, ?_⟩
            intro w hw
            simp only [Option.some.injEq] at hw
            cases hl : (valuesOf "skipRange" rest).getLast? with
            | none =>
              rw [hl] at hw
              rw [ih4 hl, ← hw]
              exact hq
            | some x =>
              rw [hl] at hw
              rw [← hw]
              exact ih5 x hl

theorem isLower_iff_toNat (c : Char) : c.isLower = true ↔ 97 ≤ c.toNat ∧ c.toNat ≤ 122 := by
  unfold Char.isLower Char.toNat
  simp only [Bool.and_eq_true, decide_eq_true_eq, ge_iff_le]
  exact Iff.rfl

theorem isDigit_iff_toNat (c : Char) : c.isDigit = true ↔ 48 ≤ c.toNat ∧ c.toNat ≤ 57 := by
  unfold Char.isDigit Char.toNat
  simp only [Bool.and_eq_true, decide_eq_true_eq, ge_iff_le]
  exact Iff.rfl

/-- A character of a DNS-1123 subdomain is written as it is by `%q`, is no
white space and is none of `,`, `=`. -/
theorem dnsChar_plain (c : Char) (h : isLowerAlnum c = true ∨ c = '-' ∨ c = '.') :
    plainRune c = true ∧ c ≠ ',' ∧ c ≠ '=' := by
  rcases h with h | rfl | rfl
  · unfold isLowerAlnum at h
    rw [Bool.or_eq_true, isLower_iff_toNat, isDigit_iff_toNat] at h
    refine ⟨?_, ?_, ?_⟩
    · unfold plainRune
      simp only [Bool.and_eq_true, decide_eq_true_eq, bne_iff_ne, ne_eq]
      refine ⟨⟨⟨by omega, by omega⟩, ?_⟩, ?_⟩
      · rintro rfl
        revert h
        decide
      · rintro rfl
        revert h
        decide
    · rintro rfl
      revert h
      decide
    · rintro rfl
      revert h
      decide
  · decide
  · decide

theorem splitChars_ne_nil (sep : Char) (l : List Char) : splitChars sep l ≠ [] := by
  cases l with
  | nil => simp [splitChars]
  | cons c rest =>
    rw [splitChars]
    split_ifs
    · simp
    · split <;> simp

/-- Every character of a string is the separator or lies in a piece. -/
theorem mem_splitChars (sep : Char) (l : List Char) :
    ∀ c ∈ l, c = sep ∨ ∃ piece ∈ splitChars sep l, c ∈ piece := by
  induction l with
  | nil => intro c hc; simp at hc
  | cons a rest ih =>
    intro c hc
    rw [splitChars]
    by_cases ha : a = sep
    · rw [if_pos ha]
      rcases List.mem_cons.mp hc with rfl | hc
      · exact Or.inl ha
      · rcases ih c hc with h | ⟨piece, hp, hcp⟩
        · exact Or.inl h
        · exact Or.inr ⟨piece, List.mem_cons_of_mem _ hp, hcp⟩
    · rw [if_neg ha]
      cases hsp : splitChars sep rest with
      | nil => exact absurd hsp (splitChars_ne_nil sep rest)
      | cons piece pieces =>
        simp only
        rcases List.mem_cons.mp hc with rfl | hc
        · exact Or.inr ⟨c :: piece, by simp, by simp⟩
        · rcases ih c hc with h | ⟨q, hq, hcq⟩
          · exact Or.inl h
          · rw [hsp] at hq
            rcases List.mem_cons.mp hq with rfl | hq
            · exact Or.inr ⟨a :: q, by simp, List.mem_cons_of_mem _ hcq⟩
            · exact Or.inr ⟨q, List.mem_cons_of_mem _ hq, hcq⟩

/-- A string without the separator is one piece. -/
theorem splitChars_of_not_mem (sep : Char) (l : List Char) (h : sep ∉ l) :
    splitChars sep l = [l] := by
  induction l with
  | nil => rfl
  | cons a rest ih =>
    rw [splitChars, if_neg (fun ha => h (by simp [ha])), ih (fun hr => h (by simp [hr]))]

/-- What a DNS-1123 subdomain is made of. -/
theorem matchesDNS1123Subdomain_chars (value : String)
    (h : matchesDNS1123Subdomain value = true) :
    value.data ≠ [] ∧ ∀ c ∈ value.data, isLowerAlnum c = true ∨ c = '-' ∨ c = '.' := by
  unfold matchesDNS1123Subdomain at h
  rw [List.all_eq_true] at h
  constructor
  · intro hnil
    rw [hnil] at h
    exact absurd (h [] (by simp [splitChars])) (by decide)
  · intro c hc
    rcases mem_splitChars '.' value.data c hc with hdot | ⟨piece, hp, hcp⟩
    · exact Or.inr (Or.inr hdot)
    · have hl := h piece hp
      unfold matchesDNS1123Label at hl
      cases piece with
      | nil => simp at hcp
      | cons first t =>
        simp only [Bool.and_eq_true, List.all_eq_true, Bool.or_eq_true, beq_iff_eq] at hl
        rcases hl.1.2 c hcp with h1 | h1
        · exact Or.inl h1
        · exact Or.inr (Or.inl h1)

theorem IsDNS1123Subdomain_eq_nil (value : String) (h : IsDNS1123Subdomain value = []) :
    matchesDNS1123Subdomain value = true := by
  unfold IsDNS1123Subdomain at h
  by_contra hm
  rw [if_neg hm] at h
  simp at h

/-- C21: `Set` stores what the flag says. Whenever `Set` succeeds on an empty
`ResolveTypes`, every comma-separated entry of the input has the form
`<type>=<value>` with the type replaces or skipRange; where one entry has the
type replaces, `Replaces` is its value with the white space around it and one
pair of matching surrounding quotes removed (what `removeQuotes` returns for
the trimmed value), and likewise for skipRange and `SkipRange`; the field of a
type that does not occur stays empty. Should several entries of one type get
through, the field holds the value of the last of them. -/
theorem C21_Set_stores_entry_values (p : Char → Bool) (ParseRange : String → Option GoError)
    (str : String) (m : ResolveTypes)
    (h : emptyResolveTypes.Set p ParseRange str = (none, m)) :
    (∀ e ∈ Split str ',', ∃ t v, entryOf e = some (t, v) ∧ (t = "replaces" ∨ t = "skipRange")) ∧
    (∀ v, valuesOf "replaces" (Split str ',') = [v] → removeQuotes v = .ok m.Replaces) ∧
    (∀ v, valuesOf "skipRange" (Split str ',') = [v] → removeQuotes v = .ok m.SkipRange) ∧
    (valuesOf "replaces" (Split str ',') = [] → m.Replaces = "") ∧
    (valuesOf "skipRange" (Split str ',') = [] → m.SkipRange = "") ∧
    (∀ v, (valuesOf "replaces" (Split str ',')).getLast? = some v →
      removeQuotes v = .ok m.Replaces) ∧
    (∀ v, (valuesOf "skipRange" (Split str ',')).getLast? = some v →
      removeQuotes v = .ok m.SkipRange) := by
  have hloop : ResolveTypes.setModes p (Split str ',') emptyResolveTypes = (none, m) := by
    unfold ResolveTypes.Set at h
    cases hl : ResolveTypes.setModes p (Split str ',') emptyResolveTypes with
    | mk err m1 =>
      rw [hl] at h
      cases err with
      | some err => simp at h
      | none =>
        simp only [Prod.mk.injEq] at h
        rw [h.2]
  obtain ⟨h1, h2, h3, h4, h5⟩ := setModes_ok p (Split str ',') emptyResolveTypes m hloop
  refine ⟨h1, ?_, ?_, ?_, ?_, h3, h5⟩
  · intro v hv
    exact h3 v (by rw [hv]; rfl)
  · intro v hv
    exact h5 v (by rw [hv]; rfl)
  · intro hv
    exact h2 (by rw [hv]; rfl)
  · intro hv
    exact h4 (by rw [hv]; rfl)

/-- The witness of C21, on the two inputs of the test: `replaces=foo` gives
`Replaces` foo and leaves `SkipRange` empty, and with a quoted `skipRange`
entry next to it both fields hold the values of their entries, unquoted. -/
theorem C21_Set_stores_entry_values_witness :
    testSet "replaces=foo" = (none, { SkipRange := "", Replaces := "foo" }) ∧
    testSet "replaces=foo,skipRange=\x27<=2.0.0 >1.0.0 || !1.1.2\x27" =
      (none, { SkipRange := "<=2.0.0 >1.0.0 || !1.1.2", Replaces := "foo" }) ∧
    valuesOf "replaces" (Split "replaces=foo,skipRange=\x27<=2.0.0 >1.0.0 || !1.1.2\x27" ',') =
      ["foo"] ∧
    valuesOf "skipRange" (Split "replaces=foo,skipRange=\x27<=2.0.0 >1.0.0 || !1.1.2\x27" ',') =
      ["\x27<=2.0.0 >1.0.0 || !1.1.2\x27"] ∧
    removeQuotes "foo" = .ok "foo" ∧
    removeQuotes "\x27<=2.0.0 >1.0.0 || !1.1.2\x27" = .ok "<=2.0.0 >1.0.0 || !1.1.2" := by
  have h := C21_Set_stores_entry_values (fun _ => false) testParseRange
    "replaces=foo,skipRange=\x27<=2.0.0 >1.0.0 || !1.1.2\x27"
    { SkipRange := "<=2.0.0 >1.0.0 || !1.1.2", Replaces := "foo" } (by decide)
  exact ⟨by decide, by decide, by decide, by decide, h.2.1 "foo" (by decide),
    h.2.2.1 "\x27<=2.0.0 >1.0.0 || !1.1.2\x27" (by decide)⟩

/-- The loop of `Set`, when no turn fails, has met no value that is empty after
trimming, it started with an empty field for every type that occurs, and of the
entries of one type all but the last have a value that unquotes to the empty
string. -/
theorem setModes_rejects (p : Char → Bool) (entries : List String) (m m2 : ResolveTypes)
    (h : ResolveTypes.setModes p entries m = (none, m2)) :
    (∀ e ∈ entries, ∃ t v, entryOf e = some (t, v) ∧ (t = "replaces" ∨ t = "skipRange") ∧
      v ≠ "") ∧
    (valuesOf "replaces" entries ≠ [] → m.Replaces = "") ∧
    (valuesOf "skipRange" entries ≠ [] → m.SkipRange = "") ∧
    (∀ v ∈ (valuesOf "replaces" entries).dropLast, removeQuotes v = .ok "") ∧
    (∀ v ∈ (valuesOf "skipRange" entries).dropLast, removeQuotes v = .ok "") := by
  induction entries generalizing m with
  | nil => simp [valuesOf]
  | cons e rest ih =>
    rw [ResolveTypes.setModes] at h
    cases hturn : m.setMode p e with
    | mk err m1 =>
      rw [hturn] at h
      cases err with
      | some err => simp at h
      | none =>
        simp only at h
        obtain ⟨t, v, u, hentry, hv, hq, hcase⟩ := setMode_ok p m e m1 hturn
        obtain ⟨ih1, ih2, ih3, ih4, ih5⟩ := ih m1 h
        have hdrop : ∀ (w : String) (l : List String) (x : String),
            x ∈ (w :: l).dropLast → (x = w ∧ l ≠ []) ∨ x ∈ l.dropLast := by
          intro w l x hx
          cases l with
          | nil => simp at hx
          | cons a l =>
            rw [List.dropLast_cons₂] at hx
            rcases List.mem_cons.mp hx with hx | hx
            · exact Or.inl ⟨hx, by simp⟩
            · exact Or.inr hx
        rw [valuesOf_cons, valuesOf_cons, hentry]
        simp only
        refine ⟨?_, ?_⟩
        · intro e2 he2
          rcases List.mem_cons.mp he2 with rfl | he2
          · refine ⟨t, v, hentry, ?_, hv⟩
            rcases hcase with ⟨ht, _⟩ | ⟨ht, _⟩
            · exact Or.inl ht
            · exact Or.inr ht
          · exact ih1 e2 he2
        · rcases hcase with ⟨ht, hempty, hm1⟩ | ⟨ht, hempty, hm1⟩
          · have hne : ¬ t = "skipRange" := by rw [ht]; decide
            rw [if_pos ht, if_neg hne]
            subst hm1
            refine ⟨fun _ => hempty, ih3, ?_, ih5⟩
            intro x hx
            rcases hdrop v _ x hx with ⟨rfl, hrest⟩ | hx
            · have hu := ih2 hrest
              simp only at hu
              rw [hq, hu]
            · exact ih4 x hx
          · have hne : ¬ t = "replaces" := by rw [ht]; decide
            rw [if_pos ht, if_neg hne]
            subst hm1
            refine ⟨ih2, fun _ => hempty, ih4, ?_⟩
            intro x hx
            rcases hdrop v _ x hx with ⟨rfl, hrest⟩ | hx
            · have hu := ih3 hrest
              simp only at hu
              rw [hq, hu]
            · exact ih5 x hx

/-- C22 at the failing input: in `replaces='',replaces=foo` the second entry
repeats the type of the first, yet `Set` on an empty `ResolveTypes` returns no
error and stores foo. The first entry passes the test for an empty value, which
comes before the quotes are removed, and leaves `Replaces` empty, so the test
for a repeated type does not see it. The inputs of the test, among them a
repeated type after a value that is not empty, are all rejected. What `Set`
does reject, for every input: whenever it returns no error, every entry holds
`=`, has the type replaces or skipRange and a value that is not empty after
trimming, and of the entries of one type all but the last have a value that
unquotes to the empty string. -/
theorem C22_Set_accepts_repeated_type (p : Char → Bool)
    (ParseRange : String → Option GoError) :
    emptyResolveTypes.Set p ParseRange "replaces=\x27\x27,replaces=foo" =
      (none, { SkipRange := "", Replaces := "foo" }) ∧
    (Split "replaces=\x27\x27,replaces=foo" ',').map entryOf =
      [some ("replaces", "\x27\x27"), some ("replaces", "foo")] ∧
    emptyResolveTypes.Set p ParseRange "replaces=\x27\x27" = (none, emptyResolveTypes) ∧
    (["", "replaces=foo,replaces=bar", "skipRange=<2.0.0,skipRange=>1.0.0", "foo=bar",
      "replaces=", "skipRange=", "replaces=foo,skipRange=", "replaces=,skipRange=<1.0.0"].map
        (fun str => (testSet str).1.isSome)).all id = true ∧
    (∀ (str : String) (m : ResolveTypes), emptyResolveTypes.Set p ParseRange str = (none, m) →
      (∀ e ∈ Split str ',', ∃ t v, entryOf e = some (t, v) ∧
        (t = "replaces" ∨ t = "skipRange") ∧ v ≠ "") ∧
      (∀ v ∈ (valuesOf "replaces" (Split str ',')).dropLast, removeQuotes v = .ok "") ∧
      (∀ v ∈ (valuesOf "skipRange" (Split str ',')).dropLast, removeQuotes v = .ok "")) := by
  have h1 : Split "replaces=\x27\x27,replaces=foo" ',' = ["replaces=\x27\x27", "replaces=foo"] := by
    decide
  have h2 : SplitN2 "replaces=foo" '=' = ["replaces", "foo"] := by decide
  have h3 : SplitN2 "replaces=\x27\x27" '=' = ["replaces", "\x27\x27"] := by decide
  have h4 : TrimSpace "replaces" = "replaces" := by decide
  have h5 : TrimSpace "foo" = "foo" := by decide
  have h6 : TrimSpace "\x27\x27" = "\x27\x27" := by decide
  have h7 : removeQuotes "\x27\x27" = .ok "" := by decide
  have h8 : removeQuotes "foo" = .ok "foo" := by decide
  have h9 : IsDNS1123Subdomain "foo" = [] := by decide
  have h10 : Split "replaces=\x27\x27" ',' = ["replaces=\x27\x27"] := by decide
  refine ⟨?_, by decide, ?_, by decide, ?_⟩
  · unfold ResolveTypes.Set
    rw [h1]
    simp [ResolveTypes.setModes, ResolveTypes.setMode, ResolveTypes.Validate, h2, h3, h4, h5, h6,
      h7, h8, h9, replaces, emptyResolveTypes]
  · unfold ResolveTypes.Set
    rw [h10]
    simp [ResolveTypes.setModes, ResolveTypes.setMode, ResolveTypes.Validate, h3, h4, h6, h7,
      replaces, emptyResolveTypes]
  · intro str m h
    have hloop : ResolveTypes.setModes p (Split str ',') emptyResolveTypes = (none, m) := by
      unfold ResolveTypes.Set at h
      cases hl : ResolveTypes.setModes p (Split str ',') emptyResolveTypes with
      | mk err m1 =>
        rw [hl] at h
        cases err with
        | some err => simp at h
        | none =>
          simp only [Prod.mk.injEq] at h
          rw [h.2]
    obtain ⟨r1, _, _, r4, r5⟩ := setModes_rejects p (Split str ',') emptyResolveTypes m hloop
    exact ⟨r1, r4, r5⟩

/-- `Set` reads back what `String` writes for a `Replaces` made of characters
of a DNS-1123 subdomain. -/
theorem setMode_replaces_quoted (p : Char → Bool) (r : String)
    (hchars : ∀ c ∈ r.data, isLowerAlnum c = true ∨ c = '-' ∨ c = '.') :
    replaces ++ "=" ++ Quote p r = "replaces=\"" ++ r ++ "\"" ∧
    Split (replaces ++ "=" ++ Quote p r) ',' = [replaces ++ "=" ++ Quote p r] ∧
    emptyResolveTypes.setMode p (replaces ++ "=" ++ Quote p r) =
      (none, { SkipRange := "", Replaces := r }) := by
  have hplain : ∀ c ∈ r.data, plainRune c = true := fun c hc => (dnsChar_plain c (hchars c hc)).1
  have hq : Quote p r = "\"" ++ r ++ "\"" := Quote_plain p r hplain
  have hstr : replaces ++ "=" ++ Quote p r = "replaces=\"" ++ r ++ "\"" := by
    rw [hq]
    apply String.ext
    simp [replaces, String.data_append]
  have hdata : ("replaces=\"" ++ r ++ "\"").data =
      'r' :: 'e' :: 'p' :: 'l' :: 'a' :: 'c' :: 'e' :: 's' :: '=' :: '"' :: (r.data ++ ['"']) := by
    simp [String.data_append]
  refine ⟨hstr, ?_, ?_⟩
  · rw [hstr]
    unfold Split
    rw [splitChars_of_not_mem]
    · rfl
    · rw [hdata]
      simp only [List.mem_cons, List.mem_append, List.mem_singleton, not_or]
      refine ⟨by decide, by decide, by decide, by decide, by decide, by decide, by decide,
        by decide, by decide, by decide, ?_, by decide, ?_⟩
      · intro hc
        exact (dnsChar_plain ',' (hchars ',' hc)).2.1 rfl
      · exact List.not_mem_nil _
  · rw [hstr]
    have hsplit : SplitN2 ("replaces=\"" ++ r ++ "\"") '=' =
        ["replaces", String.mk ('"' :: (r.data ++ ['"']))] := by
      unfold SplitN2
      rw [hdata]
      rfl
    have ht : TrimSpace "replaces" = "replaces" := by decide
    have hv : TrimSpace (String.mk ('"' :: (r.data ++ ['"']))) =
        String.mk ('"' :: (r.data ++ ['"'])) := by
      refine TrimSpace_of_ends _ ?_ ?_
      · intro c hc
        simp only [List.head?_cons, Option.some.injEq] at hc
        rw [← hc]
        decide
      · intro c hc
        rw [← List.cons_append, List.getLast?_append_of_ne_nil _ (by simp)] at hc
        simp only [List.getLast?_singleton, Option.some.injEq] at hc
        rw [← hc]
        decide
    have hne : String.mk ('"' :: (r.data ++ ['"'])) ≠ "" := by
      intro h
      rw [String_mk_eq_empty_iff] at h
      simp at h
    have hrq : removeQuotes (String.mk ('"' :: (r.data ++ ['"']))) = .ok r := by
      rw [removeQuotes_quoted '"' _ (Or.inr (Or.inl rfl)) (by simp)]
      rw [if_neg (by simp)]
      simp
    unfold ResolveTypes.setMode
    rw [hsplit]
    simp only [ht, hv, hrq]
    rw [if_neg (by decide), if_neg hne]
    simp [replaces, emptyResolveTypes]

/-- C27: `String` and `Set` round-trip for replaces. For every `ResolveTypes`
whose `SkipRange` is empty and whose `Replaces` is a DNS-1123 subdomain, as
`validation.IsDNS1123Subdomain` accepts it, `String` gives `replaces=` followed
by `Replaces` between double quotes, and `Set` on an empty `ResolveTypes` with
that string succeeds and leaves the receiver equal to the value. -/
theorem C27_String_Set_roundtrip (p : Char → Bool) (ParseRange : String → Option GoError)
    (m : ResolveTypes) (hskip : m.SkipRange = "")
    (hvalid : IsDNS1123Subdomain m.Replaces = []) :
    m.String p = "replaces=\"" ++ m.Replaces ++ "\"" ∧
    emptyResolveTypes.Set p ParseRange (m.String p) = (none, m) := by
  obtain ⟨skip, r⟩ := m
  simp only at hskip hvalid
  subst hskip
  obtain ⟨hne, hchars⟩ :=
    matchesDNS1123Subdomain_chars r (IsDNS1123Subdomain_eq_nil r hvalid)
  have hr : r ≠ "" := by
    intro h
    rw [h] at hne
    exact hne rfl
  obtain ⟨hstr, hsplit, hmode⟩ := setMode_replaces_quoted p r hchars
  have hS : ResolveTypes.String p { SkipRange := "", Replaces := r } =
      replaces ++ "=" ++ Quote p r := by
    unfold ResolveTypes.String
    simp [hr, Join, String.intercalate, String.intercalate.go]
  rw [hS]
  refine ⟨hstr, ?_⟩
  unfold ResolveTypes.Set
  rw [hsplit]
  simp only [ResolveTypes.setModes, hmode]
  unfold ResolveTypes.Validate
  simp [hvalid]

/-- The witness of C27: the subdomain `foo.bar-1`. -/
theorem C27_String_Set_roundtrip_witness :
    ResolveTypes.String (fun _ => false) { SkipRange := "", Replaces := "foo.bar-1" } =
      "replaces=\"foo.bar-1\"" ∧
    emptyResolveTypes.Set (fun _ => false) testParseRange "replaces=\"foo.bar-1\"" =
      (none, { SkipRange := "", Replaces := "foo.bar-1" }) := by
  have h := C27_String_Set_roundtrip (fun _ => false) testParseRange
    { SkipRange := "", Replaces := "foo.bar-1" } rfl (by decide)
  have hs : ResolveTypes.String (fun _ => false) { SkipRange := "", Replaces := "foo.bar-1" } =
      "replaces=\"foo.bar-1\"" := by decide
  rw [hs] at h
  exact ⟨hs, h.2⟩

theorem utf8Size_of_ascii (c : Char) (h : c.toNat < 128) : c.utf8Size = 1 := by
  unfold Char.utf8Size
  have hv : c.val ≤ UInt32.ofNatCore 127 Char.utf8Size.proof_1 := by
    show c.val.toNat ≤ 127
    have : c.val.toNat = c.toNat := rfl
    omega
  exact if_pos hv

theorem len_of_ascii (l : List Char) (h : ∀ c ∈ l, c.toNat < 128) : len ⟨l⟩ = l.length := by
  unfold len
  induction l with
  | nil => rfl
  | cons a t ih =>
    simp only [List.map_cons, List.sum_cons, List.length_cons]
    rw [utf8Size_of_ascii a (h a (by simp))]
    have := ih (fun c hc => h c (by simp [hc]))
    simp only at this
    omega

theorem isAlphanum_iff_toNat (c : Char) :
    c.isAlphanum = true ↔
      (65 ≤ c.toNat ∧ c.toNat ≤ 90) ∨ (97 ≤ c.toNat ∧ c.toNat ≤ 122) ∨
      (48 ≤ c.toNat ∧ c.toNat ≤ 57) := by
  unfold Char.isAlphanum Char.isAlpha Char.isUpper Char.isLower Char.isDigit Char.toNat
  simp only [Bool.or_eq_true, Bool.and_eq_true, decide_eq_true_eq, ge_iff_le]
  constructor
  · rintro ((h | h) | h)
    · exact Or.inl h
    · exact Or.inr (Or.inl h)
    · exact Or.inr (Or.inr h)
  · rintro (h | h | h)
    · exact Or.inl (Or.inl h)
    · exact Or.inl (Or.inr h)
    · exact Or.inr h

/-- A character of a name: an ASCII letter, a digit or the separator. -/
theorem nameChar_ascii (c : Char) (h : c.isAlphanum = true ∨ c = '-') : c.toNat < 128 := by
  rcases h with h | rfl
  · rw [isAlphanum_iff_toNat] at h
    omega
  · decide

theorem isAlphanum_ne_sep (c : Char) (h : c.isAlphanum = true) : c ≠ '-' := by
  rintro rfl
  exact absurd h (by decide)

/-- What the replacement writes: letters, digits and separators, never two
separators in a row, and no separator first when the character before was
replaced already. -/
theorem replaceRuns_props (l : List Char) : ∀ inRun : Bool,
    (∀ c ∈ replaceRuns inRun l, c.isAlphanum = true ∨ c = '-') ∧
    List.Chain' (fun a b => ¬ (a = '-' ∧ b = '-')) (replaceRuns inRun l) ∧
    (inRun = true → (replaceRuns inRun l).head? ≠ some '-') ∧
    (inRun = false → l ≠ [] → replaceRuns inRun l ≠ []) := by
  induction l with
  | nil =>
    intro inRun
    simp [replaceRuns]
  | cons a t ih =>
    intro inRun
    by_cases ha : a.isAlphanum = true
    · have hr : replaceRuns inRun (a :: t) = a :: replaceRuns false t := by
        rw [replaceRuns, if_pos ha]
      obtain ⟨h1, h2, _, _⟩ := ih false
      rw [hr]
      refine ⟨?_, ?_, ?_, ?_⟩
      · intro c hc
        rcases List.mem_cons.mp hc with rfl | hc
        · exact Or.inl ha
        · exact h1 c hc
      · rw [List.chain'_cons']
        refine ⟨?_, h2⟩
        intro y _ hy
        exact isAlphanum_ne_sep a ha hy.1
      · intro _ h
        simp only [List.head?_cons, Option.some.injEq] at h
        exact isAlphanum_ne_sep a ha h
      · intro _ _
        simp
    · cases inRun with
      | true =>
        have hr : replaceRuns true (a :: t) = replaceRuns true t := by
          rw [replaceRuns, if_neg ha]
          rfl
        obtain ⟨h1, h2, h3, _⟩ := ih true
        rw [hr]
        exact ⟨h1, h2, h3, fun h => absurd h (by simp)⟩
      | false =>
        have hr : replaceRuns false (a :: t) = '-' :: replaceRuns true t := by
          rw [replaceRuns, if_neg ha]
          rfl
        obtain ⟨h1, h2, h3, _⟩ := ih true
        rw [hr]
        refine ⟨?_, ?_, fun h => absurd h (by simp), fun _ _ => by simp⟩
        · intro c hc
          rcases List.mem_cons.mp hc with rfl | hc
          · exact Or.inr rfl
          · exact h1 c hc
        · rw [List.chain'_cons']
          refine ⟨?_, h2⟩
          intro y hy hboth
          have hhead : (replaceRuns true t).head? = some y := by simpa using hy
          rw [hboth.2] at hhead
          exact h3 rfl hhead

/-- A DNS-1123 label is made of lower-case letters, digits and separators. -/
theorem matchesDNS1123Label_chars (l : List Char) (h : matchesDNS1123Label l = true) :
    ∀ c ∈ l, c.isAlphanum = true ∨ c = '-' := by
  intro c hc
  unfold matchesDNS1123Label at h
  cases l with
  | nil => simp at hc
  | cons first t =>
    simp only [Bool.and_eq_true, List.all_eq_true, Bool.or_eq_true, beq_iff_eq] at h
    rcases h.1.2 c hc with h1 | h1
    · left
      unfold isLowerAlnum at h1
      rw [Bool.or_eq_true] at h1
      unfold Char.isAlphanum Char.isAlpha
      rcases h1 with h1 | h1 <;> simp [h1]
    · exact Or.inr h1
/-- What the formatter returns: letters, digits and separators only, something
when the name is not empty, and never two separators in a row when it had to
replace characters. -/
theorem specFormat_props (name : String) :
    (∀ c ∈ (specFormatOperatorNameDNS1123 name).data, c.isAlphanum = true ∨ c = '-') ∧
    (name ≠ "" → specFormatOperatorNameDNS1123 name ≠ "") ∧
    (63 < len (specFormatOperatorNameDNS1123 name) →
      List.Chain' (fun a b => ¬ (a = '-' ∧ b = '-')) (specFormatOperatorNameDNS1123 name).data) ∧
    (isDNS1123Label name = true → specFormatOperatorNameDNS1123 name = name) := by
  unfold specFormatOperatorNameDNS1123
  by_cases hl : isDNS1123Label name = true
  · rw [if_pos hl]
    have hl2 := hl
    unfold isDNS1123Label at hl2
    rw [Bool.and_eq_true, decide_eq_true_eq] at hl2
    refine ⟨matchesDNS1123Label_chars _ hl2.2, fun h => h, ?_, fun _ => rfl⟩
    intro h
    have := hl2.1
    unfold DNS1123LabelMaxLength at this
    omega
  · rw [if_neg hl]
    obtain ⟨h1, h2, _, h4⟩ := replaceRuns_props name.data false
    refine ⟨h1, ?_, fun _ => h2, fun h => absurd h hl⟩
    intro hne
    rw [Ne, String_mk_eq_empty_iff]
    refine h4 rfl ?_
    intro hnil
    apply hne
    exact String.ext hnil

/-- C13, amended: for every bundle image reference `getPodName`, with the name
helpers of `internal/util/k8sutil`, returns a name of at most 63 characters
made of ASCII letters, digits and `-` only, which is not empty when the
reference is not. Upper-case letters are kept. A name that had to be cut to 63
characters neither starts nor ends with `-`; a shorter one is what the
formatter wrote, separators at the ends included, and a reference that is a
DNS-1123 label already is its own name. -/
theorem C13_getPodName_legal (env : Env) (bundleImage : String) :
    (getPodName (withSpecNames env) bundleImage).length ≤ 63 ∧
    (∀ c ∈ (getPodName (withSpecNames env) bundleImage).data, c.isAlphanum = true ∨ c = '-') ∧
    (bundleImage ≠ "" → getPodName (withSpecNames env) bundleImage ≠ "") ∧
    (63 < (specFormatOperatorNameDNS1123 bundleImage).length →
      (getPodName (withSpecNames env) bundleImage).data.head? ≠ some '-' ∧
      (getPodName (withSpecNames env) bundleImage).data.getLast? ≠ some '-') ∧
    ((specFormatOperatorNameDNS1123 bundleImage).length ≤ 63 →
      getPodName (withSpecNames env) bundleImage = specFormatOperatorNameDNS1123 bundleImage) ∧
    (isDNS1123Label bundleImage = true → getPodName (withSpecNames env) bundleImage = bundleImage) := by
  have hname : getPodName (withSpecNames env) bundleImage =
      specTrimDNS1123Label (specFormatOperatorNameDNS1123 bundleImage) := rfl
  obtain ⟨hchars, hne, hchain, hlabel⟩ := specFormat_props bundleImage
  have hlen : len (specFormatOperatorNameDNS1123 bundleImage) =
      (specFormatOperatorNameDNS1123 bundleImage).length :=
    len_of_ascii _ (fun c hc => nameChar_ascii c (hchars c hc))
  rw [hname]
  generalize specFormatOperatorNameDNS1123 bundleImage = f at hchars hne hchain hlabel hlen
  have hflen : f.length = f.data.length := rfl
  by_cases hlong : 63 < f.length
  · have htrim : specTrimDNS1123Label f =
        String.mk (((f.data.drop (f.data.length - 63)).dropWhile
          (· == '-')).reverse.dropWhile (· == '-')).reverse := by
      unfold specTrimDNS1123Label
      rw [if_pos (by rw [hlen]; exact hlong)]
    obtain ⟨t1, t2, t3, t4, t5⟩ := trim_both_ends (· == '-') '-' (by decide)
      (f.data.drop (f.data.length - 63))
    have hdroplen : (f.data.drop (f.data.length - 63)).length = 63 := by
      rw [List.length_drop]
      omega
    have hnonempty : specTrimDNS1123Label f ≠ "" := by
      rw [htrim, Ne, String_mk_eq_empty_iff, t5]
      intro hall
      have hc : List.Chain' (fun a b => ¬ (a = '-' ∧ b = '-'))
          (f.data.drop (f.data.length - 63)) :=
        (hchain (by rw [hlen]; exact hlong)).drop _
      cases hd : f.data.drop (f.data.length - 63) with
      | nil => rw [hd] at hdroplen; simp at hdroplen
      | cons a rest =>
        cases rest with
        | nil => rw [hd] at hdroplen; simp at hdroplen
        | cons b rest =>
          rw [hd] at hc hall
          have ha := hall a (by simp)
          have hb := hall b (by simp)
          simp only [beq_iff_eq] at ha hb
          rw [List.chain'_cons] at hc
          exact hc.1 ⟨ha, hb⟩
    refine ⟨?_, ?_, fun _ => hnonempty, fun _ => ?_, fun h => absurd hlong (by omega), ?_⟩
    · rw [htrim, String.length_mk]
      omega
    · intro c hc
      rw [htrim] at hc
      exact hchars c (List.mem_of_mem_drop (t2 c hc))
    · rw [htrim]
      exact ⟨t3, t4⟩
    · intro hl
      have := hlabel hl
      have hl2 := hl
      unfold isDNS1123Label at hl2
      rw [Bool.and_eq_true, decide_eq_true_eq] at hl2
      rw [this] at hlen hlong
      have := hl2.1
      unfold DNS1123LabelMaxLength at this
      omega
  · have htrim : specTrimDNS1123Label f = f := by
      unfold specTrimDNS1123Label
      rw [if_neg (by rw [hlen]; exact hlong)]
    rw [htrim]
    refine ⟨by omega, hchars, hne, fun h => absurd h hlong, fun _ => rfl, hlabel⟩

set_option maxRecDepth 100000 in
/-- C13, as stated, fails: the references `///`, `ABC` and `registry/` are
accepted by `validate`, yet the names derived from them are `-`, which starts
and ends with the separator, `ABC`, which holds upper-case letters, and
`registry-`, which ends with the separator. -/
theorem C13_counterexample_separators_only :
    RegistryPod.validate testEnv.unicodeIsPrint (newRegistryPod "/database/index.db" "///") =
      none ∧
    getPodName testEnv "///" = "-" ∧
    (getPodName testEnv "///").data.head? = some '-' ∧
    RegistryPod.validate testEnv.unicodeIsPrint (newRegistryPod "/database/index.db" "ABC") =
      none ∧
    getPodName testEnv "ABC" = "ABC" ∧
    (getPodName testEnv "ABC").data.all legalNameChar = false ∧
    RegistryPod.validate testEnv.unicodeIsPrint
      (newRegistryPod "/database/index.db" "registry/") = none ∧
    getPodName testEnv "registry/" = "registry-" ∧
    (getPodName testEnv "registry/").data.getLast? = some '-' := by
  refine ⟨?_, ?_, ?_, ?_, ?_, ?_, ?_, ?_, ?_⟩ <;> decide

theorem podCheck_calls (env : Env) (podKey : ObjectKey) (pod : Pod) (cl : Client) :
    (podCheck env podKey pod cl).2.2.calls = cl.calls ++ [.get podsResource podKey] := by
  have hg := GetPod_eq env.unicodeIsPrint cl podKey
  unfold podCheck
  cases hr : (cl.GetPod env.unicodeIsPrint podKey).1 with
  | error err => rw [hr] at hg; simp [hg]
  | ok read => rw [hr] at hg; simp [hg]

theorem catSrcCheck_calls (env : Env) (catSrcKey : ObjectKey) (cs : CatalogSource)
    (cl : Client) :
    (catSrcCheck env catSrcKey cs cl).2.2.calls =
      cl.calls ++ [.get catalogSourcesResource catSrcKey] := by
  have hg := GetCatalogSource_eq env.unicodeIsPrint cl catSrcKey
  unfold catSrcCheck
  cases hr : (cl.GetCatalogSource env.unicodeIsPrint catSrcKey).1 with
  | error err => rw [hr] at hg; simp [hg]
  | ok read =>
    rw [hr] at hg
    simp only [hg]
    cases hst : read.Status.GRPCConnectionState with
    | none => simp [hst]
    | some st =>
      by_cases hready : st.LastObservedState = "READY"
      · simp [hst, hready]
      · simp [hst, hready]

/-- When every invocation of a condition makes the one call `c`, the trace
after the invocation number `j` holds `j + 1` such calls more. -/
theorem invocation_calls {α : Type} (env : Env)
    (condition : α → Client → Except GoError Bool × α × Client) (c : Call)
    (hcalls : ∀ a cl, (condition a cl).2.2.calls = cl.calls ++ [c]) (a : α) (cl : Client) :
    ∀ j : Nat, (invocation env condition a cl j).2.2.calls =
      cl.calls ++ List.replicate (j + 1) c := by
  intro j
  induction j with
  | zero => exact hcalls a cl
  | succ k ih =>
    rw [invocation, hcalls]
    simp only
    rw [ih, List.append_assoc, List.replicate_succ' (k + 1)]

set_option maxRecDepth 1000000 in
/-- C20: both polling loops run `PollImmediateUntil` with the interval of
200 ms and the cancellation of the caller's context. For every check, interval
and context: the check is evaluated at once and then on every tick of the
interval; the poll returns no error at the first invocation that reports done,
in the state that invocation leaves and as many intervals after the start as
ticks have passed, however many invocations that takes (there is no retry
limit, only the cancellation); it returns the check's error at the first
invocation that reports one; and it returns the timeout error when no
invocation up to the last tick before cancellation reports either.
`waitForCatalogSource` is this poll of `catSrcCheck` and `createRegistryPod`,
once the pod is there, this poll of `podCheck`, both every 200 ms, and every
invocation of either check is one read. A check that first reports done on its
third call ends the poll without error after exactly three invocations, that is
three reads and 400 ms for the catalog loop. In a slow cluster `CreateCatalog`
reads the pod three times and then the catalog source three times and succeeds
when it is given 800 ms, and times out when given 799 ms; a failing read aborts
the pod loop with that error; cancellation ends either loop with the timeout
error. -/
theorem C20_polling_loops :
    (∀ (α : Type) (env : Env) (interval ctx : Nat)
        (condition : α → Client → Except GoError Bool × α × Client) (a : α) (cl : Client)
        (j : Nat),
      j ≤ ctx / interval →
      (∀ i, i < j → (invocation env condition a cl i).1 = .ok false) →
      ((invocation env condition a cl j).1 = .ok true →
        PollImmediateUntil env interval condition ctx a cl =
          (none, (invocation env condition a cl j).2.1, (invocation env condition a cl j).2.2,
            ctx - j * interval)) ∧
      (∀ e, (invocation env condition a cl j).1 = .error e →
        PollImmediateUntil env interval condition ctx a cl =
          (some e, (invocation env condition a cl j).2.1, (invocation env condition a cl j).2.2,
            ctx - j * interval))) ∧
    (∀ (α : Type) (env : Env) (interval ctx : Nat)
        (condition : α → Client → Except GoError Bool × α × Client) (a : α) (cl : Client),
      (∀ i, i ≤ ctx / interval → (invocation env condition a cl i).1 = .ok false) →
      PollImmediateUntil env interval condition ctx a cl =
        (some (.errorString "timed out waiting for the condition"),
          (invocation env condition a cl (ctx / interval)).2.1,
          (invocation env condition a cl (ctx / interval)).2.2, 0)) ∧
    (∀ (α : Type) (env : Env) (interval ctx : Nat)
        (condition : α → Client → Except GoError Bool × α × Client) (a : α) (cl : Client),
      2 ≤ ctx / interval →
      (invocation env condition a cl 0).1 = .ok false →
      (invocation env condition a cl 1).1 = .ok false →
      (invocation env condition a cl 2).1 = .ok true →
      PollImmediateUntil env interval condition ctx a cl =
        (none, (invocation env condition a cl 2).2.1, (invocation env condition a cl 2).2.2,
          ctx - 2 * interval)) ∧
    (∀ (env : Env) (ctx : Nat) (cs : CatalogSource) (cl : Client),
      waitForCatalogSource env ctx cs cl =
        match PollImmediateUntil env (200 * Millisecond) (catSrcCheck env cs.key) ctx cs cl with
        | (some err, cs1, cl1, ctx1) =>
          (some (.errorString ("catalog source connection is not ready: " ++ err.Error)),
            cs1, cl1, ctx1)
        | (none, cs1, cl1, ctx1) => (none, cs1, cl1, ctx1)) ∧
    (∀ (env : Env) (c : IndexImageCatalogCreator) (ctx : Nat) (cs : CatalogSource)
        (dbPath : String) (cl : Client) (mode : BundleAddModeType) (pod : Pod) (cl1 : Client),
      ParseBundleAddMode env.unicodeIsPrint c.InjectBundleMode = (mode, none) →
      RegistryPod.Create env
        { IndexImage := c.IndexImage, BundleImage := c.BundleImage, DBPath := dbPath,
          BundleAddMode := mode } c.cfg cs cl = (.ok pod, cl1) →
      c.createRegistryPod env ctx cs dbPath cl =
        match PollImmediateUntil env (200 * Millisecond) (podCheck env pod.key) ctx pod cl1 with
        | (some err, _, cl2, ctx2) =>
          (.error (.errorString ("error waiting for registry pod " ++ pod.ObjectMeta.Name ++
            " to run: " ++ err.Error)), cl2, ctx2)
        | (none, pod2, cl2, ctx2) => (.ok pod2, cl2, ctx2)) ∧
    (∀ (env : Env) (podKey : ObjectKey) (pod : Pod) (cl : Client) (j : Nat),
      (invocation env (podCheck env podKey) pod cl j).2.2.calls =
        cl.calls ++ List.replicate (j + 1) (.get podsResource podKey)) ∧
    (∀ (env : Env) (catSrcKey : ObjectKey) (cs : CatalogSource) (cl : Client) (j : Nat),
      (invocation env (catSrcCheck env catSrcKey) cs cl j).2.2.calls =
        cl.calls ++ List.replicate (j + 1) (.get catalogSourcesResource catSrcKey)) ∧
    (∀ (env : Env) (ctx : Nat) (cs : CatalogSource) (cl : Client),
      400 * Millisecond ≤ ctx →
      (invocation env (catSrcCheck env cs.key) cs cl 0).1 = .ok false →
      (invocation env (catSrcCheck env cs.key) cs cl 1).1 = .ok false →
      (invocation env (catSrcCheck env cs.key) cs cl 2).1 = .ok true →
      (waitForCatalogSource env ctx cs cl).1 = none ∧
      (waitForCatalogSource env ctx cs cl).2.2.1.calls =
        cl.calls ++ [.get catalogSourcesResource cs.key, .get catalogSourcesResource cs.key,
          .get catalogSourcesResource cs.key] ∧
      (waitForCatalogSource env ctx cs cl).2.2.2 = ctx - 400 * Millisecond) ∧
    (∀ (env : Env) (c : IndexImageCatalogCreator) (ctx : Nat) (cs : CatalogSource)
        (dbPath : String) (cl : Client) (mode : BundleAddModeType) (pod : Pod) (cl1 : Client),
      ParseBundleAddMode env.unicodeIsPrint c.InjectBundleMode = (mode, none) →
      RegistryPod.Create env
        { IndexImage := c.IndexImage, BundleImage := c.BundleImage, DBPath := dbPath,
          BundleAddMode := mode } c.cfg cs cl = (.ok pod, cl1) →
      400 * Millisecond ≤ ctx →
      (invocation env (podCheck env pod.key) pod cl1 0).1 = .ok false →
      (invocation env (podCheck env pod.key) pod cl1 1).1 = .ok false →
      (invocation env (podCheck env pod.key) pod cl1 2).1 = .ok true →
      (c.createRegistryPod env ctx cs dbPath cl).1 =
        .ok (invocation env (podCheck env pod.key) pod cl1 2).2.1 ∧
      (c.createRegistryPod env ctx cs dbPath cl).2.1.calls =
        cl1.calls ++ [.get podsResource pod.key, .get podsResource pod.key,
          .get podsResource pod.key] ∧
      (c.createRegistryPod env ctx cs dbPath cl).2.2 = ctx - 400 * Millisecond) ∧
    ((testCreator.CreateCatalog slowEnv (2000 * Millisecond) "example-catalog"
        newFakeClient).1.toOption.isSome = true ∧
      (testCreator.CreateCatalog slowEnv (2000 * Millisecond) "example-catalog"
        newFakeClient).2.1.calls =
        [.create catalogSourcesResource { Namespace := "default", Name := "example-catalog" },
         .get podsResource
          { Namespace := "default", Name := "quay-io-example-example-operator-bundle-0-2-0" },
         .create podsResource
          { Namespace := "default", Name := "quay-io-example-example-operator-bundle-0-2-0" },
         .get podsResource
          { Namespace := "default", Name := "quay-io-example-example-operator-bundle-0-2-0" },
         .get podsResource
          { Namespace := "default", Name := "quay-io-example-example-operator-bundle-0-2-0" },
         .get podsResource
          { Namespace := "default", Name := "quay-io-example-example-operator-bundle-0-2-0" },
         .get catalogSourcesResource { Namespace := "default", Name := "example-catalog" },
         .get catalogSourcesResource { Namespace := "default", Name := "example-catalog" },
         .get catalogSourcesResource { Namespace := "default", Name := "example-catalog" }] ∧
      (testCreator.CreateCatalog slowEnv (2000 * Millisecond) "example-catalog"
        newFakeClient).2.2 = 1200 * Millisecond) ∧
    ((testCreator.CreateCatalog slowEnv (800 * Millisecond) "example-catalog"
        newFakeClient).1.toOption.isSome = true ∧
      (testCreator.CreateCatalog slowEnv (799 * Millisecond) "example-catalog"
        newFakeClient).1 =
        .error (.errorString
          "catalog source connection is not ready: timed out waiting for the condition")) ∧
    ((testCreator.CreateCatalog slowEnv (2000 * Millisecond) "example-catalog"
        clientFailingFifthCall).1 =
        .error (.errorString ("error in creating registry pod: error waiting for registry pod " ++
          "quay-io-example-example-operator-bundle-0-2-0 to run: error getting pod " ++
          "quay-io-example-example-operator-bundle-0-2-0: etcdserver: request timed out")) ∧
      (testCreator.CreateCatalog slowEnv (2000 * Millisecond) "example-catalog"
        clientFailingFifthCall).2.1.calls.length = 5) ∧
    ((testCreator.CreateCatalog testEnv (400 * Millisecond) "example-catalog" newFakeClient).1 =
        .error (.errorString ("error in creating registry pod: error waiting for registry pod " ++
          "quay-io-example-example-operator-bundle-0-2-0 to run: " ++
          "timed out waiting for the condition")) ∧
      (testCreator.CreateCatalog testEnv (400 * Millisecond) "example-catalog"
        newFakeClient).2.1.calls.length = 6 ∧
      (testCreator.CreateCatalog testEnv (399 * Millisecond) "example-catalog"
        newFakeClient).2.1.calls.length = 5) ∧
    ((testCreator.CreateCatalog slowEnv (600 * Millisecond) "example-catalog" newFakeClient).1 =
        .error (.errorString
          "catalog source connection is not ready: timed out waiting for the condition") ∧
      (testCreator.CreateCatalog slowEnv (600 * Millisecond) "example-catalog"
        newFakeClient).2.1.calls.length = 8) := by
  have hwait : ∀ (env : Env) (ctx : Nat) (cs : CatalogSource) (cl : Client),
      waitForCatalogSource env ctx cs cl =
        match PollImmediateUntil env (200 * Millisecond) (catSrcCheck env cs.key) ctx cs cl with
        | (some err, cs1, cl1, ctx1) =>
          (some (.errorString ("catalog source connection is not ready: " ++ err.Error)),
            cs1, cl1, ctx1)
        | (none, cs1, cl1, ctx1) => (none, cs1, cl1, ctx1) := by
    intro env ctx cs cl
    rfl
  have hpod : ∀ (env : Env) (c : IndexImageCatalogCreator) (ctx : Nat) (cs : CatalogSource)
      (dbPath : String) (cl : Client) (mode : BundleAddModeType) (pod : Pod) (cl1 : Client),
      ParseBundleAddMode env.unicodeIsPrint c.InjectBundleMode = (mode, none) →
      RegistryPod.Create env
        { IndexImage := c.IndexImage, BundleImage := c.BundleImage, DBPath := dbPath,
          BundleAddMode := mode } c.cfg cs cl = (.ok pod, cl1) →
      c.createRegistryPod env ctx cs dbPath cl =
        match PollImmediateUntil env (200 * Millisecond) (podCheck env pod.key) ctx pod cl1 with
        | (some err, _, cl2, ctx2) =>
          (.error (.errorString ("error waiting for registry pod " ++ pod.ObjectMeta.Name ++
            " to run: " ++ err.Error)), cl2, ctx2)
        | (none, pod2, cl2, ctx2) => (.ok pod2, cl2, ctx2) := by
    intro env c ctx cs dbPath cl mode pod cl1 hparse hcreate
    unfold IndexImageCatalogCreator.createRegistryPod
    rw [hparse]
    simp only [hcreate, ObjectKeyFromObject]
    rfl
  have hticks : ∀ ctx : Nat, 400 * Millisecond ≤ ctx → 2 ≤ ctx / (200 * Millisecond) := by
    intro ctx hctx
    rw [Nat.le_div_iff_mul_le (by decide)]
    have : 2 * (200 * Millisecond) = 400 * Millisecond := by decide
    omega
  refine ⟨?_, ?_, ?_, hwait, hpod, ?_, ?_, ?_, ?_, ?_, ?_, ?_, ?_, ?_⟩
  · intro α env interval ctx condition a cl j hj hfalse
    exact PollImmediateUntil_stop env interval condition ctx a cl j hj hfalse
  · intro α env interval ctx condition a cl hfalse
    exact PollImmediateUntil_timeout env interval condition ctx a cl hfalse
  · intro α env interval ctx condition a cl h2 h0 h1 hdone
    refine (PollImmediateUntil_stop env interval condition ctx a cl 2 h2 ?_).1 hdone
    intro i hi
    interval_cases i
    · exact h0
    · exact h1
  · intro env podKey pod cl j
    exact invocation_calls env _ _ (podCheck_calls env podKey) pod cl j
  · intro env catSrcKey cs cl j
    exact invocation_calls env _ _ (catSrcCheck_calls env catSrcKey) cs cl j
  · intro env ctx cs cl hctx h0 h1 hdone
    have hpoll := (PollImmediateUntil_stop env (200 * Millisecond) (catSrcCheck env cs.key)
      ctx cs cl 2 (hticks ctx hctx) (by
        intro i hi
        interval_cases i
        · exact h0
        · exact h1)).1 hdone
    have hcalls := invocation_calls env _ _ (catSrcCheck_calls env cs.key) cs cl 2
    rw [hwait, hpoll]
    refine ⟨rfl, ?_, ?_⟩
    · exact hcalls
    · show ctx - 2 * (200 * Millisecond) = ctx - 400 * Millisecond
      rfl
  · intro env c ctx cs dbPath cl mode pod cl1 hparse hcreate hctx h0 h1 hdone
    have hpoll := (PollImmediateUntil_stop env (200 * Millisecond) (podCheck env pod.key)
      ctx pod cl1 2 (hticks ctx hctx) (by
        intro i hi
        interval_cases i
        · exact h0
        · exact h1)).1 hdone
    have hcalls := invocation_calls env _ _ (podCheck_calls env pod.key) pod cl1 2
    rw [hpod env c ctx cs dbPath cl mode pod cl1 hparse hcreate, hpoll]
    refine ⟨rfl, ?_, ?_⟩
    · exact hcalls
    · show ctx - 2 * (200 * Millisecond) = ctx - 400 * Millisecond
      rfl
  · refine ⟨?_, ?_, ?_⟩ <;> decide
  · refine ⟨?_, ?_⟩ <;> decide
  · refine ⟨?_, ?_⟩ <;> decide
  · refine ⟨?_, ?_, ?_⟩ <;> decide
  · refine ⟨?_, ?_⟩ <;> decide

set_option maxRecDepth 1000000 in
/-- The witness of C20: in the slow cluster the catalog source is seen READY
by the third read, so `waitForCatalogSource` with 400 ms to go returns no
error after exactly three reads, with no time left. -/
theorem C20_polling_loops_witness :
    (waitForCatalogSource slowEnv (400 * Millisecond)
      (newCatalogSource "example-catalog" "default" []) clientWithNewCatalog).1 = none ∧
    (waitForCatalogSource slowEnv (400 * Millisecond)
      (newCatalogSource "example-catalog" "default" []) clientWithNewCatalog).2.2.1.calls =
      [.get catalogSourcesResource { Namespace := "default", Name := "example-catalog" },
       .get catalogSourcesResource { Namespace := "default", Name := "example-catalog" },
       .get catalogSourcesResource { Namespace := "default", Name := "example-catalog" }] ∧
    (waitForCatalogSource slowEnv (400 * Millisecond)
      (newCatalogSource "example-catalog" "default" []) clientWithNewCatalog).2.2.2 = 0 :=
  C20_polling_loops.2.2.2.2.2.2.2.1 slowEnv (400 * Millisecond)
    (newCatalogSource "example-catalog" "default" []) clientWithNewCatalog
    (by decide) (by decide) (by decide) (by decide)

end OperatorSDK
